import Mathlib

/-!
# Rolling-block puzzle (`game.cpp`): embedding of the rule engine

The game logic lives in `draw(window, …, t = 0)`: a chain of twelve key
handlers (one per orientation and key) followed by a per-orientation check
of the cells under the block.  All the state is global; here it is one
record, `Game`, threaded through the functions.

Modelling choices, all visible in the definitions:

* `rect_posx`, `rect_posz` are C `float`s that only ever hold integers (they
  start at `-5` and change by `±1`, `±2` or are set to `-5`), so they are
  `Int` here and the casts `(int)rect_posx` are the identity.
* `score`, `score2`, `level`, `win`, `bridge_stat`, the key flags and the
  three `cube[..].status` fields are C `int`s; they are `Int` here, without
  wrap-around (a score needs `2^31` moves to overflow).
* A table read `t[i][j]` with `i` or `j` outside `0..9` is undefined in C.
  The value such a read yields is a parameter `oob` of every function that
  reads a table, so each theorem holds whatever such a read returns.
-/

namespace Bloxorz

/-! ## The level tables -/

/-- A level table, `int t[10][10]`, as its rows. -/
abbrev Table := List (List Int)

/-- What a read outside a table yields: table, row index, column index. -/
abbrev Oob := Table → Int → Int → Int

def normal_pos : Table := [
  [1,0,0,0,0,0,0,0,0,0],
  [1,0,0,0,0,0,0,0,0,0],
  [1,0,0,0,0,0,0,0,0,0],
  [1,1,1,2,1,1,1,1,1,0],
  [0,0,0,0,0,0,0,0,0,0],
  [0,0,0,0,0,0,0,0,0,0],
  [0,0,0,0,0,0,0,0,0,0],
  [0,0,0,0,0,0,0,0,0,0],
  [0,0,0,0,0,0,0,0,0,0],
  [0,0,0,0,0,0,0,0,0,0]]

def goal_normal : Table := [
  [0,0,0,0,0,0,0,0,0,0],
  [0,0,0,0,0,0,0,0,0,0],
  [0,0,0,0,0,0,0,0,0,0],
  [0,0,0,0,0,0,0,0,0,1],
  [0,0,0,0,0,0,0,0,0,0],
  [0,0,0,0,0,0,0,0,0,0],
  [0,0,0,0,0,0,0,0,0,0],
  [0,0,0,0,0,0,0,0,0,0],
  [0,0,0,0,0,0,0,0,0,0],
  [0,0,0,0,0,0,0,0,0,0]]

def frag_normal : Table := [
  [0,0,0,0,0,0,0,0,0,0],
  [0,0,0,0,0,0,0,0,0,0],
  [0,0,0,0,0,0,0,0,0,0],
  [0,1,0,0,0,0,0,0,0,0],
  [0,0,0,0,0,0,0,0,0,0],
  [0,0,0,0,0,0,0,0,0,0],
  [0,0,0,0,0,0,0,0,0,0],
  [0,0,0,0,0,0,0,0,0,0],
  [0,0,0,0,0,0,0,0,0,0],
  [0,0,0,0,0,0,0,0,0,0]]

def bridge_normal : Table := [
  [0,0,0,0,0,0,0,0,0,0],
  [0,0,0,0,0,0,0,0,0,0],
  [0,0,0,0,0,0,0,0,0,0],
  [0,0,0,0,1,1,0,0,0,0],
  [0,0,0,0,0,0,0,0,0,0],
  [0,0,0,0,0,0,0,0,0,0],
  [0,0,0,0,0,0,0,0,0,0],
  [0,0,0,0,0,0,0,0,0,0],
  [0,0,0,0,0,0,0,0,0,0],
  [0,0,0,0,0,0,0,0,0,0]]

def normal_pos2 : Table := [
  [1,1,1,1,1,0,0,0,0,0],
  [1,1,1,1,1,1,0,0,0,0],
  [1,1,1,1,1,0,0,0,0,0],
  [1,1,1,1,1,1,2,1,0,0],
  [0,0,0,0,1,1,1,1,0,0],
  [0,0,1,1,1,1,1,1,0,0],
  [0,0,0,1,1,1,1,1,1,1],
  [0,0,1,1,1,1,1,1,1,1],
  [0,0,0,0,0,1,1,1,0,1],
  [0,0,0,0,0,1,1,1,1,1]]

def goal_normal2 : Table := [
  [0,0,0,0,0,0,0,0,0,0],
  [0,0,0,0,0,0,0,0,0,0],
  [0,0,0,0,0,0,0,0,0,0],
  [0,0,0,0,0,0,0,0,0,0],
  [0,0,0,0,0,0,0,0,0,0],
  [0,0,0,0,0,0,0,0,0,0],
  [0,0,0,0,0,0,0,0,0,0],
  [0,0,0,0,0,0,0,0,0,0],
  [0,0,0,0,0,0,0,0,1,0],
  [0,0,0,0,0,0,0,0,0,0]]

def frag_normal2 : Table := [
  [0,0,0,0,0,0,0,0,0,0],
  [0,0,0,0,0,0,0,0,0,0],
  [0,1,1,0,0,0,0,0,0,0],
  [0,0,0,0,0,0,0,0,0,0],
  [0,0,0,0,0,0,0,0,0,0],
  [0,0,0,0,0,0,0,0,0,0],
  [0,0,0,0,0,0,0,0,0,0],
  [0,0,0,0,0,0,0,0,0,0],
  [0,0,0,0,0,0,1,1,0,0],
  [0,0,0,0,0,0,0,0,0,0]]

def bridge_normal2 : Table := [
  [0,0,0,0,0,0,0,0,0,0],
  [0,0,0,0,0,0,0,0,0,0],
  [0,0,0,0,0,0,0,0,0,0],
  [0,0,0,0,0,0,0,0,0,0],
  [0,0,0,0,1,1,1,0,0,0],
  [0,0,0,0,0,0,0,0,0,0],
  [0,0,0,0,0,0,0,0,0,0],
  [0,0,0,0,0,0,0,0,0,0],
  [0,0,0,0,0,0,1,1,0,0],
  [0,0,0,0,0,0,0,0,0,0]]

/-- Entry `t[i][j]` for `i`, `j` in `0..9`. -/
def entry (t : Table) (i j : Nat) : Int := (t.getD i []).getD j 0

/-- The C expression `t[i][j]`: the table entry when both indices are in
`0..9`, and whatever the out-of-range read yields otherwise. -/
def rd (oob : Oob) (t : Table) (i j : Int) : Int :=
  if 0 ≤ i ∧ i < 10 ∧ 0 ≤ j ∧ j < 10 then entry t i.toNat j.toNat else oob t i j

/-! ## The state and the key handlers -/

/-- The globals the rule engine reads and writes.  `longy`, `longz`, `longx`
are `cube["longy"].status` (block upright), `cube["longz"].status` (block
lying along z) and `cube["longx"].status` (block lying along x). -/
structure Game where
  rect_posx : Int
  rect_posz : Int
  longy : Int
  longz : Int
  longx : Int
  w_pressed : Int
  s_pressed : Int
  a_pressed : Int
  d_pressed : Int
  level : Int
  win : Int
  bridge_stat : Int
  score : Int
  score2 : Int
deriving DecidableEq, Repr

/-- The globals as `main` and `initGL` leave them before the first frame. -/
def init : Game :=
  { rect_posx := -5, rect_posz := -5, longy := 1, longz := 0, longx := 0,
    w_pressed := 0, s_pressed := 0, a_pressed := 0, d_pressed := 0,
    level := 1, win := 0, bridge_stat := 0, score := 0, score2 := 0 }

/-- The character callback: a direction key sets its flag.  The keys `q`,
`t` and space act on the window and the camera only, which `Game` leaves
out. -/
def keyboardChar (key : Char) (g : Game) : Game :=
  if key = 'a' then { g with a_pressed := 1 }
  else if key = 'd' then { g with d_pressed := 1 }
  else if key = 'w' then { g with w_pressed := 1 }
  else if key = 's' then { g with s_pressed := 1 }
  else g

/-- The level-1 half of the score block of a roll handler:
`if(level==1) if(normal_pos[i][j]==2) {bridge_stat^=1; score+=1;} else score+=1;` -/
def rollScore1 (oob : Oob) (g : Game) (i j : Int) : Game :=
  if g.level = 1 then
    if rd oob normal_pos i j = 2 then
      { g with bridge_stat := Int.xor g.bridge_stat 1, score := g.score + 1 }
    else { g with score := g.score + 1 }
  else g

/-- The level-2 half of the score block of a roll handler:
`if(level==2) if(normal_pos2[i][j]==2) {bridge_stat^=1; score2+=1;} else score2+=1;` -/
def rollScore2 (oob : Oob) (g : Game) (i j : Int) : Game :=
  if g.level = 2 then
    if rd oob normal_pos2 i j = 2 then
      { g with bridge_stat := Int.xor g.bridge_stat 1, score2 := g.score2 + 1 }
    else { g with score2 := g.score2 + 1 }
  else g

/-- The score block of a roll handler written with two `if`s in a row: the
level-1 half, then the level-2 half. -/
def rollScore (oob : Oob) (g : Game) (i j : Int) : Game :=
  rollScore2 oob (rollScore1 oob g i j) i j

/-- The score block of the `longz` + `s` handler, written with `else if`. -/
def rollScoreElse (oob : Oob) (g : Game) (i j : Int) : Game :=
  if g.level = 1 then
    if rd oob normal_pos i j = 2 then
      { g with bridge_stat := Int.xor g.bridge_stat 1, score := g.score + 1 }
    else { g with score := g.score + 1 }
  else if g.level = 2 then
    if rd oob normal_pos2 i j = 2 then
      { g with bridge_stat := Int.xor g.bridge_stat 1, score2 := g.score2 + 1 }
    else { g with score2 := g.score2 + 1 }
  else g

/-- The score block of the `longz` + `a` handler:
`if(level==1) score+=1; else if(level==2) score2+=1;` -/
def slideScoreElseIf (g : Game) : Game :=
  if g.level = 1 then { g with score := g.score + 1 }
  else if g.level = 2 then { g with score2 := g.score2 + 1 }
  else g

/-- The score block of the other three sideways handlers:
`if(level==1) score+=1; else score2+=1;` -/
def slideScore (g : Game) : Game :=
  if g.level = 1 then { g with score := g.score + 1 }
  else { g with score2 := g.score2 + 1 }

/-- The key handlers of `draw` (`t == 0`): one `if … else if …` chain over
orientation and key flag; at most one handler runs. -/
def keyStep (oob : Oob) (g : Game) : Game :=
  if g.longy = 1 ∧ g.w_pressed = 1 then
    let h := { g with longy := 0, longz := 1, rect_posz := g.rect_posz - 2, w_pressed := 0 }
    rollScore oob h (h.rect_posx + 5) (h.rect_posz + 5)
  else if g.longy = 1 ∧ g.s_pressed = 1 then
    let h := { g with longy := 0, longz := 1, rect_posz := g.rect_posz + 1, s_pressed := 0 }
    rollScore oob h (h.rect_posx + 5) (h.rect_posz + 6)
  else if g.longy = 1 ∧ g.a_pressed = 1 then
    let h := { g with longy := 0, longx := 1, rect_posx := g.rect_posx - 2, a_pressed := 0 }
    rollScore oob h (h.rect_posx + 5) (h.rect_posz + 5)
  else if g.longy = 1 ∧ g.d_pressed = 1 then
    let h := { g with longy := 0, longx := 1, rect_posx := g.rect_posx + 1, d_pressed := 0 }
    rollScore oob h (h.rect_posx + 5) (h.rect_posz + 5)
  else if g.longz = 1 ∧ g.w_pressed = 1 then
    let h := { g with longz := 0, longy := 1, rect_posz := g.rect_posz - 1, w_pressed := 0 }
    rollScore oob h (h.rect_posx + 5) (h.rect_posz + 5)
  else if g.longz = 1 ∧ g.s_pressed = 1 then
    let h := { g with longz := 0, longy := 1, rect_posz := g.rect_posz + 2, s_pressed := 0 }
    rollScoreElse oob h (h.rect_posx + 5) (h.rect_posz + 5)
  else if g.longz = 1 ∧ g.a_pressed = 1 then
    slideScoreElseIf { g with longz := 1, rect_posx := g.rect_posx - 1, a_pressed := 0 }
  else if g.longz = 1 ∧ g.d_pressed = 1 then
    slideScore { g with longz := 1, rect_posx := g.rect_posx + 1, d_pressed := 0 }
  else if g.longx = 1 ∧ g.w_pressed = 1 then
    slideScore { g with longx := 1, rect_posz := g.rect_posz - 1, w_pressed := 0 }
  else if g.longx = 1 ∧ g.s_pressed = 1 then
    slideScore { g with longx := 1, rect_posz := g.rect_posz + 1, s_pressed := 0 }
  else if g.longx = 1 ∧ g.a_pressed = 1 then
    let h := { g with longx := 0, longy := 1, rect_posx := g.rect_posx - 1, a_pressed := 0 }
    rollScore oob h (h.rect_posx + 5) (h.rect_posz + 6)
  else if g.longx = 1 ∧ g.d_pressed = 1 then
    let h := { g with longx := 0, longy := 1, rect_posx := g.rect_posx + 2, d_pressed := 0 }
    rollScore oob h (h.rect_posx + 5) (h.rect_posz + 6)
  else g

/-! ## The check of the cells under the block -/

/-- The fail assignments of the level-1 checks:
`rect_posx=-5; rect_posz=-5; bridge_stat=0; score=0;` -/
def fail1 (g : Game) : Game :=
  { g with rect_posx := -5, rect_posz := -5, bridge_stat := 0, score := 0 }

/-- The fail assignments of the level-2 checks:
`rect_posx=-5; rect_posz=-5; bridge_stat=0; score2=score;` -/
def fail2 (g : Game) : Game :=
  { g with rect_posx := -5, rect_posz := -5, bridge_stat := 0, score2 := g.score }

/-- The `if(level==1)` block of the check for `cube["longy"].status==1`. -/
def checkY1 (oob : Oob) (g : Game) : Game :=
  if g.level = 1 then
    if rd oob normal_pos (g.rect_posx + 5) (g.rect_posz + 5) = 0 then
      if rd oob goal_normal (g.rect_posx + 5) (g.rect_posz + 5) = 1 then
        { g with win := 1, level := 2 }
      else fail1 g
    else if rd oob frag_normal (g.rect_posx + 5) (g.rect_posz + 5) = 1 then fail1 g
    else if rd oob bridge_normal (g.rect_posx + 5) (g.rect_posz + 5) = 1 ∧ g.bridge_stat = 0 then
      fail1 g
    else g
  else g

/-- The `if(level==2)` block of the check for `cube["longy"].status==1`. -/
def checkY2 (oob : Oob) (g : Game) : Game :=
  if g.level = 2 then
    if rd oob normal_pos2 (g.rect_posx + 5) (g.rect_posz + 5) = 0 then
      if rd oob goal_normal2 (g.rect_posx + 5) (g.rect_posz + 5) = 1 then
        { g with win := 2 }
      else fail2 g
    else if rd oob frag_normal2 (g.rect_posx + 5) (g.rect_posz + 5) = 1 then fail2 g
    else if rd oob bridge_normal2 (g.rect_posx + 5) (g.rect_posz + 5) = 1 ∧ g.bridge_stat = 0 then
      fail2 g
    else g
  else g

/-- The `if(level==1)` block of the check for `cube["longz"].status==1`.
The goal table is read at `[rect_posz+5][rect_posz+5]` for the anchor cell,
as the source has it. -/
def checkZ1 (oob : Oob) (g : Game) : Game :=
  if g.level = 1 then
    if (rd oob normal_pos (g.rect_posx + 5) (g.rect_posz + 6) = 0
          ∧ rd oob goal_normal (g.rect_posx + 5) (g.rect_posz + 6) ≠ 1)
        ∨ (rd oob normal_pos (g.rect_posx + 5) (g.rect_posz + 5) = 0
          ∧ rd oob goal_normal (g.rect_posz + 5) (g.rect_posz + 5) ≠ 1)
        ∨ g.rect_posz ≥ 4 then
      { fail1 g with longz := 0, longy := 1 }
    else if (rd oob bridge_normal (g.rect_posx + 5) (g.rect_posz + 5) = 1 ∧ g.bridge_stat = 0)
        ∨ (rd oob bridge_normal (g.rect_posx + 5) (g.rect_posz + 6) = 1 ∧ g.bridge_stat = 0) then
      { fail1 g with longy := 1, longz := 0 }
    else g
  else g

/-- The `if(level==2)` block of the check for `cube["longz"].status==1`. -/
def checkZ2 (oob : Oob) (g : Game) : Game :=
  if g.level = 2 then
    if (rd oob normal_pos2 (g.rect_posx + 5) (g.rect_posz + 6) = 0
          ∧ rd oob goal_normal2 (g.rect_posx + 5) (g.rect_posz + 6) ≠ 1)
        ∨ (rd oob normal_pos2 (g.rect_posx + 5) (g.rect_posz + 5) = 0
          ∧ rd oob goal_normal2 (g.rect_posz + 5) (g.rect_posz + 5) ≠ 1)
        ∨ g.rect_posz ≥ 4 then
      { fail2 g with longz := 0, longy := 1 }
    else if (rd oob bridge_normal2 (g.rect_posx + 5) (g.rect_posz + 5) = 1 ∧ g.bridge_stat = 0)
        ∨ (rd oob bridge_normal2 (g.rect_posx + 5) (g.rect_posz + 6) = 1 ∧ g.bridge_stat = 0) then
      { fail2 g with longy := 1, longz := 0 }
    else g
  else g

/-- The `if(level==1)` block of the check for `cube["longx"].status==1`. -/
def checkX1 (oob : Oob) (g : Game) : Game :=
  if g.level = 1 then
    if (rd oob normal_pos (g.rect_posx + 6) (g.rect_posz + 5) = 0
          ∧ rd oob goal_normal (g.rect_posx + 6) (g.rect_posz + 5) ≠ 1)
        ∨ (rd oob normal_pos (g.rect_posx + 5) (g.rect_posz + 5) = 0
          ∧ rd oob goal_normal (g.rect_posx + 5) (g.rect_posz + 5) ≠ 1)
        ∨ g.rect_posx < -5 ∨ g.rect_posz < -5 then
      { fail1 g with longx := 0, longy := 1 }
    else if (rd oob bridge_normal (g.rect_posx + 6) (g.rect_posz + 5) = 1 ∧ g.bridge_stat = 0)
        ∨ (rd oob bridge_normal (g.rect_posx + 5) (g.rect_posz + 5) = 1 ∧ g.bridge_stat = 0) then
      { fail1 g with longy := 1, longx := 0 }
    else g
  else g

/-- The `if(level==2)` block of the check for `cube["longx"].status==1`. -/
def checkX2 (oob : Oob) (g : Game) : Game :=
  if g.level = 2 then
    if (rd oob normal_pos2 (g.rect_posx + 6) (g.rect_posz + 5) = 0
          ∧ rd oob goal_normal2 (g.rect_posx + 6) (g.rect_posz + 5) ≠ 1)
        ∨ (rd oob normal_pos2 (g.rect_posx + 5) (g.rect_posz + 5) = 0
          ∧ rd oob goal_normal2 (g.rect_posx + 5) (g.rect_posz + 5) ≠ 1)
        ∨ g.rect_posx < -5 ∨ g.rect_posz < -5 then
      { fail2 g with longx := 0, longy := 1 }
    else if (rd oob bridge_normal2 (g.rect_posx + 6) (g.rect_posz + 5) = 1 ∧ g.bridge_stat = 0)
        ∨ (rd oob bridge_normal2 (g.rect_posx + 5) (g.rect_posz + 5) = 1 ∧ g.bridge_stat = 0) then
      { fail2 g with longy := 1, longx := 0 }
    else g
  else g

/-- The check that follows the key handlers in `draw` (`t == 0`): the branch
is chosen by the orientation on entry, and inside a branch the level-1 block
runs before the level-2 block, which sees what the level-1 block wrote. -/
def check (oob : Oob) (g : Game) : Game :=
  if g.longy = 1 then checkY2 oob (checkY1 oob g)
  else if g.longz = 1 then checkZ2 oob (checkZ1 oob g)
  else if g.longx = 1 then checkX2 oob (checkX1 oob g)
  else g

/-! ## The lying-z check with the anchor's own goal entry -/

/-- The level-1 block of the lying-z check as it was meant: `checkZ1` with the
goal table read at the anchor cell `[rect_posx+5][rect_posz+5]` in place of
`[rect_posz+5][rect_posz+5]`.  Not in the source; the check of the source is
compared with it. -/
def checkZ1Intended (oob : Oob) (g : Game) : Game :=
  if g.level = 1 then
    if (rd oob normal_pos (g.rect_posx + 5) (g.rect_posz + 6) = 0
          ∧ rd oob goal_normal (g.rect_posx + 5) (g.rect_posz + 6) ≠ 1)
        ∨ (rd oob normal_pos (g.rect_posx + 5) (g.rect_posz + 5) = 0
          ∧ rd oob goal_normal (g.rect_posx + 5) (g.rect_posz + 5) ≠ 1)
        ∨ g.rect_posz ≥ 4 then
      { fail1 g with longz := 0, longy := 1 }
    else if (rd oob bridge_normal (g.rect_posx + 5) (g.rect_posz + 5) = 1 ∧ g.bridge_stat = 0)
        ∨ (rd oob bridge_normal (g.rect_posx + 5) (g.rect_posz + 6) = 1 ∧ g.bridge_stat = 0) then
      { fail1 g with longy := 1, longz := 0 }
    else g
  else g

/-- The level-2 block of the lying-z check as it was meant: `checkZ2` with the
goal table read at the anchor cell `[rect_posx+5][rect_posz+5]`.  Not in the
source. -/
def checkZ2Intended (oob : Oob) (g : Game) : Game :=
  if g.level = 2 then
    if (rd oob normal_pos2 (g.rect_posx + 5) (g.rect_posz + 6) = 0
          ∧ rd oob goal_normal2 (g.rect_posx + 5) (g.rect_posz + 6) ≠ 1)
        ∨ (rd oob normal_pos2 (g.rect_posx + 5) (g.rect_posz + 5) = 0
          ∧ rd oob goal_normal2 (g.rect_posx + 5) (g.rect_posz + 5) ≠ 1)
        ∨ g.rect_posz ≥ 4 then
      { fail2 g with longz := 0, longy := 1 }
    else if (rd oob bridge_normal2 (g.rect_posx + 5) (g.rect_posz + 5) = 1 ∧ g.bridge_stat = 0)
        ∨ (rd oob bridge_normal2 (g.rect_posx + 5) (g.rect_posz + 6) = 1 ∧ g.bridge_stat = 0) then
      { fail2 g with longy := 1, longz := 0 }
    else g
  else g

/-- The check of `draw` with the two lying-z blocks as they were meant. -/
def checkIntended (oob : Oob) (g : Game) : Game :=
  if g.longy = 1 then checkY2 oob (checkY1 oob g)
  else if g.longz = 1 then checkZ2Intended oob (checkZ1Intended oob g)
  else if g.longx = 1 then checkX2 oob (checkX1 oob g)
  else g

/-! ## The frame and the loop of `main` -/

/-- One call `draw(window, 0, 0, 0.8, 0.8, 0)`: the key handlers, then the
check.  The calls with `t == 1` and `t == 2` only light the scoreboard. -/
def frame (oob : Oob) (g : Game) : Game := check oob (keyStep oob g)

/-- The key callbacks run by one `glfwPollEvents()`, in order. -/
def pollEvents (keys : List Char) (g : Game) : Game :=
  keys.foldl (fun s k => keyboardChar k s) g

/-- One iteration of the loop of `main`, `keys` being the characters typed
since the last poll: with `win < 2` the frame is drawn and the events are
polled; otherwise the loop is left (`none`) and no callback runs again. -/
def mainIter (oob : Oob) (keys : List Char) (g : Game) : Option Game :=
  if g.win < 2 then some (pollEvents keys (frame oob g)) else none

/-! ## Orientation, footprint, directions -/

/-- Orientation of the block. -/
inductive Orient where
  | upright
  | lyingZ
  | lyingX
deriving DecidableEq, Repr

/-- The orientation the code acts on: the handlers and the check test
`longy`, then `longz`, then `longx`. -/
def orient (g : Game) : Option Orient :=
  if g.longy = 1 then some Orient.upright
  else if g.longz = 1 then some Orient.lyingZ
  else if g.longx = 1 then some Orient.lyingX
  else none

/-- Grid cell of the block's anchor: `(rect_posx+5, rect_posz+5)`. -/
def cell (g : Game) : Int × Int := (g.rect_posx + 5, g.rect_posz + 5)

/-- The grid cells under the block: the anchor cell when upright, the anchor
and the next cell along z (`[..][rect_posz+6]`) when lying along z, the
anchor and the next cell along x (`[rect_posx+6][..]`) when lying along x. -/
def footprint (g : Game) : List (Int × Int) :=
  match orient g with
  | some Orient.upright => [(g.rect_posx + 5, g.rect_posz + 5)]
  | some Orient.lyingZ => [(g.rect_posx + 5, g.rect_posz + 5), (g.rect_posx + 5, g.rect_posz + 6)]
  | some Orient.lyingX => [(g.rect_posx + 5, g.rect_posz + 5), (g.rect_posx + 6, g.rect_posz + 5)]
  | none => []

/-- Direction of a key on the grid: `w` is `-z`, `s` is `+z`, `a` is `-x`,
`d` is `+x`. -/
def dir (key : Char) : Int × Int :=
  if key = 'w' then (0, -1)
  else if key = 's' then (0, 1)
  else if key = 'a' then (-1, 0)
  else if key = 'd' then (1, 0)
  else (0, 0)

/-- No key flag is pending. -/
def idle (g : Game) : Prop :=
  g.w_pressed ≠ 1 ∧ g.s_pressed ≠ 1 ∧ g.a_pressed ≠ 1 ∧ g.d_pressed ≠ 1

instance (g : Game) : Decidable (idle g) := by unfold idle; infer_instance

/-- In the grid: both coordinates in `0..9`. -/
def inGrid (p : Int × Int) : Prop := 0 ≤ p.1 ∧ p.1 < 10 ∧ 0 ≤ p.2 ∧ p.2 < 10

instance (p : Int × Int) : Decidable (inGrid p) := by unfold inGrid; infer_instance

/-- The block stands upright: only `cube["longy"].status` is set. -/
def Upright (g : Game) : Prop := g.longy = 1 ∧ g.longz = 0 ∧ g.longx = 0

/-- The block lies along z: only `cube["longz"].status` is set. -/
def LyingZ (g : Game) : Prop := g.longy = 0 ∧ g.longz = 1 ∧ g.longx = 0

/-- The block lies along x: only `cube["longx"].status` is set. -/
def LyingX (g : Game) : Prop := g.longy = 0 ∧ g.longz = 0 ∧ g.longx = 1

instance (g : Game) : Decidable (Upright g) := by unfold Upright; infer_instance

instance (g : Game) : Decidable (LyingZ g) := by unfold LyingZ; infer_instance

instance (g : Game) : Decidable (LyingX g) := by unfold LyingX; infer_instance

/-- The cell `n` steps from `p` in direction `d`. -/
def shift (p d : Int × Int) (n : Int) : Int × Int := (p.1 + n * d.1, p.2 + n * d.2)

/-- A sample memory: every out-of-range read yields `0`. -/
def zeroOob : Oob := fun _ _ _ => 0

/-! ## The levels' tables and the kinds of cell -/

/-- Floor table of a level: `normal_pos` on level 1, `normal_pos2` otherwise. -/
def floorTable (level : Int) : Table := if level = 1 then normal_pos else normal_pos2

/-- Goal table of a level. -/
def goalTable (level : Int) : Table := if level = 1 then goal_normal else goal_normal2

/-- Fragile table of a level. -/
def fragTable (level : Int) : Table := if level = 1 then frag_normal else frag_normal2

/-- Bridge table of a level. -/
def bridgeTable (level : Int) : Table := if level = 1 then bridge_normal else bridge_normal2

/-- Table entry at a grid cell given by integer coordinates. -/
def cellEntry (t : Table) (p : Int × Int) : Int := entry t p.1.toNat p.2.toNat

/-- A void cell of a level: a cell of the grid whose floor table entry is `0`
and which is not the goal cell. -/
def isVoid (level : Int) (p : Int × Int) : Prop :=
  inGrid p ∧ cellEntry (floorTable level) p = 0 ∧ cellEntry (goalTable level) p ≠ 1

/-- A bridge cell of a level: a cell of the grid marked in the bridge table. -/
def isBridge (level : Int) (p : Int × Int) : Prop :=
  inGrid p ∧ cellEntry (bridgeTable level) p = 1

/-- A fragile cell of a level: a cell of the grid marked in the fragile table. -/
def isFragile (level : Int) (p : Int × Int) : Prop :=
  inGrid p ∧ cellEntry (fragTable level) p = 1

/-- The goal cell of a level: the cell of the grid marked in the goal table. -/
def isGoal (level : Int) (p : Int × Int) : Prop :=
  inGrid p ∧ cellEntry (goalTable level) p = 1

instance (level : Int) (p : Int × Int) : Decidable (isVoid level p) := by
  unfold isVoid; infer_instance

instance (level : Int) (p : Int × Int) : Decidable (isBridge level p) := by
  unfold isBridge; infer_instance

instance (level : Int) (p : Int × Int) : Decidable (isFragile level p) := by
  unfold isFragile; infer_instance

instance (level : Int) (p : Int × Int) : Decidable (isGoal level p) := by
  unfold isGoal; infer_instance

/-- The block is in one of the three orientations. -/
def Oriented (g : Game) : Prop := Upright g ∨ LyingZ g ∨ LyingX g

instance (g : Game) : Decidable (Oriented g) := by unfold Oriented; infer_instance

/-- The block stands upright on the spawn cell with the bridge switch off:
`rect_pos = (-5, -5)`, grid cell `(0, 0)`, `bridge_stat = 0`. -/
def AtSpawn (g : Game) : Prop :=
  Upright g ∧ g.rect_posx = -5 ∧ g.rect_posz = -5 ∧ g.bridge_stat = 0

instance (g : Game) : Decidable (AtSpawn g) := by unfold AtSpawn; infer_instance

/-! ## Outcomes and runs -/

/-- The state a fail leaves from `h`: the block upright on the spawn cell, the
bridge switch off, and the level's score reset (`score = 0` on level 1,
`score2 = score` on level 2). -/
def spawnReset (h : Game) : Game :=
  if h.level = 1 then
    { h with rect_posx := -5, rect_posz := -5, bridge_stat := 0, score := 0,
             longy := 1, longz := 0, longx := 0 }
  else
    { h with rect_posx := -5, rect_posz := -5, bridge_stat := 0, score2 := h.score,
             longy := 1, longz := 0, longx := 0 }

/-- One key per frame: each key is typed, then a frame runs. -/
def play (oob : Oob) (keys : List Char) (g : Game) : Game :=
  keys.foldl (fun s k => frame oob (keyboardChar k s)) g

/-- The loop of `main` over the successive polls `events`, until the loop is
left or the polls run out; the result is the state then. -/
def run (oob : Oob) : List (List Char) → Game → Game
  | [], g => g
  | keys :: rest, g =>
    match mainIter oob keys g with
    | some g1 => run oob rest g1
    | none => g

/-- The opposite direction key: `w`/`s` and `a`/`d`. -/
def opposite (key : Char) : Char :=
  if key = 'w' then 's'
  else if key = 's' then 'w'
  else if key = 'a' then 'd'
  else if key = 'd' then 'a'
  else key

/-- The index pair `[i][j]` at which the handler that runs reads the level's
floor table for its trigger test (`normal_pos` on level 1, `normal_pos2` on
level 2), with the same chain of conditions as `keyStep`; `none` when no
handler runs, on another level, or for a sideways handler, which reads no
table. -/
def keyStepRead (g : Game) : Option (Int × Int) :=
  if g.longy = 1 ∧ g.w_pressed = 1 then
    if g.level = 1 ∨ g.level = 2 then some (g.rect_posx + 5, g.rect_posz - 2 + 5) else none
  else if g.longy = 1 ∧ g.s_pressed = 1 then
    if g.level = 1 ∨ g.level = 2 then some (g.rect_posx + 5, g.rect_posz + 1 + 6) else none
  else if g.longy = 1 ∧ g.a_pressed = 1 then
    if g.level = 1 ∨ g.level = 2 then some (g.rect_posx - 2 + 5, g.rect_posz + 5) else none
  else if g.longy = 1 ∧ g.d_pressed = 1 then
    if g.level = 1 ∨ g.level = 2 then some (g.rect_posx + 1 + 5, g.rect_posz + 5) else none
  else if g.longz = 1 ∧ g.w_pressed = 1 then
    if g.level = 1 ∨ g.level = 2 then some (g.rect_posx + 5, g.rect_posz - 1 + 5) else none
  else if g.longz = 1 ∧ g.s_pressed = 1 then
    if g.level = 1 ∨ g.level = 2 then some (g.rect_posx + 5, g.rect_posz + 2 + 5) else none
  else if g.longz = 1 ∧ g.a_pressed = 1 then none
  else if g.longz = 1 ∧ g.d_pressed = 1 then none
  else if g.longx = 1 ∧ g.w_pressed = 1 then none
  else if g.longx = 1 ∧ g.s_pressed = 1 then none
  else if g.longx = 1 ∧ g.a_pressed = 1 then
    if g.level = 1 ∨ g.level = 2 then some (g.rect_posx - 1 + 5, g.rect_posz + 6) else none
  else if g.longx = 1 ∧ g.d_pressed = 1 then
    if g.level = 1 ∨ g.level = 2 then some (g.rect_posx + 2 + 5, g.rect_posz + 6) else none
  else none

/-- A sample memory in which every out-of-range read yields `3`: neither an
empty floor entry (`0`), nor a mark (`1`), nor a trigger (`2`). -/
def strayOob : Oob := fun _ _ _ => 3

/-- A sample memory in which every out-of-range read yields `2`, the value
of a trigger cell. -/
def triggerOob : Oob := fun _ _ _ => 2

/-- A sample memory in which a read outside `goal_normal` yields `1`, a read
outside `normal_pos` yields `0`, and every other out-of-range read `3`. -/
def goalOob : Oob := fun t _ _ => if t = goal_normal then 1 else if t = normal_pos then 0 else 3

/-- A sample memory in which a read outside the index range lands on the
table's own entries when it can: `t[i][j]` is the entry at the row-major
offset `10*i + j` when that offset is in `0..99` (so `t[4][-1]` is `t[3][9]`),
and `0` otherwise. -/
def aliasOob : Oob := fun t i j =>
  if 0 ≤ 10 * i + j ∧ 10 * i + j < 100 then
    entry t ((10 * i + j) / 10).toNat ((10 * i + j) % 10).toNat
  else 0

/-- The polls of the keys `d d s s s s s s`, one per loop iteration, and one
more iteration to run the frame of the last key. -/
def level1Polls : List (List Char) :=
  [['d'], ['d'], ['s'], ['s'], ['s'], ['s'], ['s'], ['s'], []]

/-- The keys `d`, `a` typed `n` times over: the block rocks between the spawn
cell and the cells `(1, 0)`, `(2, 0)`. -/
def rockKeys (n : Nat) : List Char := (List.replicate n ['d', 'a']).flatten

/-- The two numbers handed to the scoreboard in `draw` (`t == 1`):
`lightitup(score%10,0); lightitup(score/10,1);` on level 1, the same with
`score2` on level 2, nothing on another level.  C's `/` and `%` truncate
towards zero. -/
def scoreDigits (g : Game) : Option (Int × Int) :=
  if g.level = 1 then some (Int.tmod g.score 10, Int.tdiv g.score 10)
  else if g.level = 2 then some (Int.tmod g.score2 10, Int.tdiv g.score2 10)
  else none

/-- The score floor: `score` is not negative, and on level 2 `score2` is at
least `score`; the level is 1 or 2. -/
def ScoreFloor (g : Game) : Prop :=
  0 ≤ g.score ∧ (g.level = 1 ∨ (g.level = 2 ∧ g.score ≤ g.score2))

instance (g : Game) : Decidable (ScoreFloor g) := by unfold ScoreFloor; infer_instance

/-- The state `g` with its four key flags set to the given values. -/
def setFlags (w s a d : Int) (g : Game) : Game :=
  { g with w_pressed := w, s_pressed := s, a_pressed := a, d_pressed := d }

/-- How many of the four markings a cell of a level carries: fragile table,
bridge table, goal table, trigger (floor table value `2`). -/
def kindMarks (level : Int) (i j : Nat) : Nat :=
  (if entry (fragTable level) i j = 1 then 1 else 0) +
  (if entry (bridgeTable level) i j = 1 then 1 else 0) +
  (if entry (goalTable level) i j = 1 then 1 else 0) +
  (if entry (floorTable level) i j = 2 then 1 else 0)

/-- The keys that clear level 1. -/
def winKeys1 : List Char := ['d', 'd', 's', 's', 's', 's', 's', 's']

/-- The keys that then clear level 2. -/
def winKeys2 : List Char :=
  ['d', 'd', 's', 's', 's', 's', 'd', 'd', 's', 'd', 'd', 's', 'a', 'w', 'd']

/-- The states after each key of a run with one key per frame, the starting
state first. -/
def playTrace (oob : Oob) (keys : List Char) (g : Game) : List Game :=
  keys.scanl (fun s k => frame oob (keyboardChar k s)) g

/-- The keys that clear level 1 and bring the block, on level 2, upright onto
the trigger cell `(3, 6)` and then, with `d`, to lie along x on the cells
`(4, 6)`, `(5, 6)`, the bridge open. -/
def besideTriggerKeys : List Char :=
  winKeys1 ++ ['d', 'd', 's', 's', 's', 's', 'd']

/-- The keys that clear level 1 and bring the block, on level 2, to lie along
z on the cells `(3, 4)`, `(3, 5)`, the bridge closed. -/
def beforeTriggerKeys : List Char :=
  winKeys1 ++ ['d', 'd', 's', 's', 's']

/-! ## The scoreboard segments -/

/-- The `status` fields of the fourteen segments of the scoreboard
(`scoreboard["up1"].status`, ...): the seven segments of the digit on the
right (`1`) and of the digit on the left (`2`); `up`, `cn`, `bt` are the top,
centre and bottom bars, `ul`, `ur` the upper left and right ones, `bl`, `br`
the bottom left and right ones. -/
structure Board where
  up1 : Int
  cn1 : Int
  bt1 : Int
  ul1 : Int
  ur1 : Int
  br1 : Int
  bl1 : Int
  up2 : Int
  cn2 : Int
  bt2 : Int
  ul2 : Int
  ur2 : Int
  br2 : Int
  bl2 : Int
deriving DecidableEq, Repr

/-- The value of a C comparison as an operand of `|`: `1` when it holds, `0`
when it does not. -/
def cBool (p : Prop) [Decidable p] : Int := if p then 1 else 0

/-- The function `lightitup(sc, bit)`: the seven segments of the digit `bit`
are cleared, then each is set when `sc` is one of its digits.  The condition
of the bottom-right segment has `sc==5|sc==6`, the bitwise or of the two
comparisons, tested against zero. -/
def lightitup (sc bit : Int) (b : Board) : Board :=
  if bit = 0 then
    let b := { b with up1 := 0, cn1 := 0, bt1 := 0, ul1 := 0, ur1 := 0, br1 := 0,
                      bl1 := 0 }
    let b := if sc = 2 ∨ sc = 3 ∨ sc = 5 ∨ sc = 6 ∨ sc = 7 ∨ sc = 8 ∨ sc = 9 ∨ sc = 0 then
        { b with up1 := 1 } else b
    let b := if sc = 2 ∨ sc = 3 ∨ sc = 4 ∨ sc = 5 ∨ sc = 6 ∨ sc = 8 ∨ sc = 9 then
        { b with cn1 := 1 } else b
    let b := if sc = 2 ∨ sc = 3 ∨ sc = 5 ∨ sc = 6 ∨ sc = 8 ∨ sc = 9 ∨ sc = 0 then
        { b with bt1 := 1 } else b
    let b := if sc = 4 ∨ sc = 5 ∨ sc = 6 ∨ sc = 8 ∨ sc = 9 ∨ sc = 0 then { b with ul1 := 1 } else b
    let b := if sc = 1 ∨ sc = 2 ∨ sc = 3 ∨ sc = 4 ∨ sc = 7 ∨ sc = 8 ∨ sc = 9 ∨ sc = 0 then
        { b with ur1 := 1 } else b
    let b := if sc = 2 ∨ sc = 6 ∨ sc = 8 ∨ sc = 0 then { b with bl1 := 1 } else b
    if sc = 1 ∨ sc = 3 ∨ sc = 4 ∨ Int.lor (cBool (sc = 5)) (cBool (sc = 6)) ≠ 0 ∨ sc = 7 ∨ sc = 8
        ∨ sc = 9 ∨ sc = 0 then { b with br1 := 1 } else b
  else if bit = 1 then
    let b := { b with up2 := 0, cn2 := 0, bt2 := 0, ul2 := 0, ur2 := 0, br2 := 0,
                      bl2 := 0 }
    let b := if sc = 2 ∨ sc = 3 ∨ sc = 5 ∨ sc = 6 ∨ sc = 7 ∨ sc = 8 ∨ sc = 9 ∨ sc = 0 then
        { b with up2 := 1 } else b
    let b := if sc = 2 ∨ sc = 3 ∨ sc = 4 ∨ sc = 5 ∨ sc = 6 ∨ sc = 8 ∨ sc = 9 then
        { b with cn2 := 1 } else b
    let b := if sc = 2 ∨ sc = 3 ∨ sc = 5 ∨ sc = 6 ∨ sc = 8 ∨ sc = 9 ∨ sc = 0 then
        { b with bt2 := 1 } else b
    let b := if sc = 4 ∨ sc = 5 ∨ sc = 6 ∨ sc = 8 ∨ sc = 9 ∨ sc = 0 then { b with ul2 := 1 } else b
    let b := if sc = 1 ∨ sc = 2 ∨ sc = 3 ∨ sc = 4 ∨ sc = 7 ∨ sc = 8 ∨ sc = 9 ∨ sc = 0 then
        { b with ur2 := 1 } else b
    let b := if sc = 2 ∨ sc = 6 ∨ sc = 8 ∨ sc = 0 then { b with bl2 := 1 } else b
    if sc = 1 ∨ sc = 3 ∨ sc = 4 ∨ Int.lor (cBool (sc = 5)) (cBool (sc = 6)) ≠ 0 ∨ sc = 7 ∨ sc = 8
        ∨ sc = 9 ∨ sc = 0 then { b with br2 := 1 } else b
  else b

/-- The function `lightitup` with `sc==5||sc==6` in the condition of the
bottom-right segment.  Not in the source; `lightitup` is compared with it. -/
def lightitupLogical (sc bit : Int) (b : Board) : Board :=
  if bit = 0 then
    let b := { b with up1 := 0, cn1 := 0, bt1 := 0, ul1 := 0, ur1 := 0, br1 := 0,
                      bl1 := 0 }
    let b := if sc = 2 ∨ sc = 3 ∨ sc = 5 ∨ sc = 6 ∨ sc = 7 ∨ sc = 8 ∨ sc = 9 ∨ sc = 0 then
        { b with up1 := 1 } else b
    let b := if sc = 2 ∨ sc = 3 ∨ sc = 4 ∨ sc = 5 ∨ sc = 6 ∨ sc = 8 ∨ sc = 9 then
        { b with cn1 := 1 } else b
    let b := if sc = 2 ∨ sc = 3 ∨ sc = 5 ∨ sc = 6 ∨ sc = 8 ∨ sc = 9 ∨ sc = 0 then
        { b with bt1 := 1 } else b
    let b := if sc = 4 ∨ sc = 5 ∨ sc = 6 ∨ sc = 8 ∨ sc = 9 ∨ sc = 0 then { b with ul1 := 1 } else b
    let b := if sc = 1 ∨ sc = 2 ∨ sc = 3 ∨ sc = 4 ∨ sc = 7 ∨ sc = 8 ∨ sc = 9 ∨ sc = 0 then
        { b with ur1 := 1 } else b
    let b := if sc = 2 ∨ sc = 6 ∨ sc = 8 ∨ sc = 0 then { b with bl1 := 1 } else b
    if sc = 1 ∨ sc = 3 ∨ sc = 4 ∨ sc = 5 ∨ sc = 6 ∨ sc = 7 ∨ sc = 8 ∨ sc = 9 ∨ sc = 0 then
        { b with br1 := 1 } else b
  else if bit = 1 then
    let b := { b with up2 := 0, cn2 := 0, bt2 := 0, ul2 := 0, ur2 := 0, br2 := 0,
                      bl2 := 0 }
    let b := if sc = 2 ∨ sc = 3 ∨ sc = 5 ∨ sc = 6 ∨ sc = 7 ∨ sc = 8 ∨ sc = 9 ∨ sc = 0 then
        { b with up2 := 1 } else b
    let b := if sc = 2 ∨ sc = 3 ∨ sc = 4 ∨ sc = 5 ∨ sc = 6 ∨ sc = 8 ∨ sc = 9 then
        { b with cn2 := 1 } else b
    let b := if sc = 2 ∨ sc = 3 ∨ sc = 5 ∨ sc = 6 ∨ sc = 8 ∨ sc = 9 ∨ sc = 0 then
        { b with bt2 := 1 } else b
    let b := if sc = 4 ∨ sc = 5 ∨ sc = 6 ∨ sc = 8 ∨ sc = 9 ∨ sc = 0 then { b with ul2 := 1 } else b
    let b := if sc = 1 ∨ sc = 2 ∨ sc = 3 ∨ sc = 4 ∨ sc = 7 ∨ sc = 8 ∨ sc = 9 ∨ sc = 0 then
        { b with ur2 := 1 } else b
    let b := if sc = 2 ∨ sc = 6 ∨ sc = 8 ∨ sc = 0 then { b with bl2 := 1 } else b
    if sc = 1 ∨ sc = 3 ∨ sc = 4 ∨ sc = 5 ∨ sc = 6 ∨ sc = 7 ∨ sc = 8 ∨ sc = 9 ∨ sc = 0 then
        { b with br2 := 1 } else b
  else b

/-- A scoreboard with every segment lit, as `createScore` leaves it. -/
def allLit : Board :=
  { up1 := 1, cn1 := 1, bt1 := 1, ul1 := 1, ur1 := 1, br1 := 1, bl1 := 1,
    up2 := 1, cn2 := 1, bt2 := 1, ul2 := 1, ur2 := 1, br2 := 1, bl2 := 1 }

/-! ## Sample states -/

/-- A block lying along z on the level-1 cells `(3, 2)`, `(3, 3)`. -/
def fragileSample : Game :=
  { init with longy := 0, longz := 1, rect_posx := -2, rect_posz := -3 }

/-- A block lying along z on the level-1 cells `(3, 7)`, `(3, 8)`, bridge
open, after seven moves. -/
def goalSample1 : Game :=
  { init with longy := 0, longz := 1, rect_posx := -2, rect_posz := 2, bridge_stat := 1,
              score := 7 }

/-- A block lying along z on the level-2 cells `(8, 6)`, `(8, 7)`, bridge
open. -/
def goalSample2 : Game :=
  { init with longy := 0, longz := 1, rect_posx := 3, rect_posz := 1, bridge_stat := 1,
              level := 2, win := 1, score := 8, score2 := 22 }

/-- A block lying along z on the level-2 cells `(8, 7)`, `(8, 8)`, bridge
open. -/
def lyingGoalSample : Game :=
  { init with longy := 0, longz := 1, rect_posx := 3, rect_posz := 2, bridge_stat := 1,
              level := 2, win := 1, score := 8, score2 := 22 }

/-- An upright block on the level-2 cell `(0, 3)`, level-1 score 8, level-2
score 12. -/
def level2Sample : Game :=
  { init with rect_posz := -2, level := 2, win := 1, score := 8, score2 := 12 }

/-- A block lying along z on the level-1 cells `(3, 1)`, `(3, 2)`, next to
the trigger cell `(3, 3)`. -/
def triggerSample : Game :=
  { init with longy := 0, longz := 1, rect_posx := -2, rect_posz := -4, score := 3 }

/-- A block lying along z on the void cells `(0, 1)`, `(0, 2)` of level 1,
before its check. -/
def voidSample : Game :=
  { init with longy := 0, longz := 1, rect_posz := -4, score := 1 }

/-- An upright block on the level-1 cell `(3, 2)`. -/
def uprightSample : Game := { init with rect_posx := -2, rect_posz := -3 }

/-- A block lying along z on the level-1 floor row, anchor cell `(3, 4)`. -/
def lyingZSample : Game :=
  { init with longy := 0, longz := 1, rect_posx := -2, rect_posz := -1 }

/-- A block lying along x on the level-1 start column, anchor cell `(1, 0)`. -/
def lyingXSample : Game :=
  { init with longy := 0, longx := 1, rect_posx := -4, rect_posz := -5 }

/-- A block lying along z on the level-2 cells `(4, 6)`, `(4, 7)`, beside the
trigger cell `(3, 6)`, bridge open. -/
def sidewaysSample : Game :=
  { init with longy := 0, longz := 1, rect_posx := -1, rect_posz := 1, bridge_stat := 1,
              level := 2, win := 1, score := 8, score2 := 14 }

/-- A block lying along z on the level-2 cells `(5, 8)`, `(5, 9)`, both void:
for its anchor the check reads `goal_normal2[8][8]`, the goal entry. -/
def slipSample : Game :=
  { init with longy := 0, longz := 1, rect_posx := 0, rect_posz := 3, bridge_stat := 1,
              level := 2, win := 1, score := 8, score2 := 20 }

/-! ## What the score blocks leave alone -/

section ScoreBlocks

variable (oob : Oob) (g : Game) (i j : Int)

@[simp] theorem rollScore_rect_posx : (rollScore oob g i j).rect_posx = g.rect_posx := by
  unfold rollScore rollScore2 rollScore1; split_ifs <;> rfl

@[simp] theorem rollScore_rect_posz : (rollScore oob g i j).rect_posz = g.rect_posz := by
  unfold rollScore rollScore2 rollScore1; split_ifs <;> rfl

@[simp] theorem rollScore_longy : (rollScore oob g i j).longy = g.longy := by
  unfold rollScore rollScore2 rollScore1; split_ifs <;> rfl

@[simp] theorem rollScore_longz : (rollScore oob g i j).longz = g.longz := by
  unfold rollScore rollScore2 rollScore1; split_ifs <;> rfl

@[simp] theorem rollScore_longx : (rollScore oob g i j).longx = g.longx := by
  unfold rollScore rollScore2 rollScore1; split_ifs <;> rfl

@[simp] theorem rollScore_level : (rollScore oob g i j).level = g.level := by
  unfold rollScore rollScore2 rollScore1; split_ifs <;> rfl

@[simp] theorem rollScore_win : (rollScore oob g i j).win = g.win := by
  unfold rollScore rollScore2 rollScore1; split_ifs <;> rfl

@[simp] theorem rollScoreElse_rect_posx : (rollScoreElse oob g i j).rect_posx = g.rect_posx := by
  unfold rollScoreElse; split_ifs <;> rfl

@[simp] theorem rollScoreElse_rect_posz : (rollScoreElse oob g i j).rect_posz = g.rect_posz := by
  unfold rollScoreElse; split_ifs <;> rfl

@[simp] theorem rollScoreElse_longy : (rollScoreElse oob g i j).longy = g.longy := by
  unfold rollScoreElse; split_ifs <;> rfl

@[simp] theorem rollScoreElse_longz : (rollScoreElse oob g i j).longz = g.longz := by
  unfold rollScoreElse; split_ifs <;> rfl

@[simp] theorem rollScoreElse_longx : (rollScoreElse oob g i j).longx = g.longx := by
  unfold rollScoreElse; split_ifs <;> rfl

@[simp] theorem rollScoreElse_level : (rollScoreElse oob g i j).level = g.level := by
  unfold rollScoreElse; split_ifs <;> rfl

@[simp] theorem rollScoreElse_win : (rollScoreElse oob g i j).win = g.win := by
  unfold rollScoreElse; split_ifs <;> rfl

@[simp] theorem slideScore_rect_posx : (slideScore g).rect_posx = g.rect_posx := by
  unfold slideScore; split_ifs <;> rfl

@[simp] theorem slideScore_rect_posz : (slideScore g).rect_posz = g.rect_posz := by
  unfold slideScore; split_ifs <;> rfl

@[simp] theorem slideScore_longy : (slideScore g).longy = g.longy := by
  unfold slideScore; split_ifs <;> rfl

@[simp] theorem slideScore_longz : (slideScore g).longz = g.longz := by
  unfold slideScore; split_ifs <;> rfl

@[simp] theorem slideScore_longx : (slideScore g).longx = g.longx := by
  unfold slideScore; split_ifs <;> rfl

@[simp] theorem slideScore_level : (slideScore g).level = g.level := by
  unfold slideScore; split_ifs <;> rfl

@[simp] theorem slideScore_win : (slideScore g).win = g.win := by
  unfold slideScore; split_ifs <;> rfl

@[simp] theorem slideScore_bridge_stat : (slideScore g).bridge_stat = g.bridge_stat := by
  unfold slideScore; split_ifs <;> rfl

@[simp] theorem slideScoreElseIf_rect_posx : (slideScoreElseIf g).rect_posx = g.rect_posx := by
  unfold slideScoreElseIf; split_ifs <;> rfl

@[simp] theorem slideScoreElseIf_rect_posz : (slideScoreElseIf g).rect_posz = g.rect_posz := by
  unfold slideScoreElseIf; split_ifs <;> rfl

@[simp] theorem slideScoreElseIf_longy : (slideScoreElseIf g).longy = g.longy := by
  unfold slideScoreElseIf; split_ifs <;> rfl

@[simp] theorem slideScoreElseIf_longz : (slideScoreElseIf g).longz = g.longz := by
  unfold slideScoreElseIf; split_ifs <;> rfl

@[simp] theorem slideScoreElseIf_longx : (slideScoreElseIf g).longx = g.longx := by
  unfold slideScoreElseIf; split_ifs <;> rfl

@[simp] theorem slideScoreElseIf_level : (slideScoreElseIf g).level = g.level := by
  unfold slideScoreElseIf; split_ifs <;> rfl

@[simp] theorem slideScoreElseIf_win : (slideScoreElseIf g).win = g.win := by
  unfold slideScoreElseIf; split_ifs <;> rfl

@[simp] theorem slideScoreElseIf_bridge_stat :
    (slideScoreElseIf g).bridge_stat = g.bridge_stat := by
  unfold slideScoreElseIf; split_ifs <;> rfl

end ScoreBlocks

/-! ## The handler that runs, by orientation and key -/

section Handlers

variable (oob : Oob) (g : Game)

theorem keyStep_upright_w (hy : g.longy = 1) (hw : g.w_pressed = 1) :
    keyStep oob g =
      rollScore oob { g with longy := 0, longz := 1, rect_posz := g.rect_posz - 2, w_pressed := 0 }
        (g.rect_posx + 5) (g.rect_posz - 2 + 5) := by
  simp [keyStep, hy, hw]

theorem keyStep_upright_s (hy : g.longy = 1) (hw : g.w_pressed ≠ 1) (hs : g.s_pressed = 1) :
    keyStep oob g =
      rollScore oob { g with longy := 0, longz := 1, rect_posz := g.rect_posz + 1, s_pressed := 0 }
        (g.rect_posx + 5) (g.rect_posz + 1 + 6) := by
  simp [keyStep, hy, hw, hs]

theorem keyStep_upright_a (hy : g.longy = 1) (hw : g.w_pressed ≠ 1) (hs : g.s_pressed ≠ 1)
    (ha : g.a_pressed = 1) :
    keyStep oob g =
      rollScore oob { g with longy := 0, longx := 1, rect_posx := g.rect_posx - 2, a_pressed := 0 }
        (g.rect_posx - 2 + 5) (g.rect_posz + 5) := by
  simp [keyStep, hy, hw, hs, ha]

theorem keyStep_upright_d (hy : g.longy = 1) (hw : g.w_pressed ≠ 1) (hs : g.s_pressed ≠ 1)
    (ha : g.a_pressed ≠ 1) (hd : g.d_pressed = 1) :
    keyStep oob g =
      rollScore oob { g with longy := 0, longx := 1, rect_posx := g.rect_posx + 1, d_pressed := 0 }
        (g.rect_posx + 1 + 5) (g.rect_posz + 5) := by
  simp [keyStep, hy, hw, hs, ha, hd]

theorem keyStep_lyingZ_w (hy : g.longy ≠ 1) (hz : g.longz = 1) (hw : g.w_pressed = 1) :
    keyStep oob g =
      rollScore oob { g with longz := 0, longy := 1, rect_posz := g.rect_posz - 1, w_pressed := 0 }
        (g.rect_posx + 5) (g.rect_posz - 1 + 5) := by
  simp [keyStep, hy, hz, hw]

theorem keyStep_lyingZ_s (hy : g.longy ≠ 1) (hz : g.longz = 1) (hw : g.w_pressed ≠ 1)
    (hs : g.s_pressed = 1) :
    keyStep oob g =
      rollScoreElse oob
        { g with longz := 0, longy := 1, rect_posz := g.rect_posz + 2, s_pressed := 0 }
        (g.rect_posx + 5) (g.rect_posz + 2 + 5) := by
  simp [keyStep, hy, hz, hw, hs]

theorem keyStep_lyingZ_a (hy : g.longy ≠ 1) (hz : g.longz = 1) (hw : g.w_pressed ≠ 1)
    (hs : g.s_pressed ≠ 1) (ha : g.a_pressed = 1) :
    keyStep oob g =
      slideScoreElseIf { g with longz := 1, rect_posx := g.rect_posx - 1, a_pressed := 0 } := by
  simp [keyStep, hy, hz, hw, hs, ha]

theorem keyStep_lyingZ_d (hy : g.longy ≠ 1) (hz : g.longz = 1) (hw : g.w_pressed ≠ 1)
    (hs : g.s_pressed ≠ 1) (ha : g.a_pressed ≠ 1) (hd : g.d_pressed = 1) :
    keyStep oob g =
      slideScore { g with longz := 1, rect_posx := g.rect_posx + 1, d_pressed := 0 } := by
  simp [keyStep, hy, hz, hw, hs, ha, hd]

theorem keyStep_lyingX_w (hy : g.longy ≠ 1) (hz : g.longz ≠ 1) (hx : g.longx = 1)
    (hw : g.w_pressed = 1) :
    keyStep oob g =
      slideScore { g with longx := 1, rect_posz := g.rect_posz - 1, w_pressed := 0 } := by
  simp [keyStep, hy, hz, hx, hw]

theorem keyStep_lyingX_s (hy : g.longy ≠ 1) (hz : g.longz ≠ 1) (hx : g.longx = 1)
    (hw : g.w_pressed ≠ 1) (hs : g.s_pressed = 1) :
    keyStep oob g =
      slideScore { g with longx := 1, rect_posz := g.rect_posz + 1, s_pressed := 0 } := by
  simp [keyStep, hy, hz, hx, hw, hs]

theorem keyStep_lyingX_a (hy : g.longy ≠ 1) (hz : g.longz ≠ 1) (hx : g.longx = 1)
    (hw : g.w_pressed ≠ 1) (hs : g.s_pressed ≠ 1) (ha : g.a_pressed = 1) :
    keyStep oob g =
      rollScore oob { g with longx := 0, longy := 1, rect_posx := g.rect_posx - 1, a_pressed := 0 }
        (g.rect_posx - 1 + 5) (g.rect_posz + 6) := by
  simp [keyStep, hy, hz, hx, hw, hs, ha]

theorem keyStep_lyingX_d (hy : g.longy ≠ 1) (hz : g.longz ≠ 1) (hx : g.longx = 1)
    (hw : g.w_pressed ≠ 1) (hs : g.s_pressed ≠ 1) (ha : g.a_pressed ≠ 1)
    (hd : g.d_pressed = 1) :
    keyStep oob g =
      rollScore oob { g with longx := 0, longy := 1, rect_posx := g.rect_posx + 2, d_pressed := 0 }
        (g.rect_posx + 2 + 5) (g.rect_posz + 6) := by
  simp [keyStep, hy, hz, hx, hw, hs, ha, hd]

/-- With no key flag set no handler runs. -/
theorem keyStep_idle (h : idle g) : keyStep oob g = g := by
  obtain ⟨hw, hs, ha, hd⟩ := h
  simp [keyStep, hw, hs, ha, hd]

end Handlers

/-! ## Rolling -/

/-- C1. An upright block on cell `c`, with no other key pending, rolled by a
direction key: `w`/`s` leave it lying along z, `a`/`d` lying along x, and the
cells under it are exactly the cells at distance 1 and 2 from `c` in the
direction of the key. -/
theorem C1_upright_roll (oob : Oob) (g : Game) (key : Char)
    (hkey : key = 'w' ∨ key = 's' ∨ key = 'a' ∨ key = 'd')
    (hup : Upright g) (hidle : idle g) :
    ((key = 'w' ∨ key = 's') → LyingZ (keyStep oob (keyboardChar key g))) ∧
    ((key = 'a' ∨ key = 'd') → LyingX (keyStep oob (keyboardChar key g))) ∧
    ∀ p : Int × Int, p ∈ footprint (keyStep oob (keyboardChar key g)) ↔
      (p = shift (cell g) (dir key) 1 ∨ p = shift (cell g) (dir key) 2) := by
  obtain ⟨hy, hz, hx⟩ := hup
  obtain ⟨hw, hs, ha, hd⟩ := hidle
  rcases hkey with rfl | rfl | rfl | rfl
  · rw [keyStep_upright_w oob _ (by simpa [keyboardChar] using hy) (by simp [keyboardChar])]
    simp [keyboardChar, LyingZ, LyingX, footprint, orient, shift, cell, dir, hz, hx]
    intro a b
    constructor
    · rintro (⟨rfl, rfl⟩ | ⟨rfl, rfl⟩) <;> omega
    · rintro (⟨rfl, rfl⟩ | ⟨rfl, rfl⟩) <;> omega
  · rw [keyStep_upright_s oob _ (by simpa [keyboardChar] using hy)
      (by simpa [keyboardChar] using hw) (by simp [keyboardChar])]
    simp [keyboardChar, LyingZ, LyingX, footprint, orient, shift, cell, dir, hz, hx]
    intro a b
    constructor
    · rintro (⟨rfl, rfl⟩ | ⟨rfl, rfl⟩) <;> omega
    · rintro (⟨rfl, rfl⟩ | ⟨rfl, rfl⟩) <;> omega
  · rw [keyStep_upright_a oob _ (by simpa [keyboardChar] using hy)
      (by simpa [keyboardChar] using hw) (by simpa [keyboardChar] using hs)
      (by simp [keyboardChar])]
    simp [keyboardChar, LyingZ, LyingX, footprint, orient, shift, cell, dir, hz, hx]
    intro a b
    constructor
    · rintro (⟨rfl, rfl⟩ | ⟨rfl, rfl⟩) <;> omega
    · rintro (⟨rfl, rfl⟩ | ⟨rfl, rfl⟩) <;> omega
  · rw [keyStep_upright_d oob _ (by simpa [keyboardChar] using hy)
      (by simpa [keyboardChar] using hw) (by simpa [keyboardChar] using hs)
      (by simpa [keyboardChar] using ha) (by simp [keyboardChar])]
    simp [keyboardChar, LyingZ, LyingX, footprint, orient, shift, cell, dir, hz, hx]
    intro a b
    constructor
    · rintro (⟨rfl, rfl⟩ | ⟨rfl, rfl⟩) <;> omega
    · rintro (⟨rfl, rfl⟩ | ⟨rfl, rfl⟩) <;> omega

/-- C1 at the spawn state with key `d`: the block ends lying along x. -/
theorem C1_upright_roll_witness : LyingX (keyStep zeroOob (keyboardChar 'd' init)) :=
  (C1_upright_roll zeroOob init 'd' (by decide) (by decide) (by decide)).2.1 (Or.inr rfl)

/-- C2. A lying block rolled along its long axis (lying along z with `w` or
`s`, lying along x with `a` or `d`), no other key pending, ends upright, and
the one cell under it is the cell next to the old footprint in the direction
of the key: a neighbour in that direction of an old footprint cell that is not
itself an old footprint cell. -/
theorem C2_lying_roll_along (oob : Oob) (g : Game) (key : Char)
    (hcase : (LyingZ g ∧ (key = 'w' ∨ key = 's')) ∨ (LyingX g ∧ (key = 'a' ∨ key = 'd')))
    (hidle : idle g) :
    Upright (keyStep oob (keyboardChar key g)) ∧
    ∀ p : Int × Int, p ∈ footprint (keyStep oob (keyboardChar key g)) ↔
      (p ∉ footprint g ∧ ∃ q ∈ footprint g, p = shift q (dir key) 1) := by
  obtain ⟨hw, hs, ha, hd⟩ := hidle
  rcases hcase with ⟨⟨hy, hz, hx⟩, rfl | rfl⟩ | ⟨⟨hy, hz, hx⟩, rfl | rfl⟩
  · rw [keyStep_lyingZ_w oob _ (by simp [keyboardChar, hy]) (by simpa [keyboardChar] using hz)
      (by simp [keyboardChar])]
    simp [keyboardChar, Upright, footprint, orient, shift, dir, hy, hz, hx]
    intro a b
    constructor
    · rintro ⟨rfl, rfl⟩; omega
    · rintro ⟨⟨h1, h2⟩, (⟨rfl, rfl⟩ | ⟨rfl, rfl⟩)⟩ <;> omega
  · rw [keyStep_lyingZ_s oob _ (by simp [keyboardChar, hy]) (by simpa [keyboardChar] using hz)
      (by simpa [keyboardChar] using hw) (by simp [keyboardChar])]
    simp [keyboardChar, Upright, footprint, orient, shift, dir, hy, hz, hx]
    intro a b
    constructor
    · rintro ⟨rfl, rfl⟩; omega
    · rintro ⟨⟨h1, h2⟩, (⟨rfl, rfl⟩ | ⟨rfl, rfl⟩)⟩ <;> omega
  · rw [keyStep_lyingX_a oob _ (by simp [keyboardChar, hy]) (by simp [keyboardChar, hz])
      (by simpa [keyboardChar] using hx) (by simpa [keyboardChar] using hw)
      (by simpa [keyboardChar] using hs) (by simp [keyboardChar])]
    simp [keyboardChar, Upright, footprint, orient, shift, dir, hy, hz, hx]
    intro a b
    constructor
    · rintro ⟨rfl, rfl⟩; omega
    · rintro ⟨⟨h1, h2⟩, (⟨rfl, rfl⟩ | ⟨rfl, rfl⟩)⟩ <;> omega
  · rw [keyStep_lyingX_d oob _ (by simp [keyboardChar, hy]) (by simp [keyboardChar, hz])
      (by simpa [keyboardChar] using hx) (by simpa [keyboardChar] using hw)
      (by simpa [keyboardChar] using hs) (by simpa [keyboardChar] using ha)
      (by simp [keyboardChar])]
    simp [keyboardChar, Upright, footprint, orient, shift, dir, hy, hz, hx]
    intro a b
    constructor
    · rintro ⟨rfl, rfl⟩; omega
    · rintro ⟨⟨h1, h2⟩, (⟨rfl, rfl⟩ | ⟨rfl, rfl⟩)⟩ <;> omega

/-- C2 at a block lying along z rolled with `s`: it ends upright. -/
theorem C2_lying_roll_along_witness : Upright (keyStep zeroOob (keyboardChar 's' lyingZSample)) :=
  (C2_lying_roll_along zeroOob lyingZSample 's' (Or.inl ⟨by decide, Or.inr rfl⟩)
    (by decide)).1

/-- C3. A lying block rolled across its long axis (lying along z with `a` or
`d`, lying along x with `w` or `s`), no other key pending, keeps its
orientation, and each cell of its footprint moves by exactly one cell in the
direction of the key. -/
theorem C3_lying_roll_across (oob : Oob) (g : Game) (key : Char)
    (hcase : (LyingZ g ∧ (key = 'a' ∨ key = 'd')) ∨ (LyingX g ∧ (key = 'w' ∨ key = 's')))
    (hidle : idle g) :
    (LyingZ g → LyingZ (keyStep oob (keyboardChar key g))) ∧
    (LyingX g → LyingX (keyStep oob (keyboardChar key g))) ∧
    footprint (keyStep oob (keyboardChar key g)) =
      (footprint g).map (fun q => shift q (dir key) 1) := by
  obtain ⟨hw, hs, ha, hd⟩ := hidle
  rcases hcase with ⟨⟨hy, hz, hx⟩, rfl | rfl⟩ | ⟨⟨hy, hz, hx⟩, rfl | rfl⟩
  · rw [keyStep_lyingZ_a oob _ (by simp [keyboardChar, hy]) (by simpa [keyboardChar] using hz)
      (by simpa [keyboardChar] using hw) (by simpa [keyboardChar] using hs)
      (by simp [keyboardChar])]
    simp [keyboardChar, LyingZ, LyingX, footprint, orient, shift, dir, hy, hz, hx]
    omega
  · rw [keyStep_lyingZ_d oob _ (by simp [keyboardChar, hy]) (by simpa [keyboardChar] using hz)
      (by simpa [keyboardChar] using hw) (by simpa [keyboardChar] using hs)
      (by simpa [keyboardChar] using ha) (by simp [keyboardChar])]
    simp [keyboardChar, LyingZ, LyingX, footprint, orient, shift, dir, hy, hz, hx]
    omega
  · rw [keyStep_lyingX_w oob _ (by simp [keyboardChar, hy]) (by simp [keyboardChar, hz])
      (by simpa [keyboardChar] using hx) (by simp [keyboardChar])]
    simp [keyboardChar, LyingZ, LyingX, footprint, orient, shift, dir, hy, hz, hx]
    omega
  · rw [keyStep_lyingX_s oob _ (by simp [keyboardChar, hy]) (by simp [keyboardChar, hz])
      (by simpa [keyboardChar] using hx) (by simpa [keyboardChar] using hw)
      (by simp [keyboardChar])]
    simp [keyboardChar, LyingZ, LyingX, footprint, orient, shift, dir, hy, hz, hx]
    omega

/-- C3 at a block lying along x rolled with `w`: the footprint moves by one
cell along `-z`. -/
theorem C3_lying_roll_across_witness :
    footprint (keyStep zeroOob (keyboardChar 'w' lyingXSample)) =
      (footprint lyingXSample).map (fun q => shift q (dir 'w') 1) :=
  (C3_lying_roll_across zeroOob lyingXSample 'w' (Or.inr ⟨by decide, Or.inl rfl⟩)
    (by decide)).2.2

/-! ## Table reads inside the grid -/

theorem rd_nat (oob : Oob) (t : Table) (i j : Nat) (hi : i < 10) (hj : j < 10) :
    rd oob t (i : Int) (j : Int) = entry t i j := by
  have h1 : (i : Int) < 10 := by exact_mod_cast hi
  have h2 : (j : Int) < 10 := by exact_mod_cast hj
  simp [rd, h1, h2]

theorem rd_inGrid (oob : Oob) (t : Table) (i j : Int) (h : inGrid (i, j)) :
    rd oob t i j = cellEntry t (i, j) := by
  obtain ⟨h1, h2, h3, h4⟩ := h
  simp only at h1 h2 h3 h4
  simp [rd, cellEntry, h1, h2, h3, h4]

/-! ## Facts read off the tables -/

theorem goal_normal_diag : ∀ j < 10, entry goal_normal j j ≠ 1 := by decide

theorem normal_pos2_diag : ∀ i < 10, ∀ j < 10,
    (entry normal_pos2 i j = 0 ∧ entry goal_normal2 i j ≠ 1 ∧ entry goal_normal2 j j = 1) →
    (j + 1 < 10 ∧ entry normal_pos2 i (j + 1) = 0 ∧ entry goal_normal2 i (j + 1) ≠ 1) := by
  decide

theorem footprint_upright (g : Game) (h : Upright g) :
    footprint g = [(g.rect_posx + 5, g.rect_posz + 5)] := by
  simp [footprint, orient, h.1]

theorem footprint_lyingZ (g : Game) (h : LyingZ g) :
    footprint g = [(g.rect_posx + 5, g.rect_posz + 5), (g.rect_posx + 5, g.rect_posz + 6)] := by
  simp [footprint, orient, h.1, h.2.1]

theorem footprint_lyingX (g : Game) (h : LyingX g) :
    footprint g = [(g.rect_posx + 5, g.rect_posz + 5), (g.rect_posx + 6, g.rect_posz + 5)] := by
  simp [footprint, orient, h.1, h.2.1, h.2.2]

theorem check_void (oob : Oob) (h : Game) (hl : h.level = 1 ∨ h.level = 2) (hor : Oriented h)
    (hv : ∃ p ∈ footprint h, isVoid h.level p) : check oob h = spawnReset h := by
  obtain ⟨p, hp, hin, hfloor, hgoal⟩ := hv
  rcases hor with hU | hZ | hX
  · rw [footprint_upright h hU] at hp
    simp only [List.mem_singleton] at hp
    subst hp
    have e1 := fun t => rd_inGrid oob t _ _ hin
    obtain ⟨hy, hz, hx⟩ := hU
    rcases hl with hl | hl
    · simp [hl, floorTable, goalTable] at hfloor hgoal
      simp [check, checkY1, checkY2, hy, hl, e1, hfloor, hgoal, fail1, spawnReset, hz, hx]
    · simp [hl, floorTable, goalTable] at hfloor hgoal
      simp [check, checkY1, checkY2, hy, hl, e1, hfloor, hgoal, fail2, spawnReset, hz, hx]
  · rw [footprint_lyingZ h hZ] at hp
    obtain ⟨hy, hz, hx⟩ := hZ
    have hy1 : h.longy ≠ 1 := by omega
    simp only [List.mem_cons, List.mem_singleton, List.not_mem_nil, or_false] at hp
    rcases hp with rfl | rfl
    · obtain ⟨h1, h2, h3, h4⟩ := hin
      simp only at h1 h2 h3 h4
      obtain ⟨i, hi⟩ := Int.eq_ofNat_of_zero_le h1
      obtain ⟨j, hj⟩ := Int.eq_ofNat_of_zero_le h3
      have hi10 : i < 10 := by omega
      have hj10 : j < 10 := by omega
      have hj6 : h.rect_posz + 6 = ((j + 1 : Nat) : Int) := by push_cast; omega
      simp only [cellEntry, hi, hj, Int.toNat_ofNat] at hfloor hgoal
      rcases hl with hl | hl
      · simp only [hl, floorTable, goalTable, if_true] at hfloor hgoal
        have hd := goal_normal_diag j hj10
        simp [check, checkZ1, checkZ2, hy1, hz, hl, hi, hj, rd_nat, hi10, hj10, hfloor, hd,
          fail1, spawnReset, hx]
      · have h12 : (2 : Int) ≠ 1 := by decide
        simp only [hl, floorTable, goalTable, h12, if_false] at hfloor hgoal
        by_cases hd : entry goal_normal2 j j = 1
        · obtain ⟨hj1, hf2, hg2⟩ := normal_pos2_diag i hi10 j hj10 ⟨hfloor, hgoal, hd⟩
          have r1 : rd oob normal_pos2 (h.rect_posx + 5) (h.rect_posz + 6) = 0 := by
            rw [hi, hj6, rd_nat _ _ _ _ hi10 hj1]; exact hf2
          have r2 : rd oob goal_normal2 (h.rect_posx + 5) (h.rect_posz + 6) ≠ 1 := by
            rw [hi, hj6, rd_nat _ _ _ _ hi10 hj1]; exact hg2
          simp [check, checkZ1, checkZ2, hy1, hz, hl, r1, r2, fail2, spawnReset, hx]
        · simp [check, checkZ1, checkZ2, hy1, hz, hl, hi, hj, rd_nat, hi10, hj10, hfloor, hd,
            fail2, spawnReset, hx]
    · have e1 := fun t => rd_inGrid oob t _ _ hin
      rcases hl with hl | hl
      · simp only [hl, floorTable, goalTable, if_true] at hfloor hgoal
        simp [check, checkZ1, checkZ2, hy1, hz, hl, e1, hfloor, hgoal, fail1, spawnReset,
          hx]
      · have h12 : (2 : Int) ≠ 1 := by decide
        simp only [hl, floorTable, goalTable, h12, if_false] at hfloor hgoal
        simp [check, checkZ1, checkZ2, hy1, hz, hl, e1, hfloor, hgoal, fail2, spawnReset,
          hx]
  · rw [footprint_lyingX h hX] at hp
    obtain ⟨hy, hz, hx⟩ := hX
    have hy1 : h.longy ≠ 1 := by omega
    have hz1 : h.longz ≠ 1 := by omega
    simp only [List.mem_cons, List.mem_singleton, List.not_mem_nil, or_false] at hp
    have e1 := fun t => rd_inGrid oob t _ _ hin
    rcases hp with rfl | rfl
    · rcases hl with hl | hl
      · simp only [hl, floorTable, goalTable, if_true] at hfloor hgoal
        simp [check, checkX1, checkX2, hy1, hz1, hx, hl, e1, hfloor, hgoal, fail1, spawnReset, hz]
      · have h12 : (2 : Int) ≠ 1 := by decide
        simp only [hl, floorTable, goalTable, h12, if_false] at hfloor hgoal
        simp [check, checkX1, checkX2, hy1, hz1, hx, hl, e1, hfloor, hgoal, fail2, spawnReset, hz]
    · rcases hl with hl | hl
      · simp only [hl, floorTable, goalTable, if_true] at hfloor hgoal
        simp [check, checkX1, checkX2, hy1, hz1, hx, hl, e1, hfloor, hgoal, fail1, spawnReset, hz]
      · have h12 : (2 : Int) ≠ 1 := by decide
        simp only [hl, floorTable, goalTable, h12, if_false] at hfloor hgoal
        simp [check, checkX1, checkX2, hy1, hz1, hx, hl, e1, hfloor, hgoal, fail2, spawnReset, hz]

theorem bridge_not_goal : ∀ i < 10, ∀ j < 10,
    (entry bridge_normal i j = 1 → entry goal_normal i j ≠ 1) ∧
    (entry bridge_normal2 i j = 1 → entry goal_normal2 i j ≠ 1) := by
  decide

theorem frag_not_goal : ∀ i < 10, ∀ j < 10,
    (entry frag_normal i j = 1 → entry goal_normal i j ≠ 1) ∧
    (entry frag_normal2 i j = 1 → entry goal_normal2 i j ≠ 1) := by
  decide

/-- A cell of the grid has natural-number indices below `10`. -/
theorem cellEntry_nat (t : Table) (p : Int × Int) (hin : inGrid p) :
    p.1.toNat < 10 ∧ p.2.toNat < 10 ∧ cellEntry t p = entry t p.1.toNat p.2.toNat := by
  obtain ⟨h1, h2, h3, h4⟩ := hin
  refine ⟨by omega, by omega, rfl⟩

theorem check_bridge (oob : Oob) (h : Game) (hl : h.level = 1 ∨ h.level = 2) (hor : Oriented h)
    (hb : ∃ p ∈ footprint h, isBridge h.level p) (hoff : h.bridge_stat = 0) :
    check oob h = spawnReset h := by
  obtain ⟨p, hp, hin, hbr⟩ := hb
  have h12 : (2 : Int) ≠ 1 := by decide
  rcases hor with hU | hZ | hX
  · rw [footprint_upright h hU] at hp
    simp only [List.mem_singleton] at hp
    subst hp
    have e1 := fun t => rd_inGrid oob t _ _ hin
    obtain ⟨hi10, hj10, -⟩ := cellEntry_nat normal_pos _ hin
    have hng := bridge_not_goal _ hi10 _ hj10
    obtain ⟨hy, hz, hx⟩ := hU
    rcases hl with hl | hl
    · simp only [hl, bridgeTable, if_true] at hbr
      have hg : cellEntry goal_normal (h.rect_posx + 5, h.rect_posz + 5) ≠ 1 := hng.1 hbr
      simp [check, checkY1, checkY2, hy, hl, e1, hbr, hg, hoff, fail1, spawnReset, hz, hx]
    · simp only [hl, bridgeTable, h12, if_false] at hbr
      have hg : cellEntry goal_normal2 (h.rect_posx + 5, h.rect_posz + 5) ≠ 1 := hng.2 hbr
      simp [check, checkY1, checkY2, hy, hl, e1, hbr, hg, hoff, fail2, spawnReset, hz, hx]
  · rw [footprint_lyingZ h hZ] at hp
    obtain ⟨hy, hz, hx⟩ := hZ
    have hy1 : h.longy ≠ 1 := by omega
    simp only [List.mem_cons, List.mem_singleton, List.not_mem_nil, or_false] at hp
    have e1 := fun t => rd_inGrid oob t _ _ hin
    rcases hp with rfl | rfl <;> rcases hl with hl | hl
    · simp only [hl, bridgeTable, if_true] at hbr
      simp [check, checkZ1, checkZ2, hy1, hz, hl, e1, hbr, hoff, fail1, spawnReset, hx]
    · simp only [hl, bridgeTable, h12, if_false] at hbr
      simp [check, checkZ1, checkZ2, hy1, hz, hl, e1, hbr, hoff, fail2, spawnReset, hx]
    · simp only [hl, bridgeTable, if_true] at hbr
      simp [check, checkZ1, checkZ2, hy1, hz, hl, e1, hbr, hoff, fail1, spawnReset, hx]
    · simp only [hl, bridgeTable, h12, if_false] at hbr
      simp [check, checkZ1, checkZ2, hy1, hz, hl, e1, hbr, hoff, fail2, spawnReset, hx]
  · rw [footprint_lyingX h hX] at hp
    obtain ⟨hy, hz, hx⟩ := hX
    have hy1 : h.longy ≠ 1 := by omega
    have hz1 : h.longz ≠ 1 := by omega
    simp only [List.mem_cons, List.mem_singleton, List.not_mem_nil, or_false] at hp
    have e1 := fun t => rd_inGrid oob t _ _ hin
    rcases hp with rfl | rfl <;> rcases hl with hl | hl
    · simp only [hl, bridgeTable, if_true] at hbr
      simp [check, checkX1, checkX2, hy1, hz1, hx, hl, e1, hbr, hoff, fail1, spawnReset, hz]
    · simp only [hl, bridgeTable, h12, if_false] at hbr
      simp [check, checkX1, checkX2, hy1, hz1, hx, hl, e1, hbr, hoff, fail2, spawnReset, hz]
    · simp only [hl, bridgeTable, if_true] at hbr
      simp [check, checkX1, checkX2, hy1, hz1, hx, hl, e1, hbr, hoff, fail1, spawnReset, hz]
    · simp only [hl, bridgeTable, h12, if_false] at hbr
      simp [check, checkX1, checkX2, hy1, hz1, hx, hl, e1, hbr, hoff, fail2, spawnReset, hz]

theorem check_fragile (oob : Oob) (h : Game) (hl : h.level = 1 ∨ h.level = 2) (hU : Upright h)
    (hf : ∃ p ∈ footprint h, isFragile h.level p) : check oob h = spawnReset h := by
  obtain ⟨p, hp, hin, hfr⟩ := hf
  have h12 : (2 : Int) ≠ 1 := by decide
  rw [footprint_upright h hU] at hp
  simp only [List.mem_singleton] at hp
  subst hp
  have e1 := fun t => rd_inGrid oob t _ _ hin
  obtain ⟨hi10, hj10, -⟩ := cellEntry_nat normal_pos _ hin
  have hng := frag_not_goal _ hi10 _ hj10
  obtain ⟨hy, hz, hx⟩ := hU
  rcases hl with hl | hl
  · simp only [hl, fragTable, if_true] at hfr
    have hg : cellEntry goal_normal (h.rect_posx + 5, h.rect_posz + 5) ≠ 1 := hng.1 hfr
    simp [check, checkY1, checkY2, hy, hl, e1, hfr, hg, fail1, spawnReset, hz, hx]
  · simp only [hl, fragTable, h12, if_false] at hfr
    have hg : cellEntry goal_normal2 (h.rect_posx + 5, h.rect_posz + 5) ≠ 1 := hng.2 hfr
    simp [check, checkY1, checkY2, hy, hl, e1, hfr, hg, fail2, spawnReset, hz, hx]

theorem atSpawn_spawnReset (h : Game) : AtSpawn (spawnReset h) := by
  unfold spawnReset AtSpawn Upright
  split_ifs <;> simp

/-! ## Falling, closed bridges, fragile cells -/

/-- C4. Rolling onto a void cell resets the block.  On either level, whatever
the bridge switch: if after the key handlers the block (upright or lying) has a
footprint cell that is a void cell of the grid (floor table entry `0`, not the
goal cell), then at the end of the same frame the block stands upright on the
spawn cell with `bridge_stat = 0`.  The other footprint cell need not even be
in the grid. -/
theorem C4_void_resets (oob : Oob) (g : Game)
    (hl : (keyStep oob g).level = 1 ∨ (keyStep oob g).level = 2)
    (hor : Oriented (keyStep oob g))
    (hv : ∃ p ∈ footprint (keyStep oob g), isVoid (keyStep oob g).level p) :
    AtSpawn (frame oob g) := by
  have e : frame oob g = spawnReset (keyStep oob g) := check_void oob (keyStep oob g) hl hor hv
  rw [e]
  exact atSpawn_spawnReset _

/-- C4 at the spawn state with key `s`: the block would lie on the void cells
`(0, 1)`, `(0, 2)` of level 1 and is reset. -/
theorem C4_void_resets_witness : AtSpawn (frame zeroOob (keyboardChar 's' init)) :=
  C4_void_resets zeroOob (keyboardChar 's' init) (by decide) (by decide)
    ⟨(0, 1), by decide, by decide⟩

/-- C5. A closed bridge fails the block.  On either level: if after the key
handlers the block (upright or lying) has a footprint cell that is a bridge
cell of the grid while `bridge_stat = 0` (its value after the handler's trigger
test), then at the end of the same frame the block stands upright on the spawn
cell with `bridge_stat = 0`. -/
theorem C5_closed_bridge_fails (oob : Oob) (g : Game)
    (hl : (keyStep oob g).level = 1 ∨ (keyStep oob g).level = 2)
    (hor : Oriented (keyStep oob g))
    (hb : ∃ p ∈ footprint (keyStep oob g), isBridge (keyStep oob g).level p)
    (hoff : (keyStep oob g).bridge_stat = 0) :
    AtSpawn (frame oob g) := by
  have e : frame oob g = spawnReset (keyStep oob g) :=
    check_bridge oob (keyStep oob g) hl hor hb hoff
  rw [e]
  exact atSpawn_spawnReset _

/-- C5 at an upright block on cell `(3, 2)` of level 1 rolled with `s`: it
would lie on `(3, 3)`, `(3, 4)`, the second a bridge cell, with the switch
off, and is reset. -/
theorem C5_closed_bridge_fails_witness :
    AtSpawn (frame zeroOob (keyboardChar 's' uprightSample)) :=
  C5_closed_bridge_fails zeroOob (keyboardChar 's' uprightSample) (by decide) (by decide)
    ⟨(3, 4), by decide, by decide⟩ (by decide)

/-! ## Lying blocks inside the grid -/

/-- On both levels, for an anchor in a column below `9`, the anchor test of
the lying-z check, which reads the goal table on the diagonal, holds only for
a void anchor. -/
theorem anchor_test_void : ∀ i < 10, ∀ j < 9,
    ((entry normal_pos i j = 0 ∧ entry goal_normal j j ≠ 1) →
      (entry normal_pos i j = 0 ∧ entry goal_normal i j ≠ 1)) ∧
    ((entry normal_pos2 i j = 0 ∧ entry goal_normal2 j j ≠ 1) →
      (entry normal_pos2 i j = 0 ∧ entry goal_normal2 i j ≠ 1)) := by
  decide

/-- The reset to spawn stands the block up: it changes a lying block. -/
theorem spawnReset_ne_of_lying (h : Game) (hy : h.longy ≠ 1) : spawnReset h ≠ h := by
  intro e
  have e1 : (spawnReset h).longy = h.longy := by rw [e]
  have e2 : (spawnReset h).longy = 1 := by
    unfold spawnReset
    split_ifs <;> rfl
  exact hy (e1.symm.trans e2)

/-- A block lying along z inside the grid, with no void cell and no closed
bridge cell under it, passes the check unchanged: the fragile table is not
read. -/
theorem check_lyingZ_pass (oob : Oob) (h : Game) (hl : h.level = 1 ∨ h.level = 2)
    (hZ : LyingZ h) (hin : ∀ p ∈ footprint h, inGrid p)
    (hv : ¬ ∃ p ∈ footprint h, isVoid h.level p)
    (hb : ¬ ((∃ p ∈ footprint h, isBridge h.level p) ∧ h.bridge_stat = 0)) :
    check oob h = h := by
  rw [footprint_lyingZ h hZ] at hin hv hb
  have in0 := hin _ (List.mem_cons_self _ _)
  have in1 := hin _ (List.mem_cons_of_mem _ (List.mem_cons_self _ _))
  obtain ⟨a1, a2, a3, _⟩ := in0
  obtain ⟨_, _, _, b4⟩ := in1
  simp only at a1 a2 a3 b4
  obtain ⟨i, ex⟩ := Int.eq_ofNat_of_zero_le a1
  obtain ⟨j, ez⟩ := Int.eq_ofNat_of_zero_le a3
  have ez1 : h.rect_posz + 6 = ((j + 1 : Nat) : Int) := by push_cast; omega
  have hi : i < 10 := by omega
  have hj : j < 9 := by omega
  have hj0 : j < 10 := by omega
  have hj1 : j + 1 < 10 := by omega
  have hz4 : ¬ h.rect_posz ≥ 4 := by omega
  rw [ex, ez, ez1] at hv hb
  have g0 : inGrid ((i : Int), (j : Int)) := ⟨by simp, by simp; omega, by simp, by simp; omega⟩
  have g1 : inGrid ((i : Int), ((j + 1 : Nat) : Int)) :=
    ⟨by simp, by simp; omega, by simp; omega, by simp; omega⟩
  have v0 : ¬ (entry (floorTable h.level) i j = 0 ∧ entry (goalTable h.level) i j ≠ 1) :=
    fun hc => hv ⟨_, List.mem_cons_self _ _, g0, hc.1, hc.2⟩
  have v1 : ¬ (entry (floorTable h.level) i (j + 1) = 0 ∧
      entry (goalTable h.level) i (j + 1) ≠ 1) :=
    fun hc => hv ⟨_, List.mem_cons_of_mem _ (List.mem_cons_self _ _), g1, hc.1, hc.2⟩
  have b0 : ¬ (entry (bridgeTable h.level) i j = 1 ∧ h.bridge_stat = 0) :=
    fun hc => hb ⟨⟨_, List.mem_cons_self _ _, g0, hc.1⟩, hc.2⟩
  have b1 : ¬ (entry (bridgeTable h.level) i (j + 1) = 1 ∧ h.bridge_stat = 0) :=
    fun hc => hb ⟨⟨_, List.mem_cons_of_mem _ (List.mem_cons_self _ _), g1, hc.1⟩, hc.2⟩
  obtain ⟨hy, hz, _⟩ := hZ
  have hy1 : h.longy ≠ 1 := by omega
  have h12 : (1 : Int) ≠ 2 := by decide
  have h21 : (2 : Int) ≠ 1 := by decide
  unfold check
  rw [if_neg hy1, if_pos hz]
  rcases hl with hl | hl
  · simp only [hl, floorTable, goalTable, bridgeTable, if_true] at v0 v1 b0 b1
    have e1 : checkZ1 oob h = h := by
      unfold checkZ1
      rw [if_pos hl, ex, ez, ez1, rd_nat oob _ i (j + 1) hi hj1, rd_nat oob _ i (j + 1) hi hj1,
        rd_nat oob _ i j hi hj0, rd_nat oob _ j j hj0 hj0, rd_nat oob _ i j hi hj0,
        rd_nat oob _ i (j + 1) hi hj1, if_neg, if_neg]
      · rintro (hc | hc)
        · exact b0 hc
        · exact b1 hc
      · rintro (hc | hc | hc)
        · exact v1 hc
        · exact v0 ((anchor_test_void i hi j hj).1 hc)
        · exact hz4 hc
    rw [e1]
    simp [checkZ2, hl]
  · simp only [hl, floorTable, goalTable, bridgeTable, h21, if_false] at v0 v1 b0 b1
    have e1 : checkZ1 oob h = h := by simp [checkZ1, hl]
    rw [e1]
    unfold checkZ2
    rw [if_pos hl, ex, ez, ez1, rd_nat oob _ i (j + 1) hi hj1, rd_nat oob _ i (j + 1) hi hj1,
      rd_nat oob _ i j hi hj0, rd_nat oob _ j j hj0 hj0, rd_nat oob _ i j hi hj0,
      rd_nat oob _ i (j + 1) hi hj1, if_neg, if_neg]
    · rintro (hc | hc)
      · exact b0 hc
      · exact b1 hc
    · rintro (hc | hc | hc)
      · exact v1 hc
      · exact v0 ((anchor_test_void i hi j hj).2 hc)
      · exact hz4 hc

/-- A block lying along x inside the grid, with no void cell and no closed
bridge cell under it, passes the check unchanged: the fragile table is not
read. -/
theorem check_lyingX_pass (oob : Oob) (h : Game) (hl : h.level = 1 ∨ h.level = 2)
    (hX : LyingX h) (hin : ∀ p ∈ footprint h, inGrid p)
    (hv : ¬ ∃ p ∈ footprint h, isVoid h.level p)
    (hb : ¬ ((∃ p ∈ footprint h, isBridge h.level p) ∧ h.bridge_stat = 0)) :
    check oob h = h := by
  rw [footprint_lyingX h hX] at hin hv hb
  have in0 := hin _ (List.mem_cons_self _ _)
  have in1 := hin _ (List.mem_cons_of_mem _ (List.mem_cons_self _ _))
  obtain ⟨a1, _, a3, a4⟩ := in0
  obtain ⟨_, b2, _, _⟩ := in1
  simp only at a1 a3 a4 b2
  obtain ⟨i, ex⟩ := Int.eq_ofNat_of_zero_le a1
  obtain ⟨j, ez⟩ := Int.eq_ofNat_of_zero_le a3
  have ex1 : h.rect_posx + 6 = ((i + 1 : Nat) : Int) := by push_cast; omega
  have hi0 : i < 10 := by omega
  have hi1 : i + 1 < 10 := by omega
  have hj : j < 10 := by omega
  have hx5 : ¬ h.rect_posx < -5 := by omega
  have hz5 : ¬ h.rect_posz < -5 := by omega
  rw [ex, ez, ex1] at hv hb
  have g0 : inGrid ((i : Int), (j : Int)) := ⟨by simp, by simp; omega, by simp, by simp; omega⟩
  have g1 : inGrid (((i + 1 : Nat) : Int), (j : Int)) :=
    ⟨by simp; omega, by simp; omega, by simp, by simp; omega⟩
  have v0 : ¬ (entry (floorTable h.level) i j = 0 ∧ entry (goalTable h.level) i j ≠ 1) :=
    fun hc => hv ⟨_, List.mem_cons_self _ _, g0, hc.1, hc.2⟩
  have v1 : ¬ (entry (floorTable h.level) (i + 1) j = 0 ∧
      entry (goalTable h.level) (i + 1) j ≠ 1) :=
    fun hc => hv ⟨_, List.mem_cons_of_mem _ (List.mem_cons_self _ _), g1, hc.1, hc.2⟩
  have b0 : ¬ (entry (bridgeTable h.level) i j = 1 ∧ h.bridge_stat = 0) :=
    fun hc => hb ⟨⟨_, List.mem_cons_self _ _, g0, hc.1⟩, hc.2⟩
  have b1 : ¬ (entry (bridgeTable h.level) (i + 1) j = 1 ∧ h.bridge_stat = 0) :=
    fun hc => hb ⟨⟨_, List.mem_cons_of_mem _ (List.mem_cons_self _ _), g1, hc.1⟩, hc.2⟩
  obtain ⟨hy, hz, hx⟩ := hX
  have hy1 : h.longy ≠ 1 := by omega
  have hz1 : h.longz ≠ 1 := by omega
  have h21 : (2 : Int) ≠ 1 := by decide
  unfold check
  rw [if_neg hy1, if_neg hz1, if_pos hx]
  rcases hl with hl | hl
  · simp only [hl, floorTable, goalTable, bridgeTable, if_true] at v0 v1 b0 b1
    have e1 : checkX1 oob h = h := by
      unfold checkX1
      rw [if_pos hl, ex, ez, ex1, rd_nat oob _ (i + 1) j hi1 hj, rd_nat oob _ (i + 1) j hi1 hj,
        rd_nat oob _ i j hi0 hj, rd_nat oob _ i j hi0 hj, rd_nat oob _ (i + 1) j hi1 hj,
        rd_nat oob _ i j hi0 hj, if_neg, if_neg]
      · rintro (hc | hc)
        · exact b1 hc
        · exact b0 hc
      · rintro (hc | hc | hc | hc)
        · exact v1 hc
        · exact v0 hc
        · exact hx5 hc
        · exact hz5 hc
    rw [e1]
    simp [checkX2, hl]
  · simp only [hl, floorTable, goalTable, bridgeTable, h21, if_false] at v0 v1 b0 b1
    have e1 : checkX1 oob h = h := by simp [checkX1, hl]
    rw [e1]
    unfold checkX2
    rw [if_pos hl, ex, ez, ex1, rd_nat oob _ (i + 1) j hi1 hj, rd_nat oob _ (i + 1) j hi1 hj,
      rd_nat oob _ i j hi0 hj, rd_nat oob _ i j hi0 hj, rd_nat oob _ (i + 1) j hi1 hj,
      rd_nat oob _ i j hi0 hj, if_neg, if_neg]
    · rintro (hc | hc)
      · exact b1 hc
      · exact b0 hc
    · rintro (hc | hc | hc | hc)
      · exact v1 hc
      · exact v0 hc
      · exact hx5 hc
      · exact hz5 hc

/-- A lying block inside the grid is failed by a void cell and by a closed
bridge cell, and by nothing else: the check leaves it as it is exactly when no
footprint cell is void and none is a closed bridge cell, and resets it to
spawn otherwise. -/
theorem check_lying_inGrid (oob : Oob) (h : Game) (hl : h.level = 1 ∨ h.level = 2)
    (hL : LyingZ h ∨ LyingX h) (hin : ∀ p ∈ footprint h, inGrid p) :
    (check oob h = h ↔
      (¬ ∃ p ∈ footprint h, isVoid h.level p) ∧
      ¬ ((∃ p ∈ footprint h, isBridge h.level p) ∧ h.bridge_stat = 0)) ∧
    (check oob h = h ∨ check oob h = spawnReset h) := by
  have hy1 : h.longy ≠ 1 := by
    rcases hL with ⟨hy, _, _⟩ | ⟨hy, _, _⟩ <;> omega
  have hor : Oriented h := by
    rcases hL with hZ | hX
    · exact Or.inr (Or.inl hZ)
    · exact Or.inr (Or.inr hX)
  have hne := spawnReset_ne_of_lying h hy1
  by_cases hv : ∃ p ∈ footprint h, isVoid h.level p
  · have e := check_void oob h hl hor hv
    refine ⟨⟨fun hc => absurd (e.symm.trans hc) hne, fun hc => absurd hv hc.1⟩, Or.inr e⟩
  by_cases hb : (∃ p ∈ footprint h, isBridge h.level p) ∧ h.bridge_stat = 0
  · have e := check_bridge oob h hl hor hb.1 hb.2
    refine ⟨⟨fun hc => absurd (e.symm.trans hc) hne, fun hc => absurd hb hc.2⟩, Or.inr e⟩
  have e : check oob h = h := by
    rcases hL with hZ | hX
    · exact check_lyingZ_pass oob h hl hZ hin hv hb
    · exact check_lyingX_pass oob h hl hX hin hv hb
  exact ⟨⟨fun _ => ⟨hv, hb⟩, fun _ => e⟩, Or.inl e⟩

/-- C6, as stated, fails.  From the initial state the keys `d`, `d` bring the
block upright onto cell `(3, 0)` of level 1; the key `s` then lays it on the
cells `(3, 1)`, `(3, 2)`.  Cell `(3, 1)` is marked in `frag_normal`, yet the
frame leaves the block lying there: it is not reset. -/
theorem C6_fragile_lying_counterexample :
    (keyStep zeroOob (keyboardChar 's' (play zeroOob ['d', 'd'] init))).level = 1 ∧
    LyingZ (keyStep zeroOob (keyboardChar 's' (play zeroOob ['d', 'd'] init))) ∧
    (3, 1) ∈ footprint (keyStep zeroOob (keyboardChar 's' (play zeroOob ['d', 'd'] init))) ∧
    isFragile 1 (3, 1) ∧
    ¬ AtSpawn (frame zeroOob (keyboardChar 's' (play zeroOob ['d', 'd'] init))) ∧
    footprint (frame zeroOob (keyboardChar 's' (play zeroOob ['d', 'd'] init))) =
      [(3, 1), (3, 2)] := by
  decide

/-- C6, amended.  A fragile cell fails the block that stands upright on it,
and only that block.  On either level: (1) if after the key handlers the block
is upright on a cell marked in the level's fragile table, then at the end of
the same frame the block is reset, exactly as by a fall (upright on the spawn
cell, `bridge_stat = 0`, the level's score reset); (2) if after the key
handlers the block is lying with both footprint cells inside the grid, the
frame leaves it where the move put it exactly when no footprint cell is void
and none is a closed bridge cell, and resets it otherwise: whether a
footprint cell is marked fragile plays no part. -/
theorem C6_fragile_upright_only (oob : Oob) (g : Game)
    (hl : (keyStep oob g).level = 1 ∨ (keyStep oob g).level = 2) :
    (Upright (keyStep oob g) →
      (∃ p ∈ footprint (keyStep oob g), isFragile (keyStep oob g).level p) →
      AtSpawn (frame oob g) ∧ frame oob g = spawnReset (keyStep oob g)) ∧
    (LyingZ (keyStep oob g) ∨ LyingX (keyStep oob g) →
      (∀ p ∈ footprint (keyStep oob g), inGrid p) →
      (frame oob g = keyStep oob g ↔
        (¬ ∃ p ∈ footprint (keyStep oob g), isVoid (keyStep oob g).level p) ∧
        ¬ ((∃ p ∈ footprint (keyStep oob g), isBridge (keyStep oob g).level p) ∧
            (keyStep oob g).bridge_stat = 0)) ∧
      (frame oob g = keyStep oob g ∨ frame oob g = spawnReset (keyStep oob g))) := by
  refine ⟨fun hU hf => ?_, fun hL hin => ?_⟩
  · have e : frame oob g = spawnReset (keyStep oob g) :=
      check_fragile oob (keyStep oob g) hl hU hf
    rw [e]
    exact ⟨atSpawn_spawnReset _, rfl⟩
  · exact check_lying_inGrid oob (keyStep oob g) hl hL hin

/-- C6 amended, at two rolls on level 1.  A block lying on `(3, 2)`, `(3, 3)`
rolled with `w` would stand on the fragile cell `(3, 1)` and is reset.  The
block upright on `(3, 0)` (after `d`, `d`) rolled with `s` lies on `(3, 1)`,
`(3, 2)`, the first a fragile cell, neither void nor a closed bridge cell: the
frame leaves it there. -/
theorem C6_fragile_upright_only_witness :
    AtSpawn (frame zeroOob (keyboardChar 'w' fragileSample)) ∧
    isFragile 1 (3, 1) ∧
    footprint (keyStep zeroOob (keyboardChar 's' (play zeroOob ['d', 'd'] init))) =
      [(3, 1), (3, 2)] ∧
    frame zeroOob (keyboardChar 's' (play zeroOob ['d', 'd'] init)) =
      keyStep zeroOob (keyboardChar 's' (play zeroOob ['d', 'd'] init)) :=
  ⟨((C6_fragile_upright_only zeroOob (keyboardChar 'w' fragileSample) (by decide)).1
      (by decide) ⟨(3, 1), by decide, by decide⟩).1,
   by decide, by decide,
   (((C6_fragile_upright_only zeroOob (keyboardChar 's' (play zeroOob ['d', 'd'] init))
      (by decide)).2 (Or.inl (by decide)) (by decide)).1).2 ⟨by decide, by decide⟩⟩

/-! ## Winning -/

/-- The check of an upright block on the level-1 goal cell: the level-1 block
sets `win` and `level`, and the level-2 block, run next on the same cell
`(3, 9)`, which is void on level 2, resets the block. -/
theorem check_goal1 (oob : Oob) (h : Game) (hl : h.level = 1) (hy : h.longy = 1)
    (hc : cell h = (3, 9)) :
    check oob h =
      { h with win := 1, level := 2, rect_posx := -5, rect_posz := -5, bridge_stat := 0,
               score2 := h.score } := by
  simp only [cell, Prod.mk.injEq] at hc
  obtain ⟨hcx, hcz⟩ := hc
  have r1 : ∀ t, rd oob t 3 9 = entry t 3 9 := fun t => rd_nat oob t 3 9 (by decide) (by decide)
  have f1 : entry normal_pos 3 9 = 0 := by decide
  have f2 : entry goal_normal 3 9 = 1 := by decide
  have f3 : entry normal_pos2 3 9 = 0 := by decide
  have f4 : entry goal_normal2 3 9 = 0 := by decide
  have e1 : checkY1 oob h = { h with win := 1, level := 2 } := by
    simp [checkY1, hl, hcx, hcz, r1, f1, f2]
  simp [check, hy, e1, checkY2, hcx, hcz, r1, f3, f4, fail2]

/-- C7. Level 1 cleared.  If after the key handlers the block is upright on
the level-1 goal cell `(3, 9)` on level 1, then the same frame sets
`level = 2` and `win = 1`, leaves `score` as the move left it and copies it
into `score2`, and puts the block upright on the spawn cell with
`bridge_stat = 0`, whatever the bridge switch was. -/
theorem C7_level1_goal (oob : Oob) (g : Game)
    (hl : (keyStep oob g).level = 1) (hU : Upright (keyStep oob g))
    (hc : cell (keyStep oob g) = (3, 9)) :
    (frame oob g).level = 2 ∧ (frame oob g).win = 1 ∧
    (frame oob g).score = (keyStep oob g).score ∧
    (frame oob g).score2 = (frame oob g).score ∧
    AtSpawn (frame oob g) := by
  have e : frame oob g = _ := check_goal1 oob (keyStep oob g) hl hU.1 hc
  obtain ⟨hy, hz, hx⟩ := hU
  rw [e]
  simp [AtSpawn, Upright, hy, hz, hx]

/-- C7 at a block lying on `(3, 7)`, `(3, 8)` of level 1 with the bridge open
and score 7, rolled with `s`: the frame ends on level 2 with `score2 = 8`. -/
theorem C7_level1_goal_witness :
    (frame zeroOob (keyboardChar 's' goalSample1)).level = 2 ∧
    (frame zeroOob (keyboardChar 's' goalSample1)).win = 1 ∧
    (frame zeroOob (keyboardChar 's' goalSample1)).score =
      (keyStep zeroOob (keyboardChar 's' goalSample1)).score ∧
    (frame zeroOob (keyboardChar 's' goalSample1)).score2 =
      (frame zeroOob (keyboardChar 's' goalSample1)).score ∧
    AtSpawn (frame zeroOob (keyboardChar 's' goalSample1)) :=
  C7_level1_goal zeroOob (keyboardChar 's' goalSample1) (by decide) (by decide) (by decide)

/-- The check of an upright block on the level-2 goal cell sets `win = 2` and
nothing else. -/
theorem check_goal2 (oob : Oob) (h : Game) (hl : h.level = 2) (hy : h.longy = 1)
    (hc : cell h = (8, 8)) : check oob h = { h with win := 2 } := by
  simp only [cell, Prod.mk.injEq] at hc
  obtain ⟨hcx, hcz⟩ := hc
  have r1 : ∀ t, rd oob t 8 8 = entry t 8 8 := fun t => rd_nat oob t 8 8 (by decide) (by decide)
  have f3 : entry normal_pos2 8 8 = 0 := by decide
  have f4 : entry goal_normal2 8 8 = 1 := by decide
  have e1 : checkY1 oob h = h := by simp [checkY1, hl]
  simp [check, hy, e1, checkY2, hl, hcx, hcz, r1, f3, f4]

/-- Once `win = 2` the loop of `main` is left at once, whatever was typed. -/
theorem run_won (oob : Oob) (events : List (List Char)) (g : Game) (hw : g.win = 2) :
    run oob events g = g := by
  cases events with
  | nil => rfl
  | cons keys rest => simp [run, mainIter, hw]

/-- C8. The game won.  (1) On level 2, if after the key handlers the block is
upright on the goal cell `(8, 8)`, the frame sets `win = 2` and changes
nothing else: the block is not failed.  (2) From a state with `win = 2` the
loop of `main` runs no frame and polls no key: `mainIter` leaves the loop for
every input, and running the loop over any sequence of polls returns the
state unchanged. -/
theorem C8_level2_goal_terminal (oob : Oob) (g : Game) (keys : List Char)
    (events : List (List Char)) :
    ((keyStep oob g).level = 2 → Upright (keyStep oob g) → cell (keyStep oob g) = (8, 8) →
      frame oob g = { keyStep oob g with win := 2 }) ∧
    (g.win = 2 → mainIter oob keys g = none ∧ run oob events g = g) := by
  refine ⟨fun hl hU hc => check_goal2 oob (keyStep oob g) hl hU.1 hc, fun hw => ?_⟩
  exact ⟨by simp [mainIter, hw], run_won oob events g hw⟩

/-- C8 at a block lying on `(8, 6)`, `(8, 7)` of level 2 with the bridge open,
rolled with `s` onto the goal cell `(8, 8)`: the frame sets `win = 2`, and
the loop, run on from there over two polls, changes nothing. -/
theorem C8_level2_goal_terminal_witness :
    (frame zeroOob (keyboardChar 's' goalSample2)).win = 2 ∧
    run zeroOob [['w'], ['a', 's']] (frame zeroOob (keyboardChar 's' goalSample2)) =
      frame zeroOob (keyboardChar 's' goalSample2) :=
  ⟨by
    rw [(C8_level2_goal_terminal zeroOob (keyboardChar 's' goalSample2) [] []).1
      (by decide) (by decide) (by decide)],
   ((C8_level2_goal_terminal zeroOob (frame zeroOob (keyboardChar 's' goalSample2)) []
      [['w'], ['a', 's']]).2 (by decide)).2⟩

/-! ## Lying blocks and the goal -/

section LyingChecks

variable (oob : Oob) (h : Game)

@[simp] theorem checkZ1_win : (checkZ1 oob h).win = h.win := by
  unfold checkZ1 fail1; split_ifs <;> rfl

@[simp] theorem checkZ1_level : (checkZ1 oob h).level = h.level := by
  unfold checkZ1 fail1; split_ifs <;> rfl

@[simp] theorem checkZ2_win : (checkZ2 oob h).win = h.win := by
  unfold checkZ2 fail2; split_ifs <;> rfl

@[simp] theorem checkZ2_level : (checkZ2 oob h).level = h.level := by
  unfold checkZ2 fail2; split_ifs <;> rfl

@[simp] theorem checkX1_win : (checkX1 oob h).win = h.win := by
  unfold checkX1 fail1; split_ifs <;> rfl

@[simp] theorem checkX1_level : (checkX1 oob h).level = h.level := by
  unfold checkX1 fail1; split_ifs <;> rfl

@[simp] theorem checkX2_win : (checkX2 oob h).win = h.win := by
  unfold checkX2 fail2; split_ifs <;> rfl

@[simp] theorem checkX2_level : (checkX2 oob h).level = h.level := by
  unfold checkX2 fail2; split_ifs <;> rfl

/-- The check of a block that is not upright leaves `win` and `level`. -/
theorem check_lying_win_level (hy : h.longy ≠ 1) :
    (check oob h).win = h.win ∧ (check oob h).level = h.level := by
  unfold check
  rw [if_neg hy]
  split_ifs <;> simp

end LyingChecks

theorem goal_unique : ∀ i < 10, ∀ j < 10,
    (entry goal_normal i j = 1 → i = 3 ∧ j = 9) ∧
    (entry goal_normal2 i j = 1 → i = 8 ∧ j = 8) := by
  decide

/-- The goal cell is `(3, 9)` on level 1 and `(8, 8)` on level 2. -/
theorem isGoal_cell (level : Int) (p : Int × Int) (hg : isGoal level p) :
    (level = 1 → p = (3, 9)) ∧ (level = 2 → p = (8, 8)) := by
  obtain ⟨hin, he⟩ := hg
  obtain ⟨hi10, hj10, -⟩ := cellEntry_nat normal_pos p hin
  obtain ⟨h1, h2, h3, h4⟩ := hin
  have hu := goal_unique _ hi10 _ hj10
  refine ⟨fun hl => ?_, fun hl => ?_⟩
  · subst hl
    obtain ⟨e1, e2⟩ := hu.1 (by simpa [cellEntry, goalTable] using he)
    ext <;> simp <;> omega
  · subst hl
    obtain ⟨e1, e2⟩ := hu.2 (by simpa [cellEntry, goalTable] using he)
    ext <;> simp <;> omega

/-- A lying block with one cell on the goal and the other on a floor cell
that is not a closed bridge cell passes the check unchanged. -/
theorem check_lying_goal (oob : Oob) (h : Game) (hl : h.level = 1 ∨ h.level = 2)
    (hL : LyingZ h ∨ LyingX h) (p q : Int × Int)
    (hfp : footprint h = [p, q] ∨ footprint h = [q, p])
    (hp : isGoal h.level p) (hq1 : inGrid q)
    (hq2 : cellEntry (floorTable h.level) q ≠ 0)
    (hq3 : ¬ (cellEntry (bridgeTable h.level) q = 1 ∧ h.bridge_stat = 0)) :
    check oob h = h := by
  obtain ⟨g1, g2⟩ := isGoal_cell _ _ hp
  rcases hl with hl | hl
  · have hp1 := g1 hl
    subst hp1
    rcases hL with ⟨hy, hz, hx⟩ | ⟨hy, hz, hx⟩
    · rw [footprint_lyingZ h ⟨hy, hz, hx⟩] at hfp
      have hy1 : h.longy ≠ 1 := by omega
      rcases hfp with e | e
      · simp only [List.cons.injEq, Prod.mk.injEq, and_true] at e
        obtain ⟨⟨ex, ez⟩, rfl⟩ := e
        have px : h.rect_posx = -2 := by omega
        have pz : h.rect_posz = 4 := by omega
        exfalso
        simp +decide [inGrid, px, pz] at hq1
      · simp only [List.cons.injEq, Prod.mk.injEq, and_true] at e
        obtain ⟨rfl, ⟨ex, ez⟩⟩ := e
        have px : h.rect_posx = -2 := by omega
        have pz : h.rect_posz = 3 := by omega
        simp +decide [cellEntry, bridgeTable, hl, px, pz] at hq3
        simp +decide [check, checkZ1, checkZ2, rd, hy1, hz, hl, px, pz, hq3]
    · rw [footprint_lyingX h ⟨hy, hz, hx⟩] at hfp
      have hy1 : h.longy ≠ 1 := by omega
      have hz1 : h.longz ≠ 1 := by omega
      rcases hfp with e | e
      · simp only [List.cons.injEq, Prod.mk.injEq, and_true] at e
        obtain ⟨⟨ex, ez⟩, rfl⟩ := e
        have px : h.rect_posx = -2 := by omega
        have pz : h.rect_posz = 4 := by omega
        exfalso
        simp +decide [cellEntry, floorTable, hl, px, pz] at hq2
      · simp only [List.cons.injEq, Prod.mk.injEq, and_true] at e
        obtain ⟨rfl, ⟨ex, ez⟩⟩ := e
        have px : h.rect_posx = -3 := by omega
        have pz : h.rect_posz = 4 := by omega
        exfalso
        simp +decide [cellEntry, floorTable, hl, px, pz] at hq2
  · have hp2 := g2 hl
    subst hp2
    rcases hL with ⟨hy, hz, hx⟩ | ⟨hy, hz, hx⟩
    · rw [footprint_lyingZ h ⟨hy, hz, hx⟩] at hfp
      have hy1 : h.longy ≠ 1 := by omega
      rcases hfp with e | e
      · simp only [List.cons.injEq, Prod.mk.injEq, and_true] at e
        obtain ⟨⟨ex, ez⟩, rfl⟩ := e
        have px : h.rect_posx = 3 := by omega
        have pz : h.rect_posz = 3 := by omega
        simp +decide [cellEntry, bridgeTable, hl, px, pz] at hq3
        simp +decide [check, checkZ1, checkZ2, rd, hy1, hz, hl, px, pz, hq3]
      · simp only [List.cons.injEq, Prod.mk.injEq, and_true] at e
        obtain ⟨rfl, ⟨ex, ez⟩⟩ := e
        have px : h.rect_posx = 3 := by omega
        have pz : h.rect_posz = 2 := by omega
        simp +decide [cellEntry, bridgeTable, hl, px, pz] at hq3
        simp +decide [check, checkZ1, checkZ2, rd, hy1, hz, hl, px, pz, hq3]
    · rw [footprint_lyingX h ⟨hy, hz, hx⟩] at hfp
      have hy1 : h.longy ≠ 1 := by omega
      have hz1 : h.longz ≠ 1 := by omega
      rcases hfp with e | e
      · simp only [List.cons.injEq, Prod.mk.injEq, and_true] at e
        obtain ⟨⟨ex, ez⟩, rfl⟩ := e
        have px : h.rect_posx = 3 := by omega
        have pz : h.rect_posz = 3 := by omega
        simp +decide [cellEntry, bridgeTable, hl, px, pz] at hq3
        simp +decide [check, checkX1, checkX2, rd, hy1, hz1, hx, hl, px, pz, hq3]
      · simp only [List.cons.injEq, Prod.mk.injEq, and_true] at e
        obtain ⟨rfl, ⟨ex, ez⟩⟩ := e
        have px : h.rect_posx = 2 := by omega
        have pz : h.rect_posz = 3 := by omega
        simp +decide [cellEntry, bridgeTable, hl, px, pz] at hq3
        simp +decide [check, checkX1, checkX2, rd, hy1, hz1, hx, hl, px, pz, hq3]

/-- C9. The win is decided for an upright block only.  For a lying block, on
any level, the check leaves `win` and `level` as they are; and a lying block
with one footprint cell on the goal cell and the other on a floor cell that is
not a closed bridge cell passes the check unchanged: neither failed nor won. -/
theorem C9_win_upright_only (oob : Oob) (h : Game) (p q : Int × Int)
    (hL : LyingZ h ∨ LyingX h) :
    ((check oob h).win = h.win ∧ (check oob h).level = h.level) ∧
    ((h.level = 1 ∨ h.level = 2) →
      (footprint h = [p, q] ∨ footprint h = [q, p]) →
      isGoal h.level p → inGrid q → cellEntry (floorTable h.level) q ≠ 0 →
      ¬ (cellEntry (bridgeTable h.level) q = 1 ∧ h.bridge_stat = 0) →
      check oob h = h) := by
  have hy : h.longy ≠ 1 := by
    rcases hL with ⟨hy, -, -⟩ | ⟨hy, -, -⟩ <;> omega
  exact ⟨check_lying_win_level oob h hy,
    fun hl hfp hp hq1 hq2 hq3 => check_lying_goal oob h hl hL p q hfp hp hq1 hq2 hq3⟩

/-- C9 at a block lying on `(8, 7)`, `(8, 8)` of level 2 with the bridge
open: one cell on the goal, the other on the open bridge; the check leaves it. -/
theorem C9_win_upright_only_witness : check zeroOob lyingGoalSample = lyingGoalSample :=
  (C9_win_upright_only zeroOob lyingGoalSample (8, 8) (8, 7) (Or.inl (by decide))).2
    (by decide) (by decide) (by decide) (by decide) (by decide) (by decide)

/-! ## The score on a fail -/

section LevelBlocks

variable (oob : Oob) (h : Game)

@[simp] theorem checkY2_level : (checkY2 oob h).level = h.level := by
  unfold checkY2 fail2; split_ifs <;> rfl

theorem checkY1_of_ne (hl : h.level ≠ 1) : checkY1 oob h = h := by simp [checkY1, hl]

theorem checkZ1_of_ne (hl : h.level ≠ 1) : checkZ1 oob h = h := by simp [checkZ1, hl]

theorem checkX1_of_ne (hl : h.level ≠ 1) : checkX1 oob h = h := by simp [checkX1, hl]

theorem checkY2_of_ne (hl : h.level ≠ 2) : checkY2 oob h = h := by simp [checkY2, hl]

theorem checkZ2_of_ne (hl : h.level ≠ 2) : checkZ2 oob h = h := by simp [checkZ2, hl]

theorem checkX2_of_ne (hl : h.level ≠ 2) : checkX2 oob h = h := by simp [checkX2, hl]

end LevelBlocks

/-- On level 1, a check that changes the state and stays on level 1 has
taken a fail branch: the score is `0`. -/
theorem check_changed_level1 (oob : Oob) (h : Game) (hl : h.level = 1)
    (hne : check oob h ≠ h) (hst : (check oob h).level = 1) : (check oob h).score = 0 := by
  have h12 : (1 : Int) ≠ 2 := by decide
  unfold check at hne hst ⊢
  split_ifs at hne hst ⊢
  · rw [checkY2_level] at hst
    rw [checkY2_of_ne oob _ (by rw [hst]; exact h12)] at hne ⊢
    unfold checkY1 at hne hst ⊢
    split_ifs at hne hst ⊢ <;> simp_all [fail1]
  · rw [checkZ2_level] at hst
    rw [checkZ2_of_ne oob _ (by rw [hst]; exact h12)] at hne ⊢
    unfold checkZ1 at hne hst ⊢
    split_ifs at hne hst ⊢ <;> simp_all [fail1]
  · rw [checkX2_level] at hst
    rw [checkX2_of_ne oob _ (by rw [hst]; exact h12)] at hne ⊢
    unfold checkX1 at hne hst ⊢
    split_ifs at hne hst ⊢ <;> simp_all [fail1]
  · exact absurd rfl hne

/-- On level 2, a check that changes the state and leaves `win` has taken a
fail branch: `score2` is set to `score`, and `score` is left. -/
theorem check_changed_level2 (oob : Oob) (h : Game) (hl : h.level = 2)
    (hne : check oob h ≠ h) (hst : (check oob h).win = h.win) :
    (check oob h).score2 = h.score ∧ (check oob h).score = h.score := by
  have h21 : (2 : Int) ≠ 1 := by decide
  unfold check at hne hst ⊢
  split_ifs at hne hst ⊢
  · rw [checkY1_of_ne oob h (by rw [hl]; exact h21)] at hne hst ⊢
    unfold checkY2 at hne hst ⊢
    split_ifs at hne hst ⊢
    · exfalso
      apply hne
      cases h
      simp_all
    all_goals first | exact absurd rfl hne | simp_all [fail2]
  · rw [checkZ1_of_ne oob h (by rw [hl]; exact h21)] at hne hst ⊢
    unfold checkZ2 at hne hst ⊢
    split_ifs at hne hst ⊢ <;> first | exact absurd rfl hne | simp_all [fail2]
  · rw [checkX1_of_ne oob h (by rw [hl]; exact h21)] at hne hst ⊢
    unfold checkX2 at hne hst ⊢
    split_ifs at hne hst ⊢ <;> first | exact absurd rfl hne | simp_all [fail2]
  · exact absurd rfl hne

/-- C10. The score on a fail.  With `h` the state after the key handlers:
(1) by cause: if a footprint cell of `h` is a void cell, or the block is
upright on a fragile cell, or a footprint cell is a bridge cell while
`bridge_stat = 0`, then on level 1 the frame ends with `score = 0`, and on
level 2 it ends with `score2` equal to the level-1 score `score`, which it
leaves as it was;
(2) by effect: on level 1 every frame whose check changes the state and stays
on level 1 ends with `score = 0`; on level 2 every frame whose check changes
the state and leaves `win` ends with `score2 = score` and `score` as it was. -/
theorem C10_fail_scores (oob : Oob) (g : Game) :
    (Oriented (keyStep oob g) →
      ((∃ p ∈ footprint (keyStep oob g), isVoid (keyStep oob g).level p) ∨
        (Upright (keyStep oob g) ∧
          ∃ p ∈ footprint (keyStep oob g), isFragile (keyStep oob g).level p) ∨
        ((∃ p ∈ footprint (keyStep oob g), isBridge (keyStep oob g).level p) ∧
          (keyStep oob g).bridge_stat = 0)) →
      ((keyStep oob g).level = 1 → (frame oob g).score = 0) ∧
      ((keyStep oob g).level = 2 →
        (frame oob g).score2 = (keyStep oob g).score ∧
        (frame oob g).score = (keyStep oob g).score)) ∧
    ((keyStep oob g).level = 1 → frame oob g ≠ keyStep oob g → (frame oob g).level = 1 →
      (frame oob g).score = 0) ∧
    ((keyStep oob g).level = 2 → frame oob g ≠ keyStep oob g →
      (frame oob g).win = (keyStep oob g).win →
      (frame oob g).score2 = (keyStep oob g).score ∧
      (frame oob g).score = (keyStep oob g).score) := by
  have h21 : (2 : Int) ≠ 1 := by decide
  refine ⟨fun hor hcause => ?_, fun hl hne hst => check_changed_level1 oob _ hl hne hst,
    fun hl hne hst => check_changed_level2 oob _ hl hne hst⟩
  have key : ∀ hl : (keyStep oob g).level = 1 ∨ (keyStep oob g).level = 2,
      frame oob g = spawnReset (keyStep oob g) := by
    intro hl
    rcases hcause with hv | ⟨hU, hf⟩ | ⟨hb, hoff⟩
    · exact check_void oob _ hl hor hv
    · exact check_fragile oob _ hl hU hf
    · exact check_bridge oob _ hl hor hb hoff
  refine ⟨fun hl => ?_, fun hl => ?_⟩
  · rw [key (Or.inl hl)]
    simp [spawnReset, hl]
  · rw [key (Or.inr hl)]
    simp [spawnReset, hl, h21]

/-- C10 at three falls: on level 2 from cell `(0, 3)` with `score = 8`,
`score2 = 12`, key `s` (void cell `(0, 5)`): `score2` becomes `8`; on level 1
from the spawn cell, key `s`: `score` becomes `0`; and the level-2 fall again,
recognised by its effect. -/
theorem C10_fail_scores_witness :
    ((frame zeroOob (keyboardChar 's' level2Sample)).score2 = 8 ∧
      (frame zeroOob (keyboardChar 's' level2Sample)).score = 8) ∧
    (frame zeroOob (keyboardChar 's' init)).score = 0 ∧
    ((frame zeroOob (keyboardChar 's' level2Sample)).score2 = 8 ∧
      (frame zeroOob (keyboardChar 's' level2Sample)).score = 8) :=
  ⟨((C10_fail_scores zeroOob (keyboardChar 's' level2Sample)).1 (by decide)
      (Or.inl ⟨(0, 5), by decide, by decide⟩)).2 (by decide),
   (C10_fail_scores zeroOob (keyboardChar 's' init)).2.1 (by decide) (by decide) (by decide),
   (C10_fail_scores zeroOob (keyboardChar 's' level2Sample)).2.2 (by decide) (by decide)
      (by decide)⟩

/-! ## What a handler does to the scores -/

section HandlerScores

variable (oob : Oob) (g : Game) (i j : Int)

/-- A roll handler's score block adds one to the active level's score or, on
no level, nothing. -/
theorem rollScore_scores :
    (g.level = 1 → (rollScore oob g i j).score = g.score + 1 ∧
      (rollScore oob g i j).score2 = g.score2) ∧
    (g.level = 2 → (rollScore oob g i j).score2 = g.score2 + 1 ∧
      (rollScore oob g i j).score = g.score) := by
  have h12 : (1 : Int) ≠ 2 := by decide
  have h21 : (2 : Int) ≠ 1 := by decide
  constructor <;> intro hl <;> unfold rollScore rollScore2 rollScore1 <;>
    split_ifs <;> simp_all

theorem rollScoreElse_scores :
    (g.level = 1 → (rollScoreElse oob g i j).score = g.score + 1 ∧
      (rollScoreElse oob g i j).score2 = g.score2) ∧
    (g.level = 2 → (rollScoreElse oob g i j).score2 = g.score2 + 1 ∧
      (rollScoreElse oob g i j).score = g.score) := by
  have h12 : (1 : Int) ≠ 2 := by decide
  have h21 : (2 : Int) ≠ 1 := by decide
  constructor <;> intro hl <;> unfold rollScoreElse <;> split_ifs <;> simp_all

theorem slideScore_scores :
    (g.level = 1 → (slideScore g).score = g.score + 1 ∧ (slideScore g).score2 = g.score2) ∧
    (g.level = 2 → (slideScore g).score2 = g.score2 + 1 ∧ (slideScore g).score = g.score) := by
  have h21 : (2 : Int) ≠ 1 := by decide
  constructor <;> intro hl <;> unfold slideScore <;> split_ifs <;> simp_all

theorem slideScoreElseIf_scores :
    (g.level = 1 → (slideScoreElseIf g).score = g.score + 1 ∧
      (slideScoreElseIf g).score2 = g.score2) ∧
    (g.level = 2 → (slideScoreElseIf g).score2 = g.score2 + 1 ∧
      (slideScoreElseIf g).score = g.score) := by
  have h21 : (2 : Int) ≠ 1 := by decide
  constructor <;> intro hl <;> unfold slideScoreElseIf <;> split_ifs <;> simp_all

/-- When an orientation flag and a key flag are set, one handler runs: it
edits position, orientation and key flags of `g` into some `m`, leaving
`level`, `win`, `bridge_stat` and the scores, and then runs one of the four
score blocks on `m`. -/
theorem keyStep_handler (oob : Oob) (g : Game)
    (hflag : g.longy = 1 ∨ g.longz = 1 ∨ g.longx = 1)
    (hkey : g.w_pressed = 1 ∨ g.s_pressed = 1 ∨ g.a_pressed = 1 ∨ g.d_pressed = 1) :
    ∃ (m : Game) (i j : Int),
      (m.level = g.level ∧ m.win = g.win ∧ m.bridge_stat = g.bridge_stat ∧
        m.score = g.score ∧ m.score2 = g.score2) ∧
      (keyStep oob g = rollScore oob m i j ∨ keyStep oob g = rollScoreElse oob m i j ∨
        keyStep oob g = slideScore m ∨ keyStep oob g = slideScoreElseIf m) := by
  by_cases hy : g.longy = 1
  · by_cases hw : g.w_pressed = 1
    · rw [keyStep_upright_w oob g hy hw]
      refine ⟨_, _, _, ?_, Or.inl rfl⟩
      exact ⟨rfl, rfl, rfl, rfl, rfl⟩
    by_cases hs : g.s_pressed = 1
    · rw [keyStep_upright_s oob g hy hw hs]
      refine ⟨_, _, _, ?_, Or.inl rfl⟩
      exact ⟨rfl, rfl, rfl, rfl, rfl⟩
    by_cases ha : g.a_pressed = 1
    · rw [keyStep_upright_a oob g hy hw hs ha]
      refine ⟨_, _, _, ?_, Or.inl rfl⟩
      exact ⟨rfl, rfl, rfl, rfl, rfl⟩
    by_cases hd : g.d_pressed = 1
    · rw [keyStep_upright_d oob g hy hw hs ha hd]
      refine ⟨_, _, _, ?_, Or.inl rfl⟩
      exact ⟨rfl, rfl, rfl, rfl, rfl⟩
    exact absurd hkey (by simp [hw, hs, ha, hd])
  by_cases hz : g.longz = 1
  · by_cases hw : g.w_pressed = 1
    · rw [keyStep_lyingZ_w oob g hy hz hw]
      refine ⟨_, _, _, ?_, Or.inl rfl⟩
      exact ⟨rfl, rfl, rfl, rfl, rfl⟩
    by_cases hs : g.s_pressed = 1
    · rw [keyStep_lyingZ_s oob g hy hz hw hs]
      refine ⟨_, _, _, ?_, Or.inr (Or.inl rfl)⟩
      exact ⟨rfl, rfl, rfl, rfl, rfl⟩
    by_cases ha : g.a_pressed = 1
    · rw [keyStep_lyingZ_a oob g hy hz hw hs ha]
      refine ⟨_, 0, 0, ?_, Or.inr (Or.inr (Or.inr rfl))⟩
      exact ⟨rfl, rfl, rfl, rfl, rfl⟩
    by_cases hd : g.d_pressed = 1
    · rw [keyStep_lyingZ_d oob g hy hz hw hs ha hd]
      refine ⟨_, 0, 0, ?_, Or.inr (Or.inr (Or.inl rfl))⟩
      exact ⟨rfl, rfl, rfl, rfl, rfl⟩
    exact absurd hkey (by simp [hw, hs, ha, hd])
  by_cases hx : g.longx = 1
  · by_cases hw : g.w_pressed = 1
    · rw [keyStep_lyingX_w oob g hy hz hx hw]
      refine ⟨_, 0, 0, ?_, Or.inr (Or.inr (Or.inl rfl))⟩
      exact ⟨rfl, rfl, rfl, rfl, rfl⟩
    by_cases hs : g.s_pressed = 1
    · rw [keyStep_lyingX_s oob g hy hz hx hw hs]
      refine ⟨_, 0, 0, ?_, Or.inr (Or.inr (Or.inl rfl))⟩
      exact ⟨rfl, rfl, rfl, rfl, rfl⟩
    by_cases ha : g.a_pressed = 1
    · rw [keyStep_lyingX_a oob g hy hz hx hw hs ha]
      refine ⟨_, _, _, ?_, Or.inl rfl⟩
      exact ⟨rfl, rfl, rfl, rfl, rfl⟩
    by_cases hd : g.d_pressed = 1
    · rw [keyStep_lyingX_d oob g hy hz hx hw hs ha hd]
      refine ⟨_, _, _, ?_, Or.inl rfl⟩
      exact ⟨rfl, rfl, rfl, rfl, rfl⟩
    exact absurd hkey (by simp [hw, hs, ha, hd])
  exact absurd hflag (by simp [hy, hz, hx])

/-- Without an orientation flag or without a key flag no handler runs. -/
theorem keyStep_no_handler (oob : Oob) (g : Game)
    (h : ¬ (g.longy = 1 ∨ g.longz = 1 ∨ g.longx = 1) ∨
      ¬ (g.w_pressed = 1 ∨ g.s_pressed = 1 ∨ g.a_pressed = 1 ∨ g.d_pressed = 1)) :
    keyStep oob g = g := by
  rcases h with h | h
  · simp only [not_or] at h
    obtain ⟨hy, hz, hx⟩ := h
    simp [keyStep, hy, hz, hx]
  · simp only [not_or] at h
    exact keyStep_idle oob g h

end HandlerScores

/-- The key handlers never write `level` or `win`. -/
theorem keyStep_level_win (oob : Oob) (g : Game) :
    (keyStep oob g).level = g.level ∧ (keyStep oob g).win = g.win := by
  by_cases h : (g.longy = 1 ∨ g.longz = 1 ∨ g.longx = 1) ∧
      (g.w_pressed = 1 ∨ g.s_pressed = 1 ∨ g.a_pressed = 1 ∨ g.d_pressed = 1)
  · obtain ⟨m, i, j, ⟨hl, hw, -, -, -⟩, e | e | e | e⟩ := keyStep_handler oob g h.1 h.2 <;>
      rw [e] <;> simp [hl, hw]
  · rw [keyStep_no_handler oob g (by tauto)]
    exact ⟨rfl, rfl⟩

/-- A handler that runs adds exactly one to the active level's score and
leaves the other score. -/
theorem keyStep_scores (oob : Oob) (g : Game)
    (hflag : g.longy = 1 ∨ g.longz = 1 ∨ g.longx = 1)
    (hkey : g.w_pressed = 1 ∨ g.s_pressed = 1 ∨ g.a_pressed = 1 ∨ g.d_pressed = 1) :
    (g.level = 1 → (keyStep oob g).score = g.score + 1 ∧ (keyStep oob g).score2 = g.score2) ∧
    (g.level = 2 → (keyStep oob g).score2 = g.score2 + 1 ∧ (keyStep oob g).score = g.score) := by
  obtain ⟨m, i, j, ⟨hl, -, -, hs, hs2⟩, e | e | e | e⟩ := keyStep_handler oob g hflag hkey
  · rw [e, ← hl, ← hs, ← hs2]; exact rollScore_scores oob m i j
  · rw [e, ← hl, ← hs, ← hs2]; exact rollScoreElse_scores oob m i j
  · rw [e, ← hl, ← hs, ← hs2]; exact slideScore_scores m
  · rw [e, ← hl, ← hs, ← hs2]; exact slideScoreElseIf_scores m

/-- The check of an oriented block on level 1 or 2 has one of three outcomes:
it leaves the state, it fails the block (`spawnReset`), or it wins (`level` or
`win` is changed). -/
theorem check_cases (oob : Oob) (h : Game) (hl : h.level = 1 ∨ h.level = 2)
    (hor : Oriented h) :
    check oob h = h ∨ check oob h = spawnReset h ∨
      (check oob h).level ≠ h.level ∨ (check oob h).win ≠ h.win := by
  have h12 : (1 : Int) ≠ 2 := by decide
  have h21 : (2 : Int) ≠ 1 := by decide
  rcases hor with ⟨hy, hz, hx⟩ | ⟨hy, hz, hx⟩ | ⟨hy, hz, hx⟩
  · rcases hl with hl | hl
    · by_cases hw : (checkY1 oob h).level = 1
      · have e : check oob h = checkY1 oob h := by
          simp only [check, hy, if_true]
          exact checkY2_of_ne oob _ (by rw [hw]; exact h12)
        rw [e]
        unfold checkY1 at hw ⊢
        split_ifs at hw ⊢ <;> simp_all [fail1, spawnReset]
      · right; right; left
        simp only [check, hy, if_true, checkY2_level]
        rw [hl]; exact hw
    · have e : check oob h = checkY2 oob h := by
        simp only [check, hy, if_true]
        rw [checkY1_of_ne oob h (by rw [hl]; exact h21)]
      rw [e]
      unfold checkY2
      split_ifs <;> simp_all [fail2, spawnReset]
      by_cases hw : h.win = 2
      · left
        cases h
        simp_all
      · right; right
        exact fun e2 => hw e2.symm
  · have hy1 : h.longy ≠ 1 := by omega
    rcases hl with hl | hl
    · have e : check oob h = checkZ1 oob h := by
        simp only [check, hy1, hz, if_true, if_false]
        exact checkZ2_of_ne oob _ (by rw [checkZ1_level, hl]; exact h12)
      rw [e]
      unfold checkZ1
      split_ifs <;> simp_all [fail1, spawnReset]
    · have e : check oob h = checkZ2 oob h := by
        simp only [check, hy1, hz, if_true, if_false]
        rw [checkZ1_of_ne oob h (by rw [hl]; exact h21)]
      rw [e]
      unfold checkZ2
      split_ifs <;> simp_all [fail2, spawnReset]
  · have hy1 : h.longy ≠ 1 := by omega
    have hz1 : h.longz ≠ 1 := by omega
    rcases hl with hl | hl
    · have e : check oob h = checkX1 oob h := by
        simp only [check, hy1, hz1, hx, if_true, if_false]
        exact checkX2_of_ne oob _ (by rw [checkX1_level, hl]; exact h12)
      rw [e]
      unfold checkX1
      split_ifs <;> simp_all [fail1, spawnReset]
    · have e : check oob h = checkX2 oob h := by
        simp only [check, hy1, hz1, hx, if_true, if_false]
        rw [checkX1_of_ne oob h (by rw [hl]; exact h21)]
      rw [e]
      unfold checkX2
      split_ifs <;> simp_all [fail2, spawnReset]


/-! ## Key flags, orientation and the handlers -/

section HandlerFlags

variable (oob : Oob) (g : Game) (i j : Int)

@[simp] theorem rollScore_w_pressed : (rollScore oob g i j).w_pressed = g.w_pressed := by
  unfold rollScore rollScore2 rollScore1; split_ifs <;> rfl

@[simp] theorem rollScore_s_pressed : (rollScore oob g i j).s_pressed = g.s_pressed := by
  unfold rollScore rollScore2 rollScore1; split_ifs <;> rfl

@[simp] theorem rollScore_a_pressed : (rollScore oob g i j).a_pressed = g.a_pressed := by
  unfold rollScore rollScore2 rollScore1; split_ifs <;> rfl

@[simp] theorem rollScore_d_pressed : (rollScore oob g i j).d_pressed = g.d_pressed := by
  unfold rollScore rollScore2 rollScore1; split_ifs <;> rfl

@[simp] theorem rollScoreElse_w_pressed : (rollScoreElse oob g i j).w_pressed = g.w_pressed := by
  unfold rollScoreElse; split_ifs <;> rfl

@[simp] theorem rollScoreElse_s_pressed : (rollScoreElse oob g i j).s_pressed = g.s_pressed := by
  unfold rollScoreElse; split_ifs <;> rfl

@[simp] theorem rollScoreElse_a_pressed : (rollScoreElse oob g i j).a_pressed = g.a_pressed := by
  unfold rollScoreElse; split_ifs <;> rfl

@[simp] theorem rollScoreElse_d_pressed : (rollScoreElse oob g i j).d_pressed = g.d_pressed := by
  unfold rollScoreElse; split_ifs <;> rfl

@[simp] theorem slideScore_w_pressed : (slideScore g).w_pressed = g.w_pressed := by
  unfold slideScore; split_ifs <;> rfl

@[simp] theorem slideScore_s_pressed : (slideScore g).s_pressed = g.s_pressed := by
  unfold slideScore; split_ifs <;> rfl

@[simp] theorem slideScore_a_pressed : (slideScore g).a_pressed = g.a_pressed := by
  unfold slideScore; split_ifs <;> rfl

@[simp] theorem slideScore_d_pressed : (slideScore g).d_pressed = g.d_pressed := by
  unfold slideScore; split_ifs <;> rfl

@[simp] theorem slideScoreElseIf_w_pressed : (slideScoreElseIf g).w_pressed = g.w_pressed := by
  unfold slideScoreElseIf; split_ifs <;> rfl

@[simp] theorem slideScoreElseIf_s_pressed : (slideScoreElseIf g).s_pressed = g.s_pressed := by
  unfold slideScoreElseIf; split_ifs <;> rfl

@[simp] theorem slideScoreElseIf_a_pressed : (slideScoreElseIf g).a_pressed = g.a_pressed := by
  unfold slideScoreElseIf; split_ifs <;> rfl

@[simp] theorem slideScoreElseIf_d_pressed : (slideScoreElseIf g).d_pressed = g.d_pressed := by
  unfold slideScoreElseIf; split_ifs <;> rfl

end HandlerFlags

/-- The character callback leaves everything but the key flags. -/
theorem keyboardChar_fields (key : Char) (g : Game) :
    (keyboardChar key g).rect_posx = g.rect_posx ∧ (keyboardChar key g).rect_posz = g.rect_posz ∧
    (keyboardChar key g).longy = g.longy ∧ (keyboardChar key g).longz = g.longz ∧
    (keyboardChar key g).longx = g.longx ∧ (keyboardChar key g).level = g.level ∧
    (keyboardChar key g).win = g.win ∧ (keyboardChar key g).bridge_stat = g.bridge_stat ∧
    (keyboardChar key g).score = g.score ∧ (keyboardChar key g).score2 = g.score2 := by
  unfold keyboardChar
  split_ifs <;> simp

/-- A direction key sets a key flag. -/
theorem keyboardChar_pressed (key : Char) (g : Game)
    (hkey : key = 'w' ∨ key = 's' ∨ key = 'a' ∨ key = 'd') :
    (keyboardChar key g).w_pressed = 1 ∨ (keyboardChar key g).s_pressed = 1 ∨
      (keyboardChar key g).a_pressed = 1 ∨ (keyboardChar key g).d_pressed = 1 := by
  rcases hkey with rfl | rfl | rfl | rfl <;> simp [keyboardChar]

/-- The handlers keep the block in one of the three orientations. -/
theorem keyStep_oriented (oob : Oob) (g : Game) (hor : Oriented g) :
    Oriented (keyStep oob g) := by
  by_cases hk : g.w_pressed = 1 ∨ g.s_pressed = 1 ∨ g.a_pressed = 1 ∨ g.d_pressed = 1
  swap
  · rw [keyStep_no_handler oob g (Or.inr hk)]; exact hor
  rcases hor with ⟨hy, hz, hx⟩ | ⟨hy, hz, hx⟩ | ⟨hy, hz, hx⟩
  · by_cases hw : g.w_pressed = 1
    · rw [keyStep_upright_w oob g hy hw]; simp [Oriented, Upright, LyingZ, LyingX, hx]
    by_cases hs : g.s_pressed = 1
    · rw [keyStep_upright_s oob g hy hw hs]; simp [Oriented, Upright, LyingZ, LyingX, hx]
    by_cases ha : g.a_pressed = 1
    · rw [keyStep_upright_a oob g hy hw hs ha]; simp [Oriented, Upright, LyingZ, LyingX, hz]
    by_cases hd : g.d_pressed = 1
    · rw [keyStep_upright_d oob g hy hw hs ha hd]; simp [Oriented, Upright, LyingZ, LyingX, hz]
    exact absurd hk (by simp [hw, hs, ha, hd])
  · have hy1 : g.longy ≠ 1 := by omega
    by_cases hw : g.w_pressed = 1
    · rw [keyStep_lyingZ_w oob g hy1 hz hw]; simp [Oriented, Upright, LyingZ, LyingX, hx]
    by_cases hs : g.s_pressed = 1
    · rw [keyStep_lyingZ_s oob g hy1 hz hw hs]; simp [Oriented, Upright, LyingZ, LyingX, hx]
    by_cases ha : g.a_pressed = 1
    · rw [keyStep_lyingZ_a oob g hy1 hz hw hs ha]; simp [Oriented, Upright, LyingZ, LyingX, hy, hx]
    by_cases hd : g.d_pressed = 1
    · rw [keyStep_lyingZ_d oob g hy1 hz hw hs ha hd]
      simp [Oriented, Upright, LyingZ, LyingX, hy, hx]
    exact absurd hk (by simp [hw, hs, ha, hd])
  · have hy1 : g.longy ≠ 1 := by omega
    have hz1 : g.longz ≠ 1 := by omega
    by_cases hw : g.w_pressed = 1
    · rw [keyStep_lyingX_w oob g hy1 hz1 hx hw]; simp [Oriented, Upright, LyingZ, LyingX, hy, hz]
    by_cases hs : g.s_pressed = 1
    · rw [keyStep_lyingX_s oob g hy1 hz1 hx hw hs]
      simp [Oriented, Upright, LyingZ, LyingX, hy, hz]
    by_cases ha : g.a_pressed = 1
    · rw [keyStep_lyingX_a oob g hy1 hz1 hx hw hs ha]; simp [Oriented, Upright, LyingZ, LyingX, hz]
    by_cases hd : g.d_pressed = 1
    · rw [keyStep_lyingX_d oob g hy1 hz1 hx hw hs ha hd]
      simp [Oriented, Upright, LyingZ, LyingX, hz]
    exact absurd hk (by simp [hw, hs, ha, hd])


/-! ## One move, one point -/

/-- C11. A move that neither fails nor wins scores exactly one.  For an
oriented block on level 1 or 2 and a direction key, with `h` the state after
the key handlers:
(1) the handler has added exactly one to the active level's score (`score` on
level 1, `score2` on level 2) and left the other score - whether or not it
flipped the bridge switch;
(2) the check then leaves `h` as it is, or fails the block (`spawnReset h`), or
wins (`level` or `win` changes);
(3) so when the check leaves `h`, the frame ends with the active score raised
by exactly one and the other score unchanged. -/
theorem C11_move_scores_one (oob : Oob) (g : Game) (key : Char)
    (hkey : key = 'w' ∨ key = 's' ∨ key = 'a' ∨ key = 'd')
    (hor : Oriented g) (hl : g.level = 1 ∨ g.level = 2) :
    ((g.level = 1 → (keyStep oob (keyboardChar key g)).score = g.score + 1 ∧
        (keyStep oob (keyboardChar key g)).score2 = g.score2) ∧
      (g.level = 2 → (keyStep oob (keyboardChar key g)).score2 = g.score2 + 1 ∧
        (keyStep oob (keyboardChar key g)).score = g.score)) ∧
    (frame oob (keyboardChar key g) = keyStep oob (keyboardChar key g) ∨
      frame oob (keyboardChar key g) = spawnReset (keyStep oob (keyboardChar key g)) ∨
      (frame oob (keyboardChar key g)).level ≠ g.level ∨
      (frame oob (keyboardChar key g)).win ≠ g.win) ∧
    (frame oob (keyboardChar key g) = keyStep oob (keyboardChar key g) →
      (g.level = 1 → (frame oob (keyboardChar key g)).score = g.score + 1 ∧
        (frame oob (keyboardChar key g)).score2 = g.score2) ∧
      (g.level = 2 → (frame oob (keyboardChar key g)).score2 = g.score2 + 1 ∧
        (frame oob (keyboardChar key g)).score = g.score)) := by
  obtain ⟨-, -, ey, ez, ex, el, ew, -, es, es2⟩ := keyboardChar_fields key g
  have hflag : (keyboardChar key g).longy = 1 ∨ (keyboardChar key g).longz = 1 ∨
      (keyboardChar key g).longx = 1 := by
    rw [ey, ez, ex]
    rcases hor with h | h | h
    · exact Or.inl h.1
    · exact Or.inr (Or.inl h.2.1)
    · exact Or.inr (Or.inr h.2.2)
  have hK : Oriented (keyboardChar key g) := by
    unfold Oriented Upright LyingZ LyingX
    rw [ey, ez, ex]
    exact hor
  have hs := keyStep_scores oob (keyboardChar key g) hflag (keyboardChar_pressed key g hkey)
  rw [el, es, es2] at hs
  obtain ⟨kl, kw⟩ := keyStep_level_win oob (keyboardChar key g)
  have hc := check_cases oob (keyStep oob (keyboardChar key g)) (by rw [kl, el]; exact hl)
    (keyStep_oriented oob _ hK)
  rw [kl, kw, el, ew] at hc
  refine ⟨hs, hc, fun e => ?_⟩
  rw [e]
  exact hs

/-- C11 at the first move of the game, key `d` from the initial state: the
frame neither fails nor wins and `score` goes from 0 to 1. -/
theorem C11_move_scores_one_witness :
    (frame zeroOob (keyboardChar 'd' init)).score = 1 ∧
    (frame zeroOob (keyboardChar 'd' init)).score2 = 0 :=
  ((C11_move_scores_one zeroOob init 'd' (by decide) (by decide) (by decide)).2.2
    (by decide)).1 (by decide)


/-! ## The bridge switch -/

/-- Flipping changes the switch: `b ^ 1` is never `b`. -/
theorem xor_one_ne (b : Int) : Int.xor b 1 ≠ b := by
  intro h
  have h0 := congrArg (fun x => Int.testBit x 0) h
  simp only [Int.testBit_lxor] at h0
  have h1 : Int.testBit 1 0 = true := by decide
  rw [h1] at h0
  cases hb : b.testBit 0 <;> simp [hb] at h0

/-- A roll handler's score block flips the switch when the tested entry of
the level's floor table is `2`, and leaves it otherwise. -/
theorem rollScore_bridge_stat (oob : Oob) (m : Game) (i j : Int)
    (hl : m.level = 1 ∨ m.level = 2) :
    (rollScore oob m i j).bridge_stat =
      if rd oob (floorTable m.level) i j = 2 then Int.xor m.bridge_stat 1 else m.bridge_stat := by
  have h12 : (1 : Int) ≠ 2 := by decide
  have h21 : (2 : Int) ≠ 1 := by decide
  rcases hl with hl | hl <;> unfold rollScore rollScore2 rollScore1 floorTable <;>
    split_ifs <;> simp_all

theorem rollScoreElse_bridge_stat (oob : Oob) (m : Game) (i j : Int)
    (hl : m.level = 1 ∨ m.level = 2) :
    (rollScoreElse oob m i j).bridge_stat =
      if rd oob (floorTable m.level) i j = 2 then Int.xor m.bridge_stat 1 else m.bridge_stat := by
  have h12 : (1 : Int) ≠ 2 := by decide
  have h21 : (2 : Int) ≠ 1 := by decide
  rcases hl with hl | hl <;> unfold rollScoreElse floorTable <;> split_ifs <;> simp_all


theorem keyboardChar_w (g : Game) : keyboardChar 'w' g = { g with w_pressed := 1 } := by
  simp [keyboardChar]

theorem keyboardChar_s (g : Game) : keyboardChar 's' g = { g with s_pressed := 1 } := by
  simp [keyboardChar]

theorem keyboardChar_a (g : Game) : keyboardChar 'a' g = { g with a_pressed := 1 } := by
  simp [keyboardChar]

theorem keyboardChar_d (g : Game) : keyboardChar 'd' g = { g with d_pressed := 1 } := by
  simp [keyboardChar]

section HandlerSwitch

variable (oob : Oob) (g : Game)

theorem keyStep_upright_w_bridge (hl : g.level = 1 ∨ g.level = 2)
    (hy : g.longy = 1) (hw : g.w_pressed = 1) :
    (keyStep oob g).bridge_stat =
      if rd oob (floorTable g.level) (g.rect_posx + 5) (g.rect_posz - 2 + 5) = 2 then
        Int.xor g.bridge_stat 1
      else g.bridge_stat := by
  rw [keyStep_upright_w oob g hy hw]
  exact rollScore_bridge_stat oob _ _ _ hl

theorem keyStep_upright_s_bridge (hl : g.level = 1 ∨ g.level = 2)
    (hy : g.longy = 1) (hw : g.w_pressed ≠ 1) (hs : g.s_pressed = 1) :
    (keyStep oob g).bridge_stat =
      if rd oob (floorTable g.level) (g.rect_posx + 5) (g.rect_posz + 1 + 6) = 2 then
        Int.xor g.bridge_stat 1
      else g.bridge_stat := by
  rw [keyStep_upright_s oob g hy hw hs]
  exact rollScore_bridge_stat oob _ _ _ hl

theorem keyStep_upright_a_bridge (hl : g.level = 1 ∨ g.level = 2)
    (hy : g.longy = 1) (hw : g.w_pressed ≠ 1) (hs : g.s_pressed ≠ 1)
    (ha : g.a_pressed = 1) :
    (keyStep oob g).bridge_stat =
      if rd oob (floorTable g.level) (g.rect_posx - 2 + 5) (g.rect_posz + 5) = 2 then
        Int.xor g.bridge_stat 1
      else g.bridge_stat := by
  rw [keyStep_upright_a oob g hy hw hs ha]
  exact rollScore_bridge_stat oob _ _ _ hl

theorem keyStep_upright_d_bridge (hl : g.level = 1 ∨ g.level = 2)
    (hy : g.longy = 1) (hw : g.w_pressed ≠ 1) (hs : g.s_pressed ≠ 1)
    (ha : g.a_pressed ≠ 1) (hd : g.d_pressed = 1) :
    (keyStep oob g).bridge_stat =
      if rd oob (floorTable g.level) (g.rect_posx + 1 + 5) (g.rect_posz + 5) = 2 then
        Int.xor g.bridge_stat 1
      else g.bridge_stat := by
  rw [keyStep_upright_d oob g hy hw hs ha hd]
  exact rollScore_bridge_stat oob _ _ _ hl

theorem keyStep_lyingZ_w_bridge (hl : g.level = 1 ∨ g.level = 2)
    (hy : g.longy ≠ 1) (hz : g.longz = 1) (hw : g.w_pressed = 1) :
    (keyStep oob g).bridge_stat =
      if rd oob (floorTable g.level) (g.rect_posx + 5) (g.rect_posz - 1 + 5) = 2 then
        Int.xor g.bridge_stat 1
      else g.bridge_stat := by
  rw [keyStep_lyingZ_w oob g hy hz hw]
  exact rollScore_bridge_stat oob _ _ _ hl

theorem keyStep_lyingZ_s_bridge (hl : g.level = 1 ∨ g.level = 2)
    (hy : g.longy ≠ 1) (hz : g.longz = 1) (hw : g.w_pressed ≠ 1)
    (hs : g.s_pressed = 1) :
    (keyStep oob g).bridge_stat =
      if rd oob (floorTable g.level) (g.rect_posx + 5) (g.rect_posz + 2 + 5) = 2 then
        Int.xor g.bridge_stat 1
      else g.bridge_stat := by
  rw [keyStep_lyingZ_s oob g hy hz hw hs]
  exact rollScoreElse_bridge_stat oob _ _ _ hl

theorem keyStep_lyingX_a_bridge (hl : g.level = 1 ∨ g.level = 2)
    (hy : g.longy ≠ 1) (hz : g.longz ≠ 1) (hx : g.longx = 1)
    (hw : g.w_pressed ≠ 1) (hs : g.s_pressed ≠ 1) (ha : g.a_pressed = 1) :
    (keyStep oob g).bridge_stat =
      if rd oob (floorTable g.level) (g.rect_posx - 1 + 5) (g.rect_posz + 6) = 2 then
        Int.xor g.bridge_stat 1
      else g.bridge_stat := by
  rw [keyStep_lyingX_a oob g hy hz hx hw hs ha]
  exact rollScore_bridge_stat oob _ _ _ hl

theorem keyStep_lyingX_d_bridge (hl : g.level = 1 ∨ g.level = 2)
    (hy : g.longy ≠ 1) (hz : g.longz ≠ 1) (hx : g.longx = 1)
    (hw : g.w_pressed ≠ 1) (hs : g.s_pressed ≠ 1) (ha : g.a_pressed ≠ 1)
    (hd : g.d_pressed = 1) :
    (keyStep oob g).bridge_stat =
      if rd oob (floorTable g.level) (g.rect_posx + 2 + 5) (g.rect_posz + 6) = 2 then
        Int.xor g.bridge_stat 1
      else g.bridge_stat := by
  rw [keyStep_lyingX_d oob g hy hz hx hw hs ha hd]
  exact rollScore_bridge_stat oob _ _ _ hl

theorem keyStep_lyingZ_a_bridge
    (hy : g.longy ≠ 1) (hz : g.longz = 1) (hw : g.w_pressed ≠ 1)
    (hs : g.s_pressed ≠ 1) (ha : g.a_pressed = 1) :
    (keyStep oob g).bridge_stat = g.bridge_stat := by
  rw [keyStep_lyingZ_a oob g hy hz hw hs ha]
  simp

theorem keyStep_lyingZ_d_bridge
    (hy : g.longy ≠ 1) (hz : g.longz = 1) (hw : g.w_pressed ≠ 1)
    (hs : g.s_pressed ≠ 1) (ha : g.a_pressed ≠ 1) (hd : g.d_pressed = 1) :
    (keyStep oob g).bridge_stat = g.bridge_stat := by
  rw [keyStep_lyingZ_d oob g hy hz hw hs ha hd]
  simp

theorem keyStep_lyingX_w_bridge
    (hy : g.longy ≠ 1) (hz : g.longz ≠ 1) (hx : g.longx = 1)
    (hw : g.w_pressed = 1) :
    (keyStep oob g).bridge_stat = g.bridge_stat := by
  rw [keyStep_lyingX_w oob g hy hz hx hw]
  simp

theorem keyStep_lyingX_s_bridge
    (hy : g.longy ≠ 1) (hz : g.longz ≠ 1) (hx : g.longx = 1)
    (hw : g.w_pressed ≠ 1) (hs : g.s_pressed = 1) :
    (keyStep oob g).bridge_stat = g.bridge_stat := by
  rw [keyStep_lyingX_s oob g hy hz hx hw hs]
  simp

end HandlerSwitch

/-- C12, as stated, fails.  After `d`, `d`, `s` from the initial state the
block lies on `(3, 1)`, `(3, 2)` of level 1 with the switch off; the key `s`
then stands it upright on the trigger cell `(3, 3)`, and that move flips the
switch, which the frame's check leaves on. -/
theorem C12_upright_flip_counterexample :
    (play zeroOob ['d', 'd', 's'] init).bridge_stat = 0 ∧
    Upright (keyStep zeroOob (keyboardChar 's' (play zeroOob ['d', 'd', 's'] init))) ∧
    footprint (keyStep zeroOob (keyboardChar 's' (play zeroOob ['d', 'd', 's'] init))) =
      [(3, 3)] ∧
    (keyStep zeroOob (keyboardChar 's' (play zeroOob ['d', 'd', 's'] init))).bridge_stat = 1 ∧
    (frame zeroOob (keyboardChar 's' (play zeroOob ['d', 'd', 's'] init))).bridge_stat = 1 := by
  decide

/-- C12, amended.  On level 1 or 2, with no other key pending and `h` the
state after the key handlers:
(1) a block lying along z rolled with `w` or `s` ends upright, and the move
flips the switch exactly when the cell it then stands on has floor table
value `2`;
(2) an upright block rolled onto its side flips the switch only if a cell of
its new footprint has floor table value `2`;
(3) a sideways roll leaves the switch. -/
theorem C12_switch_flips (oob : Oob) (g : Game) (key : Char)
    (hl : g.level = 1 ∨ g.level = 2) (hidle : idle g) :
    (LyingZ g → (key = 'w' ∨ key = 's') →
      Upright (keyStep oob (keyboardChar key g)) ∧
      ((keyStep oob (keyboardChar key g)).bridge_stat ≠ g.bridge_stat ↔
        rd oob (floorTable g.level) ((keyStep oob (keyboardChar key g)).rect_posx + 5)
          ((keyStep oob (keyboardChar key g)).rect_posz + 5) = 2) ∧
      ((keyStep oob (keyboardChar key g)).bridge_stat ≠ g.bridge_stat →
        (keyStep oob (keyboardChar key g)).bridge_stat = Int.xor g.bridge_stat 1)) ∧
    (Upright g → (key = 'w' ∨ key = 's' ∨ key = 'a' ∨ key = 'd') →
      (keyStep oob (keyboardChar key g)).bridge_stat ≠ g.bridge_stat →
      (keyStep oob (keyboardChar key g)).bridge_stat = Int.xor g.bridge_stat 1 ∧
      ∃ p ∈ footprint (keyStep oob (keyboardChar key g)),
        rd oob (floorTable g.level) p.1 p.2 = 2) ∧
    (((LyingZ g ∧ (key = 'a' ∨ key = 'd')) ∨ (LyingX g ∧ (key = 'w' ∨ key = 's'))) →
      (keyStep oob (keyboardChar key g)).bridge_stat = g.bridge_stat) := by
  obtain ⟨hw, hs, ha, hd⟩ := hidle
  refine ⟨?_, ?_, ?_⟩
  · rintro ⟨hy, hz, hx⟩ (rfl | rfl)
    · have hy1 : g.longy ≠ 1 := by omega
      rw [keyboardChar_w, keyStep_lyingZ_w_bridge oob { g with w_pressed := 1 } hl hy1 hz rfl,
        keyStep_lyingZ_w oob { g with w_pressed := 1 } hy1 hz rfl]
      simp only [rollScore_rect_posx, rollScore_rect_posz, Upright,
        rollScore_longy, rollScore_longz, rollScore_longx]
      refine ⟨⟨trivial, trivial, hx⟩, ?_, ?_⟩ <;> split_ifs with hT <;> simp [xor_one_ne, hT]
    · have hy1 : g.longy ≠ 1 := by omega
      rw [keyboardChar_s, keyStep_lyingZ_s_bridge oob { g with s_pressed := 1 } hl hy1 hz hw rfl,
        keyStep_lyingZ_s oob { g with s_pressed := 1 } hy1 hz hw rfl]
      simp only [rollScoreElse_rect_posx, rollScoreElse_rect_posz, Upright,
        rollScoreElse_longy, rollScoreElse_longz, rollScoreElse_longx]
      refine ⟨⟨trivial, trivial, hx⟩, ?_, ?_⟩ <;> split_ifs with hT <;> simp [xor_one_ne, hT]
  · rintro ⟨hy, hz, hx⟩ (rfl | rfl | rfl | rfl) hne
    · have b := keyStep_upright_w_bridge oob { g with w_pressed := 1 } hl hy rfl
      have e := keyStep_upright_w oob { g with w_pressed := 1 } hy rfl
      rw [keyboardChar_w] at hne ⊢
      rw [b] at hne ⊢
      rw [e]
      dsimp only at hne ⊢
      by_cases hT : rd oob (floorTable g.level) (g.rect_posx + 5) (g.rect_posz - 2 + 5) = 2
      · rw [if_pos hT]
        refine ⟨rfl, (g.rect_posx + 5, g.rect_posz - 2 + 5), ?_, hT⟩
        rw [footprint_lyingZ _ (by simp [LyingZ, hx])]
        simp
      · rw [if_neg hT] at hne
        exact absurd rfl hne
    · have b := keyStep_upright_s_bridge oob { g with s_pressed := 1 } hl hy hw rfl
      have e := keyStep_upright_s oob { g with s_pressed := 1 } hy hw rfl
      rw [keyboardChar_s] at hne ⊢
      rw [b] at hne ⊢
      rw [e]
      dsimp only at hne ⊢
      by_cases hT : rd oob (floorTable g.level) (g.rect_posx + 5) (g.rect_posz + 1 + 6) = 2
      · rw [if_pos hT]
        refine ⟨rfl, (g.rect_posx + 5, g.rect_posz + 1 + 6), ?_, hT⟩
        rw [footprint_lyingZ _ (by simp [LyingZ, hx])]
        simp
      · rw [if_neg hT] at hne
        exact absurd rfl hne
    · have b := keyStep_upright_a_bridge oob { g with a_pressed := 1 } hl hy hw hs rfl
      have e := keyStep_upright_a oob { g with a_pressed := 1 } hy hw hs rfl
      rw [keyboardChar_a] at hne ⊢
      rw [b] at hne ⊢
      rw [e]
      dsimp only at hne ⊢
      by_cases hT : rd oob (floorTable g.level) (g.rect_posx - 2 + 5) (g.rect_posz + 5) = 2
      · rw [if_pos hT]
        refine ⟨rfl, (g.rect_posx - 2 + 5, g.rect_posz + 5), ?_, hT⟩
        rw [footprint_lyingX _ (by simp [LyingX, hz])]
        simp
      · rw [if_neg hT] at hne
        exact absurd rfl hne
    · have b := keyStep_upright_d_bridge oob { g with d_pressed := 1 } hl hy hw hs ha rfl
      have e := keyStep_upright_d oob { g with d_pressed := 1 } hy hw hs ha rfl
      rw [keyboardChar_d] at hne ⊢
      rw [b] at hne ⊢
      rw [e]
      dsimp only at hne ⊢
      by_cases hT : rd oob (floorTable g.level) (g.rect_posx + 1 + 5) (g.rect_posz + 5) = 2
      · rw [if_pos hT]
        refine ⟨rfl, (g.rect_posx + 1 + 5, g.rect_posz + 5), ?_, hT⟩
        rw [footprint_lyingX _ (by simp [LyingX, hz])]
        simp
      · rw [if_neg hT] at hne
        exact absurd rfl hne
  · rintro (⟨⟨hy, hz, hx⟩, rfl | rfl⟩ | ⟨⟨hy, hz, hx⟩, rfl | rfl⟩)
    · have hy1 : g.longy ≠ 1 := by omega
      rw [keyboardChar_a]
      exact keyStep_lyingZ_a_bridge oob { g with a_pressed := 1 } hy1 hz hw hs rfl
    · have hy1 : g.longy ≠ 1 := by omega
      rw [keyboardChar_d]
      exact keyStep_lyingZ_d_bridge oob { g with d_pressed := 1 } hy1 hz hw hs ha rfl
    · have hy1 : g.longy ≠ 1 := by omega
      have hz1 : g.longz ≠ 1 := by omega
      rw [keyboardChar_w]
      exact keyStep_lyingX_w_bridge oob { g with w_pressed := 1 } hy1 hz1 hx rfl
    · have hy1 : g.longy ≠ 1 := by omega
      have hz1 : g.longz ≠ 1 := by omega
      rw [keyboardChar_s]
      exact keyStep_lyingX_s_bridge oob { g with s_pressed := 1 } hy1 hz1 hx hw rfl

/-- C12 amended, at the block lying on `(3, 1)`, `(3, 2)` of level 1 rolled
with `s`: it ends upright on the trigger cell `(3, 3)` and the switch changes. -/
theorem C12_switch_flips_witness :
    Upright (keyStep zeroOob (keyboardChar 's' triggerSample)) ∧
    (keyStep zeroOob (keyboardChar 's' triggerSample)).bridge_stat ≠ triggerSample.bridge_stat :=
  ⟨((C12_switch_flips zeroOob triggerSample 's' (by decide) (by decide)).1 (by decide)
      (Or.inr rfl)).1,
   ((C12_switch_flips zeroOob triggerSample 's' (by decide) (by decide)).1 (by decide)
      (Or.inr rfl)).2.1.2 (by decide)⟩


/-! ## Opposite moves -/

/-- C13. Opposite moves cancel.  For an oriented block with no key pending
and a direction key: if the frame of the key and then the frame of the
opposite key both pass their check unchanged (neither a fail nor a win), the
block is back in its original orientation, at its original position, on its
original footprint. -/
theorem C13_opposite_cancel (oob : Oob) (g : Game) (key : Char)
    (hkey : key = 'w' ∨ key = 's' ∨ key = 'a' ∨ key = 'd')
    (hor : Oriented g) (hidle : idle g)
    (h1 : frame oob (keyboardChar key g) = keyStep oob (keyboardChar key g))
    (h2 : frame oob (keyboardChar (opposite key) (frame oob (keyboardChar key g))) =
      keyStep oob (keyboardChar (opposite key) (frame oob (keyboardChar key g)))) :
    (frame oob (keyboardChar (opposite key) (frame oob (keyboardChar key g)))).rect_posx =
      g.rect_posx ∧
    (frame oob (keyboardChar (opposite key) (frame oob (keyboardChar key g)))).rect_posz =
      g.rect_posz ∧
    (frame oob (keyboardChar (opposite key) (frame oob (keyboardChar key g)))).longy = g.longy ∧
    (frame oob (keyboardChar (opposite key) (frame oob (keyboardChar key g)))).longz = g.longz ∧
    (frame oob (keyboardChar (opposite key) (frame oob (keyboardChar key g)))).longx = g.longx ∧
    footprint (frame oob (keyboardChar (opposite key) (frame oob (keyboardChar key g)))) =
      footprint g := by
  obtain ⟨hw, hs, ha, hd⟩ := hidle
  rcases hor with ⟨hy, hz, hx⟩ | ⟨hy, hz, hx⟩ | ⟨hy, hz, hx⟩
  · rcases hkey with rfl | rfl | rfl | rfl
    · have o1 : opposite 'w' = 's' := by decide
      rw [o1] at h2 ⊢
      rw [h2, h1, keyboardChar_w, keyStep_upright_w oob { g with w_pressed := 1 } hy rfl,
        keyboardChar_s]
      rw [keyStep_lyingZ_s oob _
        (by simp [hy, hz, hx, hw, hs, ha, hd])
        (by simp [hy, hz, hx, hw, hs, ha, hd])
        (by simp [hy, hz, hx, hw, hs, ha, hd])
        rfl]
      refine ⟨?_, ?_, ?_, ?_, ?_, ?_⟩ <;> simp [footprint, orient, hy, hz, hx]
    · have o1 : opposite 's' = 'w' := by decide
      rw [o1] at h2 ⊢
      rw [h2, h1, keyboardChar_s, keyStep_upright_s oob { g with s_pressed := 1 } hy hw rfl,
        keyboardChar_w]
      rw [keyStep_lyingZ_w oob _
        (by simp [hy, hz, hx, hw, hs, ha, hd])
        (by simp [hy, hz, hx, hw, hs, ha, hd])
        rfl]
      refine ⟨?_, ?_, ?_, ?_, ?_, ?_⟩ <;> simp [footprint, orient, hy, hz, hx]
    · have o1 : opposite 'a' = 'd' := by decide
      rw [o1] at h2 ⊢
      rw [h2, h1, keyboardChar_a, keyStep_upright_a oob { g with a_pressed := 1 } hy hw hs rfl,
        keyboardChar_d]
      rw [keyStep_lyingX_d oob _
        (by simp [hy, hz, hx, hw, hs, ha, hd])
        (by simp [hy, hz, hx, hw, hs, ha, hd])
        (by simp [hy, hz, hx, hw, hs, ha, hd])
        (by simp [hy, hz, hx, hw, hs, ha, hd])
        (by simp [hy, hz, hx, hw, hs, ha, hd])
        (by simp [hy, hz, hx, hw, hs, ha, hd])
        rfl]
      refine ⟨?_, ?_, ?_, ?_, ?_, ?_⟩ <;> simp [footprint, orient, hy, hz, hx]
    · have o1 : opposite 'd' = 'a' := by decide
      rw [o1] at h2 ⊢
      rw [h2, h1, keyboardChar_d, keyStep_upright_d oob { g with d_pressed := 1 } hy hw hs ha rfl,
        keyboardChar_a]
      rw [keyStep_lyingX_a oob _
        (by simp [hy, hz, hx, hw, hs, ha, hd])
        (by simp [hy, hz, hx, hw, hs, ha, hd])
        (by simp [hy, hz, hx, hw, hs, ha, hd])
        (by simp [hy, hz, hx, hw, hs, ha, hd])
        (by simp [hy, hz, hx, hw, hs, ha, hd])
        rfl]
      refine ⟨?_, ?_, ?_, ?_, ?_, ?_⟩ <;> simp [footprint, orient, hy, hz, hx]
  · rcases hkey with rfl | rfl | rfl | rfl
    · have hy1 : g.longy ≠ 1 := by omega
      have o1 : opposite 'w' = 's' := by decide
      rw [o1] at h2 ⊢
      rw [h2, h1, keyboardChar_w, keyStep_lyingZ_w oob { g with w_pressed := 1 } hy1 hz rfl,
        keyboardChar_s]
      rw [keyStep_upright_s oob _
        (by simp [hy, hz, hx, hw, hs, ha, hd])
        (by simp [hy, hz, hx, hw, hs, ha, hd])
        rfl]
      refine ⟨?_, ?_, ?_, ?_, ?_, ?_⟩ <;> simp [footprint, orient, hy, hz, hx]
    · have hy1 : g.longy ≠ 1 := by omega
      have o1 : opposite 's' = 'w' := by decide
      rw [o1] at h2 ⊢
      rw [h2, h1, keyboardChar_s, keyStep_lyingZ_s oob { g with s_pressed := 1 } hy1 hz hw rfl,
        keyboardChar_w]
      rw [keyStep_upright_w oob _
        (by simp [hy, hz, hx, hw, hs, ha, hd])
        rfl]
      refine ⟨?_, ?_, ?_, ?_, ?_, ?_⟩ <;> simp [footprint, orient, hy, hz, hx]
    · have hy1 : g.longy ≠ 1 := by omega
      have o1 : opposite 'a' = 'd' := by decide
      rw [o1] at h2 ⊢
      rw [h2, h1, keyboardChar_a, keyStep_lyingZ_a oob { g with a_pressed := 1 } hy1 hz hw hs rfl,
        keyboardChar_d]
      rw [keyStep_lyingZ_d oob _
        (by simp [hy, hz, hx, hw, hs, ha, hd])
        (by simp [hy, hz, hx, hw, hs, ha, hd])
        (by simp [hy, hz, hx, hw, hs, ha, hd])
        (by simp [hy, hz, hx, hw, hs, ha, hd])
        (by simp [hy, hz, hx, hw, hs, ha, hd])
        rfl]
      refine ⟨?_, ?_, ?_, ?_, ?_, ?_⟩ <;> simp [footprint, orient, hy, hz, hx]
    · have hy1 : g.longy ≠ 1 := by omega
      have o1 : opposite 'd' = 'a' := by decide
      rw [o1] at h2 ⊢
      rw [h2, h1, keyboardChar_d, keyStep_lyingZ_d oob { g with d_pressed := 1 } hy1 hz hw hs ha rfl,
        keyboardChar_a]
      rw [keyStep_lyingZ_a oob _
        (by simp [hy, hz, hx, hw, hs, ha, hd])
        (by simp [hy, hz, hx, hw, hs, ha, hd])
        (by simp [hy, hz, hx, hw, hs, ha, hd])
        (by simp [hy, hz, hx, hw, hs, ha, hd])
        rfl]
      refine ⟨?_, ?_, ?_, ?_, ?_, ?_⟩ <;> simp [footprint, orient, hy, hz, hx]
  · rcases hkey with rfl | rfl | rfl | rfl
    · have hy1 : g.longy ≠ 1 := by omega
      have hz1 : g.longz ≠ 1 := by omega
      have o1 : opposite 'w' = 's' := by decide
      rw [o1] at h2 ⊢
      rw [h2, h1, keyboardChar_w, keyStep_lyingX_w oob { g with w_pressed := 1 } hy1 hz1 hx rfl,
        keyboardChar_s]
      rw [keyStep_lyingX_s oob _
        (by simp [hy, hz, hx, hw, hs, ha, hd])
        (by simp [hy, hz, hx, hw, hs, ha, hd])
        (by simp [hy, hz, hx, hw, hs, ha, hd])
        (by simp [hy, hz, hx, hw, hs, ha, hd])
        rfl]
      refine ⟨?_, ?_, ?_, ?_, ?_, ?_⟩ <;> simp [footprint, orient, hy, hz, hx]
    · have hy1 : g.longy ≠ 1 := by omega
      have hz1 : g.longz ≠ 1 := by omega
      have o1 : opposite 's' = 'w' := by decide
      rw [o1] at h2 ⊢
      rw [h2, h1, keyboardChar_s, keyStep_lyingX_s oob { g with s_pressed := 1 } hy1 hz1 hx hw rfl,
        keyboardChar_w]
      rw [keyStep_lyingX_w oob _
        (by simp [hy, hz, hx, hw, hs, ha, hd])
        (by simp [hy, hz, hx, hw, hs, ha, hd])
        (by simp [hy, hz, hx, hw, hs, ha, hd])
        rfl]
      refine ⟨?_, ?_, ?_, ?_, ?_, ?_⟩ <;> simp [footprint, orient, hy, hz, hx]
    · have hy1 : g.longy ≠ 1 := by omega
      have hz1 : g.longz ≠ 1 := by omega
      have o1 : opposite 'a' = 'd' := by decide
      rw [o1] at h2 ⊢
      rw [h2, h1, keyboardChar_a, keyStep_lyingX_a oob { g with a_pressed := 1 } hy1 hz1 hx hw hs rfl,
        keyboardChar_d]
      rw [keyStep_upright_d oob _
        (by simp [hy, hz, hx, hw, hs, ha, hd])
        (by simp [hy, hz, hx, hw, hs, ha, hd])
        (by simp [hy, hz, hx, hw, hs, ha, hd])
        (by simp [hy, hz, hx, hw, hs, ha, hd])
        rfl]
      refine ⟨?_, ?_, ?_, ?_, ?_, ?_⟩ <;> simp [footprint, orient, hy, hz, hx]
    · have hy1 : g.longy ≠ 1 := by omega
      have hz1 : g.longz ≠ 1 := by omega
      have o1 : opposite 'd' = 'a' := by decide
      rw [o1] at h2 ⊢
      rw [h2, h1, keyboardChar_d, keyStep_lyingX_d oob { g with d_pressed := 1 } hy1 hz1 hx hw hs ha rfl,
        keyboardChar_a]
      rw [keyStep_upright_a oob _
        (by simp [hy, hz, hx, hw, hs, ha, hd])
        (by simp [hy, hz, hx, hw, hs, ha, hd])
        (by simp [hy, hz, hx, hw, hs, ha, hd])
        rfl]
      refine ⟨?_, ?_, ?_, ?_, ?_, ?_⟩ <;> simp [footprint, orient, hy, hz, hx]


/-- C13 at the initial state with key `d`, then `a`: the block is back upright
on the spawn cell. -/
theorem C13_opposite_cancel_witness :
    footprint
        (frame zeroOob (keyboardChar (opposite 'd') (frame zeroOob (keyboardChar 'd' init)))) =
      footprint init :=
  (C13_opposite_cancel zeroOob init 'd' (by decide) (by decide) (by decide) (by decide)
    (by decide)).2.2.2.2.2

/-! ## The goal tables -/

/-- C14. Each goal table marks exactly one cell: `goal_normal` has ten rows of
ten entries, a single entry equal to `1`, at `[3][9]`; `goal_normal2` has ten
rows of ten entries, a single entry equal to `1`, at `[8][8]`. -/
theorem C14_one_goal_cell :
    (goal_normal.length = 10 ∧ goal_normal.all (fun row => row.length = 10) = true ∧
      (goal_normal.map (fun row => row.count 1)).sum = 1 ∧ entry goal_normal 3 9 = 1 ∧
      ∀ i j : Fin 10, entry goal_normal i j = 1 ↔ (i = 3 ∧ j = 9)) ∧
    (goal_normal2.length = 10 ∧ goal_normal2.all (fun row => row.length = 10) = true ∧
      (goal_normal2.map (fun row => row.count 1)).sum = 1 ∧ entry goal_normal2 8 8 = 1 ∧
      ∀ i j : Fin 10, entry goal_normal2 i j = 1 ↔ (i = 8 ∧ j = 8)) := by
  decide


/-! ## The first moves -/

/-- C15, as stated, fails.  The spawn cell is the grid cell `(0, 0)`, not
`(5, 5)`, and after two frames with key `d` from the initial state the block
is upright on `(3, 0)`: it is not lying along x and its footprint is not
`(6, 5)`, `(7, 5)`. -/
theorem C15_spawn_east_counterexample :
    cell init = (0, 0) ∧ cell init ≠ (5, 5) ∧
    ¬ LyingX (play zeroOob ['d', 'd'] init) ∧
    Upright (play zeroOob ['d', 'd'] init) ∧
    footprint (play zeroOob ['d', 'd'] init) = [(3, 0)] ∧
    footprint (play zeroOob ['d', 'd'] init) ≠ [(6, 5), (7, 5)] := by
  decide

/-- C15, amended.  On level 1 the block spawns upright on the grid cell
`(0, 0)` (`rect_pos = (-5, -5)`); one frame with key `d` leaves it lying along
x on `(1, 0)`, `(2, 0)`, and a second one leaves it upright on `(3, 0)` - for
every out-of-range read value, none being made. -/
theorem C15_spawn_east (oob : Oob) :
    init.level = 1 ∧ Upright init ∧ footprint init = [(0, 0)] ∧
    LyingX (play oob ['d'] init) ∧ footprint (play oob ['d'] init) = [(1, 0), (2, 0)] ∧
    Upright (play oob ['d', 'd'] init) ∧ footprint (play oob ['d', 'd'] init) = [(3, 0)] := by
  have e1 : frame oob (keyboardChar 'd' init) =
      { init with longy := 0, longx := 1, rect_posx := -4, score := 1 } := by
    rw [keyboardChar_d]
    simp +decide [frame, keyStep, rollScore, rollScore1, rollScore2, rd, check, checkX1, checkX2,
      init]
  have e2 : frame oob (keyboardChar 'd'
      { init with longy := 0, longx := 1, rect_posx := -4, score := 1 }) =
      { init with rect_posx := -2, score := 2 } := by
    rw [keyboardChar_d]
    simp +decide [frame, keyStep, rollScore, rollScore1, rollScore2, rd, check, checkY1, checkY2,
      init]
  have p1 : play oob ['d'] init =
      { init with longy := 0, longx := 1, rect_posx := -4, score := 1 } := by
    simp only [play, List.foldl]
    exact e1
  have p2 : play oob ['d', 'd'] init = { init with rect_posx := -2, score := 2 } := by
    simp only [play, List.foldl]
    rw [e1, e2]
  rw [p1, p2]
  decide


/-! ## Reads outside the tables -/

/-- C16 fails on the first key press `w` of a game.  The `longy` + `w` handler
moves the block to `rect_posz = -7` and reads `normal_pos[0][-2]`: the column
index is outside `0..9`.  The block then lies on the cells `(0, -2)`,
`(0, -1)`, both outside the grid, and whether the check resets it depends on
what the reads outside the tables yield: with every such read `0` it is reset,
with every such read `3` it stays where it is.  The handler's own read
decides the switch: with every such read `2` the move flips it. -/
theorem C16_read_outside_table :
    keyStepRead (keyboardChar 'w' init) = some (0, -2) ∧ ¬ inGrid (0, -2) ∧
    (keyStep zeroOob (keyboardChar 'w' init)).bridge_stat = 0 ∧
    (keyStep triggerOob (keyboardChar 'w' init)).bridge_stat = 1 ∧
    footprint (keyStep zeroOob (keyboardChar 'w' init)) = [(0, -2), (0, -1)] ∧
    AtSpawn (frame zeroOob (keyboardChar 'w' init)) ∧
    ¬ AtSpawn (frame strayOob (keyboardChar 'w' init)) ∧
    footprint (frame strayOob (keyboardChar 'w' init)) = [(0, -2), (0, -1)] := by
  decide


/-! ## The scores over a game -/

/-- The handlers never lower a score, and write only the active level's. -/
theorem keyStep_scores_any (oob : Oob) (g : Game) :
    (g.level = 1 → ((keyStep oob g).score = g.score ∨ (keyStep oob g).score = g.score + 1) ∧
      (keyStep oob g).score2 = g.score2) ∧
    (g.level = 2 → ((keyStep oob g).score2 = g.score2 ∨
        (keyStep oob g).score2 = g.score2 + 1) ∧ (keyStep oob g).score = g.score) := by
  by_cases h : (g.longy = 1 ∨ g.longz = 1 ∨ g.longx = 1) ∧
      (g.w_pressed = 1 ∨ g.s_pressed = 1 ∨ g.a_pressed = 1 ∨ g.d_pressed = 1)
  · obtain ⟨h1, h2⟩ := keyStep_scores oob g h.1 h.2
    exact ⟨fun hl => ⟨Or.inr (h1 hl).1, (h1 hl).2⟩, fun hl => ⟨Or.inr (h2 hl).1, (h2 hl).2⟩⟩
  · rw [keyStep_no_handler oob g (by tauto)]
    exact ⟨fun _ => ⟨Or.inl rfl, rfl⟩, fun _ => ⟨Or.inl rfl, rfl⟩⟩

/-- On level 2 the check leaves `level` and `score`, and leaves `score2` or
sets it to `score`. -/
theorem check_level2 (oob : Oob) (h : Game) (hl : h.level = 2) :
    (check oob h).level = 2 ∧ (check oob h).score = h.score ∧
    ((check oob h).score2 = h.score2 ∨ (check oob h).score2 = h.score) := by
  have h21 : (2 : Int) ≠ 1 := by decide
  have hne : h.level ≠ 1 := by rw [hl]; exact h21
  unfold check
  split_ifs
  · rw [checkY1_of_ne oob h hne]
    unfold checkY2
    split_ifs <;> simp_all [fail2]
  · rw [checkZ1_of_ne oob h hne]
    unfold checkZ2
    split_ifs <;> simp_all [fail2]
  · rw [checkX1_of_ne oob h hne]
    unfold checkX2
    split_ifs <;> simp_all [fail2]
  · exact ⟨hl, rfl, Or.inl rfl⟩

/-- On level 2 a frame leaves `level` and `score`, and `score2` ends as it
was, one higher, or equal to `score`. -/
theorem frame_level2 (oob : Oob) (g : Game) (hl : g.level = 2) :
    (frame oob g).level = 2 ∧ (frame oob g).score = g.score ∧
    ((frame oob g).score2 = g.score2 ∨ (frame oob g).score2 = g.score2 + 1 ∨
      (frame oob g).score2 = g.score) := by
  obtain ⟨kl, -⟩ := keyStep_level_win oob g
  obtain ⟨ks2, ks⟩ := (keyStep_scores_any oob g).2 hl
  obtain ⟨c1, c2, c3⟩ := check_level2 oob (keyStep oob g) (by rw [kl]; exact hl)
  unfold frame
  refine ⟨c1, by rw [c2, ks], ?_⟩
  rcases c3 with c3 | c3
  · rcases ks2 with k | k
    · exact Or.inl (by rw [c3, k])
    · exact Or.inr (Or.inl (by rw [c3, k]))
  · exact Or.inr (Or.inr (by rw [c3, ks]))

/-- Polling keys leaves the level and the scores. -/
theorem pollEvents_fields (keys : List Char) (g : Game) :
    (pollEvents keys g).level = g.level ∧ (pollEvents keys g).score = g.score ∧
    (pollEvents keys g).score2 = g.score2 := by
  unfold pollEvents
  induction keys generalizing g with
  | nil => exact ⟨rfl, rfl, rfl⟩
  | cons k ks ih =>
    obtain ⟨-, -, -, -, -, el, -, -, es, es2⟩ := keyboardChar_fields k g
    simp only [List.foldl]
    obtain ⟨i1, i2, i3⟩ := ih (keyboardChar k g)
    exact ⟨by rw [i1, el], by rw [i2, es], by rw [i3, es2]⟩

/-- C17. The level-1 score is frozen on level 2.  From a state with
`level = 2`: a frame - whatever keys are pending, whether it moves, fails or
wins - leaves `score` and leaves `level = 2`; so does a poll of the keyboard;
and so does the loop of `main` run over any sequence of polls. -/
theorem C17_level1_score_frozen (oob : Oob) (g : Game) (keys : List Char)
    (events : List (List Char)) (hl : g.level = 2) :
    ((frame oob g).score = g.score ∧ (frame oob g).level = 2) ∧
    ((pollEvents keys g).score = g.score ∧ (pollEvents keys g).level = 2) ∧
    ((run oob events g).score = g.score ∧ (run oob events g).level = 2) := by
  refine ⟨⟨(frame_level2 oob g hl).2.1, (frame_level2 oob g hl).1⟩, ?_, ?_⟩
  · obtain ⟨p1, p2, -⟩ := pollEvents_fields keys g
    exact ⟨p2, by rw [p1, hl]⟩
  · induction events generalizing g with
    | nil => exact ⟨rfl, hl⟩
    | cons ks rest ih =>
      unfold run mainIter
      split_ifs with hw
      · obtain ⟨f1, f2, -⟩ := frame_level2 oob g hl
        obtain ⟨p1, p2, -⟩ := pollEvents_fields ks (frame oob g)
        obtain ⟨i1, i2⟩ := ih (pollEvents ks (frame oob g)) (by rw [p1, f1])
        exact ⟨by rw [i1, p2, f2], i2⟩
      · exact ⟨rfl, hl⟩

/-- C17 at a level-2 state with `score = 8` that falls (key `s` from cell
`(0, 3)`): `score` is still `8` and the level still 2. -/
theorem C17_level1_score_frozen_witness :
    (run zeroOob [['s'], ['s']] level2Sample).score = 8 ∧
    (run zeroOob [['s'], ['s']] level2Sample).level = 2 :=
  (C17_level1_score_frozen zeroOob level2Sample [] [['s'], ['s']] (by decide)).2.2


/-- A read of `goal_normal` inside the index range that yields `1` is the read
of its entry `[3][9]`. -/
theorem rd_goal_normal_one (oob : Oob) (i j : Int)
    (hin : 0 ≤ i ∧ i < 10 ∧ 0 ≤ j ∧ j < 10) (h : rd oob goal_normal i j = 1) :
    i = 3 ∧ j = 9 := by
  unfold rd at h
  rw [if_pos hin] at h
  obtain ⟨h1, h2, h3, h4⟩ := hin
  obtain ⟨e1, e2⟩ := (goal_unique i.toNat (by omega) j.toNat (by omega)).1 h
  omega

/-- The check keeps the score floor, if outside the tables nothing looks like
the level-1 goal without looking void on level 2: wherever a read outside
`goal_normal` yields `1` and the read outside `normal_pos` at the same indices
yields `0`, the read outside `normal_pos2` yields `0` and the one outside
`goal_normal2` does not yield `1`. -/
theorem check_scoreFloor (oob : Oob)
    (hoob : ∀ i j, oob goal_normal i j = 1 → oob normal_pos i j = 0 →
      oob normal_pos2 i j = 0 ∧ oob goal_normal2 i j ≠ 1)
    (h : Game) (hf : ScoreFloor h) : ScoreFloor (check oob h) := by
  obtain ⟨h0, hl | ⟨hl, h2⟩⟩ := hf
  · by_cases hc : check oob h = h
    · rw [hc]; exact ⟨h0, Or.inl hl⟩
    by_cases hlev : (check oob h).level = 1
    · have hs := check_changed_level1 oob h hl hc hlev
      exact ⟨by rw [hs], Or.inl hlev⟩
    have hy : h.longy = 1 := by
      by_contra hy
      exact hlev (by rw [(check_lying_win_level oob h hy).2, hl])
    have hwin : rd oob normal_pos (h.rect_posx + 5) (h.rect_posz + 5) = 0 ∧
        rd oob goal_normal (h.rect_posx + 5) (h.rect_posz + 5) = 1 := by
      by_contra hn
      apply hlev
      simp only [check, hy, if_true, checkY2_level]
      unfold checkY1
      split_ifs <;> simp_all [fail1]
    by_cases hin : 0 ≤ h.rect_posx + 5 ∧ h.rect_posx + 5 < 10 ∧ 0 ≤ h.rect_posz + 5 ∧
        h.rect_posz + 5 < 10
    · obtain ⟨ex, ez⟩ := rd_goal_normal_one oob _ _ hin hwin.2
      have e := check_goal1 oob h hl hy (by simp [cell, ex, ez])
      rw [e]
      exact ⟨h0, Or.inr ⟨rfl, le_refl _⟩⟩
    · have r : ∀ t, rd oob t (h.rect_posx + 5) (h.rect_posz + 5) =
          oob t (h.rect_posx + 5) (h.rect_posz + 5) := fun t => by
        simp only [rd, if_neg hin]
      obtain ⟨w1, w2⟩ := hwin
      rw [r] at w1 w2
      obtain ⟨n2, g2⟩ := hoob _ _ w2 w1
      have e : check oob h = fail2 { h with win := 1, level := 2 } := by
        simp [check, hy, checkY1, hl, r, w1, w2, checkY2, n2, g2]
      rw [e]
      exact ⟨h0, Or.inr ⟨rfl, le_refl _⟩⟩
  · obtain ⟨c1, c2, c3⟩ := check_level2 oob h hl
    refine ⟨by rw [c2]; exact h0, Or.inr ⟨c1, ?_⟩⟩
    rw [c2]
    rcases c3 with c3 | c3 <;> rw [c3]
    exact h2

/-- A frame keeps the score floor, under the same condition on the reads
outside the tables. -/
theorem frame_scoreFloor (oob : Oob)
    (hoob : ∀ i j, oob goal_normal i j = 1 → oob normal_pos i j = 0 →
      oob normal_pos2 i j = 0 ∧ oob goal_normal2 i j ≠ 1)
    (g : Game) (hf : ScoreFloor g) : ScoreFloor (frame oob g) := by
  apply check_scoreFloor oob hoob
  obtain ⟨kl, -⟩ := keyStep_level_win oob g
  obtain ⟨k1, k2⟩ := keyStep_scores_any oob g
  obtain ⟨h0, hl | ⟨hl, h2⟩⟩ := hf
  · obtain ⟨ks, -⟩ := k1 hl
    exact ⟨by rcases ks with ks | ks <;> rw [ks] <;> omega, Or.inl (by rw [kl, hl])⟩
  · obtain ⟨ks2, ks⟩ := k2 hl
    exact ⟨by rw [ks]; exact h0,
      Or.inr ⟨by rw [kl, hl], by rcases ks2 with k | k <;> rw [k, ks] <;> omega⟩⟩

/-- The score floor holds in every state the loop of `main` reaches from the
initial state, over any sequence of polls of any keys, under the condition on
the reads outside the tables: the only way to break it is a level-1 win taken
outside the grid that the level-2 block does not answer with a reset. -/
theorem run_scoreFloor (oob : Oob)
    (hoob : ∀ i j, oob goal_normal i j = 1 → oob normal_pos i j = 0 →
      oob normal_pos2 i j = 0 ∧ oob goal_normal2 i j ≠ 1)
    (events : List (List Char)) : ScoreFloor (run oob events init) := by
  have key : ∀ (evs : List (List Char)) (g : Game), ScoreFloor g → ScoreFloor (run oob evs g) := by
    intro evs
    induction evs with
    | nil => intro g hg; exact hg
    | cons ks rest ih =>
      intro g hg
      unfold run mainIter
      split_ifs with hw
      · apply ih
        obtain ⟨p1, p2, p3⟩ := pollEvents_fields ks (frame oob g)
        have hf := frame_scoreFloor oob hoob g hg
        unfold ScoreFloor at hf ⊢
        rw [p1, p2, p3]
        exact hf
      · exact hg
  exact key events init (by decide)

/-- In the memory `aliasOob` the only read outside `goal_normal` that yields
`1` is an alias of its entry `[3][9]`, and there the level-2 tables are void. -/
theorem aliasOob_goal_reads (i j : Int) (h1 : aliasOob goal_normal i j = 1) :
    aliasOob normal_pos2 i j = 0 ∧ aliasOob goal_normal2 i j ≠ 1 := by
  unfold aliasOob at h1 ⊢
  split_ifs at h1 ⊢ with hr
  · obtain ⟨ea, eb⟩ := (goal_unique _ (by omega) _ (by omega)).1 h1
    rw [ea, eb]
    decide
  · exact absurd h1 (by decide)

/-- The run that clears level 1 (`d d s s s s s s`), all reads inside the
tables: the loop is then on level 2 and `score2` is at least `score`. -/
theorem level1_run_scoreFloor :
    (run zeroOob level1Polls init).level = 2 ∧
    (run zeroOob level1Polls init).score = 8 ∧
    (run zeroOob level1Polls init).score2 = 8 := by
  decide

/-- For a score from 0 to 99 the two numbers handed to the scoreboard are its
decimal digits. -/
theorem scoreDigits_two_digits (g : Game) (hl : g.level = 1) (h0 : 0 ≤ g.score)
    (h99 : g.score ≤ 99) :
    ∃ ones tens : Int, scoreDigits g = some (ones, tens) ∧ 0 ≤ ones ∧ ones ≤ 9 ∧ 0 ≤ tens ∧
      tens ≤ 9 ∧ g.score = 10 * tens + ones := by
  refine ⟨Int.tmod g.score 10, Int.tdiv g.score 10, by simp [scoreDigits, hl], ?_⟩
  rw [Int.tmod_eq_emod h0 (by decide), Int.tdiv_eq_ediv h0 (by decide)]
  omega

set_option maxRecDepth 100000 in
/-- C19 fails from score 100 on.  Fifty times `d`, `a` from the initial state
is a run of 100 moves without a fail: the block is back upright on the spawn
cell of level 1 with `score = 100`.  The scoreboard is then handed the pair
`(0, 10)`: the second number is `score / 10 = 10`, not a digit. -/
theorem C19_tens_not_a_digit :
    (play zeroOob (rockKeys 50) init).level = 1 ∧
    (play zeroOob (rockKeys 50) init).score = 100 ∧
    scoreDigits (play zeroOob (rockKeys 50) init) = some (0, 10) := by
  decide


/-! ## Frames without a key -/

/-- An upright block on the spawn cell passes the check unchanged. -/
theorem check_at_spawn (oob : Oob) (r : Game) (hy : r.longy = 1) (hx : r.rect_posx = -5)
    (hz : r.rect_posz = -5) : check oob r = r := by
  have e1 : checkY1 oob r = r := by simp +decide [checkY1, rd, hx, hz]
  have e2 : checkY2 oob r = r := by simp +decide [checkY2, rd, hx, hz]
  simp only [check, hy, if_true, e1, e2]

section Idempotence

variable (oob : Oob) (h : Game)

@[simp] theorem checkY1_longy : (checkY1 oob h).longy = h.longy := by
  unfold checkY1 fail1; split_ifs <;> rfl

@[simp] theorem checkY2_longy : (checkY2 oob h).longy = h.longy := by
  unfold checkY2 fail2; split_ifs <;> rfl

theorem checkY1_fail1 (hl : h.level = 1) : checkY1 oob (fail1 h) = fail1 h := by
  simp +decide [checkY1, fail1, rd, hl]

theorem checkY2_fail2 (hl : h.level = 2) : checkY2 oob (fail2 h) = fail2 h := by
  simp +decide [checkY2, fail2, rd, hl]

theorem checkY1_idem : checkY1 oob (checkY1 oob h) = checkY1 oob h := by
  by_cases hl : h.level = 1
  · have hc : checkY1 oob h = h ∨ checkY1 oob h = fail1 h ∨
        checkY1 oob h = { h with win := 1, level := 2 } := by
      unfold checkY1
      split_ifs <;> simp
    rcases hc with e | e | e
    · rw [e, e]
    · rw [e, checkY1_fail1 oob h hl]
    · rw [e]
      exact checkY1_of_ne oob _ (by simp)
  · rw [checkY1_of_ne oob h hl, checkY1_of_ne oob h hl]

theorem checkY2_idem : checkY2 oob (checkY2 oob h) = checkY2 oob h := by
  by_cases hl : h.level = 2
  · by_cases hw : rd oob normal_pos2 (h.rect_posx + 5) (h.rect_posz + 5) = 0 ∧
        rd oob goal_normal2 (h.rect_posx + 5) (h.rect_posz + 5) = 1
    · have e : checkY2 oob h = { h with win := 2 } := by simp [checkY2, hl, hw.1, hw.2]
      rw [e]
      simp [checkY2, hl, hw.1, hw.2]
    · have hc : checkY2 oob h = h ∨ checkY2 oob h = fail2 h := by
        unfold checkY2
        split_ifs <;> simp_all
      rcases hc with e | e
      · rw [e, e]
      · rw [e, checkY2_fail2 oob h hl]
  · rw [checkY2_of_ne oob h hl, checkY2_of_ne oob h hl]

theorem checkZ1_cases : checkZ1 oob h = h ∨
    ((checkZ1 oob h).longy = 1 ∧ (checkZ1 oob h).rect_posx = -5 ∧
      (checkZ1 oob h).rect_posz = -5) := by
  unfold checkZ1 fail1; split_ifs <;> simp

theorem checkZ2_cases : checkZ2 oob h = h ∨
    ((checkZ2 oob h).longy = 1 ∧ (checkZ2 oob h).rect_posx = -5 ∧
      (checkZ2 oob h).rect_posz = -5) := by
  unfold checkZ2 fail2; split_ifs <;> simp

theorem checkX1_cases : checkX1 oob h = h ∨
    ((checkX1 oob h).longy = 1 ∧ (checkX1 oob h).rect_posx = -5 ∧
      (checkX1 oob h).rect_posz = -5) := by
  unfold checkX1 fail1; split_ifs <;> simp

theorem checkX2_cases : checkX2 oob h = h ∨
    ((checkX2 oob h).longy = 1 ∧ (checkX2 oob h).rect_posx = -5 ∧
      (checkX2 oob h).rect_posz = -5) := by
  unfold checkX2 fail2; split_ifs <;> simp

/-- Running the check on the state the check left changes nothing. -/
theorem check_idem : check oob (check oob h) = check oob h := by
  by_cases hy : h.longy = 1
  · have e : check oob h = checkY2 oob (checkY1 oob h) := by simp only [check, hy, if_true]
    have hy2 : (checkY2 oob (checkY1 oob h)).longy = 1 := by simp [hy]
    have e1 : checkY1 oob (checkY2 oob (checkY1 oob h)) = checkY2 oob (checkY1 oob h) := by
      by_cases hl : (checkY2 oob (checkY1 oob h)).level = 1
      · have hl1 : (checkY1 oob h).level ≠ 2 := by
          rw [checkY2_level] at hl
          rw [hl]; decide
        rw [checkY2_of_ne oob _ hl1]
        exact checkY1_idem oob h
      · exact checkY1_of_ne oob _ hl
    rw [e]
    simp only [check, hy2, if_true, e1]
    exact checkY2_idem oob _
  · by_cases hz : h.longz = 1
    · have e : check oob h = checkZ2 oob (checkZ1 oob h) := by
        simp only [check, hy, hz, if_true, if_false]
      have hc : check oob h = h ∨ ((check oob h).longy = 1 ∧ (check oob h).rect_posx = -5 ∧
          (check oob h).rect_posz = -5) := by
        rw [e]
        rcases checkZ1_cases oob h with e1 | e1
        · rw [e1]; exact checkZ2_cases oob h
        · rcases checkZ2_cases oob (checkZ1 oob h) with e2 | e2
          · rw [e2]; exact Or.inr e1
          · exact Or.inr e2
      rcases hc with hc | ⟨c1, c2, c3⟩
      · rw [hc, hc]
      · exact check_at_spawn oob _ c1 c2 c3
    · by_cases hx : h.longx = 1
      · have e : check oob h = checkX2 oob (checkX1 oob h) := by
          simp only [check, hy, hz, hx, if_true, if_false]
        have hc : check oob h = h ∨ ((check oob h).longy = 1 ∧ (check oob h).rect_posx = -5 ∧
            (check oob h).rect_posz = -5) := by
          rw [e]
          rcases checkX1_cases oob h with e1 | e1
          · rw [e1]; exact checkX2_cases oob h
          · rcases checkX2_cases oob (checkX1 oob h) with e2 | e2
            · rw [e2]; exact Or.inr e1
            · exact Or.inr e2
        rcases hc with hc | ⟨c1, c2, c3⟩
        · rw [hc, hc]
        · exact check_at_spawn oob _ c1 c2 c3
      · have e : check oob h = h := by simp only [check, hy, hz, hx, if_false]
        rw [e, e]

end Idempotence


theorem checkY1_pressed (oob : Oob) (h : Game) :
    (checkY1 oob h).w_pressed = h.w_pressed ∧ (checkY1 oob h).s_pressed = h.s_pressed ∧
    (checkY1 oob h).a_pressed = h.a_pressed ∧ (checkY1 oob h).d_pressed = h.d_pressed := by
  unfold checkY1 fail1; split_ifs <;> exact ⟨rfl, rfl, rfl, rfl⟩

theorem checkY2_pressed (oob : Oob) (h : Game) :
    (checkY2 oob h).w_pressed = h.w_pressed ∧ (checkY2 oob h).s_pressed = h.s_pressed ∧
    (checkY2 oob h).a_pressed = h.a_pressed ∧ (checkY2 oob h).d_pressed = h.d_pressed := by
  unfold checkY2 fail2; split_ifs <;> exact ⟨rfl, rfl, rfl, rfl⟩

theorem checkZ1_pressed (oob : Oob) (h : Game) :
    (checkZ1 oob h).w_pressed = h.w_pressed ∧ (checkZ1 oob h).s_pressed = h.s_pressed ∧
    (checkZ1 oob h).a_pressed = h.a_pressed ∧ (checkZ1 oob h).d_pressed = h.d_pressed := by
  unfold checkZ1 fail1; split_ifs <;> exact ⟨rfl, rfl, rfl, rfl⟩

theorem checkZ2_pressed (oob : Oob) (h : Game) :
    (checkZ2 oob h).w_pressed = h.w_pressed ∧ (checkZ2 oob h).s_pressed = h.s_pressed ∧
    (checkZ2 oob h).a_pressed = h.a_pressed ∧ (checkZ2 oob h).d_pressed = h.d_pressed := by
  unfold checkZ2 fail2; split_ifs <;> exact ⟨rfl, rfl, rfl, rfl⟩

theorem checkX1_pressed (oob : Oob) (h : Game) :
    (checkX1 oob h).w_pressed = h.w_pressed ∧ (checkX1 oob h).s_pressed = h.s_pressed ∧
    (checkX1 oob h).a_pressed = h.a_pressed ∧ (checkX1 oob h).d_pressed = h.d_pressed := by
  unfold checkX1 fail1; split_ifs <;> exact ⟨rfl, rfl, rfl, rfl⟩

theorem checkX2_pressed (oob : Oob) (h : Game) :
    (checkX2 oob h).w_pressed = h.w_pressed ∧ (checkX2 oob h).s_pressed = h.s_pressed ∧
    (checkX2 oob h).a_pressed = h.a_pressed ∧ (checkX2 oob h).d_pressed = h.d_pressed := by
  unfold checkX2 fail2; split_ifs <;> exact ⟨rfl, rfl, rfl, rfl⟩

/-- The check leaves the key flags. -/
theorem check_idle (oob : Oob) (h : Game) (hi : idle h) : idle (check oob h) := by
  obtain ⟨y1w, y1s, y1a, y1d⟩ := checkY1_pressed oob h
  obtain ⟨y2w, y2s, y2a, y2d⟩ := checkY2_pressed oob (checkY1 oob h)
  obtain ⟨z1w, z1s, z1a, z1d⟩ := checkZ1_pressed oob h
  obtain ⟨z2w, z2s, z2a, z2d⟩ := checkZ2_pressed oob (checkZ1 oob h)
  obtain ⟨x1w, x1s, x1a, x1d⟩ := checkX1_pressed oob h
  obtain ⟨x2w, x2s, x2a, x2d⟩ := checkX2_pressed oob (checkX1 oob h)
  unfold idle check
  split_ifs
  · rw [y2w, y2s, y2a, y2d, y1w, y1s, y1a, y1d]; exact hi
  · rw [z2w, z2s, z2a, z2d, z1w, z1s, z1a, z1d]; exact hi
  · rw [x2w, x2s, x2a, x2d, x1w, x1s, x1a, x1d]; exact hi
  · exact hi

/-- C20. Frames without a key settle at once.  For every state - every level,
orientation, position (in the grid or not) and bridge state - and every
out-of-range read value, running the check on the state the check left gives
that state again; and with no key pending a frame is just the check, so a
second such frame changes nothing. -/
theorem C20_check_idempotent (oob : Oob) (g : Game) :
    check oob (check oob g) = check oob g ∧
    (idle g → frame oob g = check oob g ∧ frame oob (frame oob g) = frame oob g) := by
  refine ⟨check_idem oob g, fun hi => ?_⟩
  have e1 : frame oob g = check oob g := by
    unfold frame
    rw [keyStep_idle oob g hi]
  have e2 : frame oob (check oob g) = check oob (check oob g) := by
    unfold frame
    rw [keyStep_idle oob _ (check_idle oob g hi)]
  exact ⟨e1, by rw [e1, e2, check_idem]⟩

/-- C20 at a block lying on the void cells `(0, 1)`, `(0, 2)` of level 1 with
no key pending: the first frame resets it, the second changes nothing. -/
theorem C20_check_idempotent_witness :
    frame zeroOob (frame zeroOob voidSample) = frame zeroOob voidSample :=
  ((C20_check_idempotent zeroOob voidSample).2 (by decide)).2


/-! ## Several keys pending -/

section Flags

variable (oob : Oob) (m : Game) (i j w s a d : Int)

theorem rollScore_setFlags : rollScore oob (setFlags w s a d m) i j = setFlags w s a d (rollScore oob m i j) := by
  simp only [rollScore, rollScore2, rollScore1, setFlags]
  split_ifs <;> rfl

theorem rollScoreElse_setFlags : rollScoreElse oob (setFlags w s a d m) i j = setFlags w s a d (rollScoreElse oob m i j) := by
  simp only [rollScoreElse, setFlags]
  split_ifs <;> rfl

theorem slideScore_setFlags : slideScore (setFlags w s a d m) = setFlags w s a d (slideScore m) := by
  simp only [slideScore, setFlags]
  split_ifs <;> rfl

theorem slideScoreElseIf_setFlags : slideScoreElseIf (setFlags w s a d m) = setFlags w s a d (slideScoreElseIf m) := by
  simp only [slideScoreElseIf, setFlags]
  split_ifs <;> rfl

theorem checkY1_setFlags : checkY1 oob (setFlags w s a d m) = setFlags w s a d (checkY1 oob m) := by
  simp only [checkY1, fail1, setFlags]
  split_ifs <;> rfl

theorem checkY2_setFlags : checkY2 oob (setFlags w s a d m) = setFlags w s a d (checkY2 oob m) := by
  simp only [checkY2, fail2, setFlags]
  split_ifs <;> rfl

theorem checkZ1_setFlags : checkZ1 oob (setFlags w s a d m) = setFlags w s a d (checkZ1 oob m) := by
  simp only [checkZ1, fail1, setFlags]
  split_ifs <;> rfl

theorem checkZ2_setFlags : checkZ2 oob (setFlags w s a d m) = setFlags w s a d (checkZ2 oob m) := by
  simp only [checkZ2, fail2, setFlags]
  split_ifs <;> rfl

theorem checkX1_setFlags : checkX1 oob (setFlags w s a d m) = setFlags w s a d (checkX1 oob m) := by
  simp only [checkX1, fail1, setFlags]
  split_ifs <;> rfl

theorem checkX2_setFlags : checkX2 oob (setFlags w s a d m) = setFlags w s a d (checkX2 oob m) := by
  simp only [checkX2, fail2, setFlags]
  split_ifs <;> rfl

/-- The check neither reads nor writes the key flags. -/
theorem check_setFlags : check oob (setFlags w s a d m) = setFlags w s a d (check oob m) := by
  unfold check
  have e : (setFlags w s a d m).longy = m.longy ∧ (setFlags w s a d m).longz = m.longz ∧
      (setFlags w s a d m).longx = m.longx := ⟨rfl, rfl, rfl⟩
  rw [e.1, e.2.1, e.2.2]
  split_ifs
  · rw [checkY1_setFlags, checkY2_setFlags]
  · rw [checkZ1_setFlags, checkZ2_setFlags]
  · rw [checkX1_setFlags, checkX2_setFlags]
  · rfl

end Flags


/-- With `w` the first pending key in the order `w`, `s`, `a`, `d`, the
handlers do what they do with `w` alone pending, and leave the other flags. -/
theorem keyStep_first_w (oob : Oob) (g : Game) (hor : Oriented g)
    (hw : g.w_pressed = 1) :
    keyStep oob g =
      setFlags 0 g.s_pressed g.a_pressed g.d_pressed (keyStep oob (setFlags 1 0 0 0 g)) := by
  have h01 : (0 : Int) ≠ 1 := by decide
  rcases hor with ⟨hy, hz, hx⟩ | ⟨hy, hz, hx⟩ | ⟨hy, hz, hx⟩
  · rw [keyStep_upright_w oob g hy hw,
      keyStep_upright_w oob (setFlags 1 0 0 0 g) hy rfl, ← rollScore_setFlags]
    rfl
  · have hy1 : g.longy ≠ 1 := by omega
    rw [keyStep_lyingZ_w oob g hy1 hz hw,
      keyStep_lyingZ_w oob (setFlags 1 0 0 0 g) hy1 hz rfl, ← rollScore_setFlags]
    rfl
  · have hy1 : g.longy ≠ 1 := by omega
    have hz1 : g.longz ≠ 1 := by omega
    rw [keyStep_lyingX_w oob g hy1 hz1 hx hw,
      keyStep_lyingX_w oob (setFlags 1 0 0 0 g) hy1 hz1 hx rfl, ← slideScore_setFlags]
    rfl

/-- With `s` the first pending key in the order `w`, `s`, `a`, `d`, the
handlers do what they do with `s` alone pending, and leave the other flags. -/
theorem keyStep_first_s (oob : Oob) (g : Game) (hor : Oriented g)
    (hw : g.w_pressed ≠ 1) (hs : g.s_pressed = 1) :
    keyStep oob g =
      setFlags g.w_pressed 0 g.a_pressed g.d_pressed (keyStep oob (setFlags 0 1 0 0 g)) := by
  have h01 : (0 : Int) ≠ 1 := by decide
  rcases hor with ⟨hy, hz, hx⟩ | ⟨hy, hz, hx⟩ | ⟨hy, hz, hx⟩
  · rw [keyStep_upright_s oob g hy hw hs,
      keyStep_upright_s oob (setFlags 0 1 0 0 g) hy h01 rfl, ← rollScore_setFlags]
    rfl
  · have hy1 : g.longy ≠ 1 := by omega
    rw [keyStep_lyingZ_s oob g hy1 hz hw hs,
      keyStep_lyingZ_s oob (setFlags 0 1 0 0 g) hy1 hz h01 rfl, ← rollScoreElse_setFlags]
    rfl
  · have hy1 : g.longy ≠ 1 := by omega
    have hz1 : g.longz ≠ 1 := by omega
    rw [keyStep_lyingX_s oob g hy1 hz1 hx hw hs,
      keyStep_lyingX_s oob (setFlags 0 1 0 0 g) hy1 hz1 hx h01 rfl, ← slideScore_setFlags]
    rfl

/-- With `a` the first pending key in the order `w`, `s`, `a`, `d`, the
handlers do what they do with `a` alone pending, and leave the other flags. -/
theorem keyStep_first_a (oob : Oob) (g : Game) (hor : Oriented g)
    (hw : g.w_pressed ≠ 1) (hs : g.s_pressed ≠ 1) (ha : g.a_pressed = 1) :
    keyStep oob g =
      setFlags g.w_pressed g.s_pressed 0 g.d_pressed (keyStep oob (setFlags 0 0 1 0 g)) := by
  have h01 : (0 : Int) ≠ 1 := by decide
  rcases hor with ⟨hy, hz, hx⟩ | ⟨hy, hz, hx⟩ | ⟨hy, hz, hx⟩
  · rw [keyStep_upright_a oob g hy hw hs ha,
      keyStep_upright_a oob (setFlags 0 0 1 0 g) hy h01 h01 rfl, ← rollScore_setFlags]
    rfl
  · have hy1 : g.longy ≠ 1 := by omega
    rw [keyStep_lyingZ_a oob g hy1 hz hw hs ha,
      keyStep_lyingZ_a oob (setFlags 0 0 1 0 g) hy1 hz h01 h01 rfl, ← slideScoreElseIf_setFlags]
    rfl
  · have hy1 : g.longy ≠ 1 := by omega
    have hz1 : g.longz ≠ 1 := by omega
    rw [keyStep_lyingX_a oob g hy1 hz1 hx hw hs ha,
      keyStep_lyingX_a oob (setFlags 0 0 1 0 g) hy1 hz1 hx h01 h01 rfl, ← rollScore_setFlags]
    rfl

/-- With `d` the first pending key in the order `w`, `s`, `a`, `d`, the
handlers do what they do with `d` alone pending, and leave the other flags. -/
theorem keyStep_first_d (oob : Oob) (g : Game) (hor : Oriented g)
    (hw : g.w_pressed ≠ 1) (hs : g.s_pressed ≠ 1) (ha : g.a_pressed ≠ 1) (hd : g.d_pressed = 1) :
    keyStep oob g =
      setFlags g.w_pressed g.s_pressed g.a_pressed 0 (keyStep oob (setFlags 0 0 0 1 g)) := by
  have h01 : (0 : Int) ≠ 1 := by decide
  rcases hor with ⟨hy, hz, hx⟩ | ⟨hy, hz, hx⟩ | ⟨hy, hz, hx⟩
  · rw [keyStep_upright_d oob g hy hw hs ha hd,
      keyStep_upright_d oob (setFlags 0 0 0 1 g) hy h01 h01 h01 rfl, ← rollScore_setFlags]
    rfl
  · have hy1 : g.longy ≠ 1 := by omega
    rw [keyStep_lyingZ_d oob g hy1 hz hw hs ha hd,
      keyStep_lyingZ_d oob (setFlags 0 0 0 1 g) hy1 hz h01 h01 h01 rfl, ← slideScore_setFlags]
    rfl
  · have hy1 : g.longy ≠ 1 := by omega
    have hz1 : g.longz ≠ 1 := by omega
    rw [keyStep_lyingX_d oob g hy1 hz1 hx hw hs ha hd,
      keyStep_lyingX_d oob (setFlags 0 0 0 1 g) hy1 hz1 hx h01 h01 h01 rfl, ← rollScore_setFlags]
    rfl


/-- C21. One key per frame.  For an oriented block with any key flags
pending, the frame consumes the first pending key in the order `w`, `s`, `a`,
`d`: its result is the result of the frame with that key alone pending, with
the consumed flag at `0` and the other three flags as they were before the
frame.  With no key pending the frame is the check and leaves all four flags. -/
theorem C21_one_key_per_frame (oob : Oob) (g : Game) (hor : Oriented g) :
    (g.w_pressed = 1 →
      frame oob g =
        setFlags 0 g.s_pressed g.a_pressed g.d_pressed (frame oob (setFlags 1 0 0 0 g))) ∧
    (g.w_pressed ≠ 1 → g.s_pressed = 1 →
      frame oob g =
        setFlags g.w_pressed 0 g.a_pressed g.d_pressed (frame oob (setFlags 0 1 0 0 g))) ∧
    (g.w_pressed ≠ 1 → g.s_pressed ≠ 1 → g.a_pressed = 1 →
      frame oob g =
        setFlags g.w_pressed g.s_pressed 0 g.d_pressed (frame oob (setFlags 0 0 1 0 g))) ∧
    (g.w_pressed ≠ 1 → g.s_pressed ≠ 1 → g.a_pressed ≠ 1 → g.d_pressed = 1 →
      frame oob g =
        setFlags g.w_pressed g.s_pressed g.a_pressed 0 (frame oob (setFlags 0 0 0 1 g))) ∧
    (idle g →
      frame oob g =
        setFlags g.w_pressed g.s_pressed g.a_pressed g.d_pressed (check oob g)) := by
  refine ⟨fun hw => ?_, fun hw hs => ?_, fun hw hs ha => ?_, fun hw hs ha hd => ?_, fun hi => ?_⟩
  · unfold frame
    rw [keyStep_first_w oob g hor hw, check_setFlags]
  · unfold frame
    rw [keyStep_first_s oob g hor hw hs, check_setFlags]
  · unfold frame
    rw [keyStep_first_a oob g hor hw hs ha, check_setFlags]
  · unfold frame
    rw [keyStep_first_d oob g hor hw hs ha hd, check_setFlags]
  · unfold frame
    rw [keyStep_idle oob g hi, ← check_setFlags]
    rfl

/-- C21 at the block of `lyingXSample` with `s`, `a` and `d` pending: the
frame consumes `s` and leaves `a` and `d` set. -/
theorem C21_one_key_per_frame_witness :
    frame zeroOob (setFlags 0 1 1 1 lyingXSample) =
      setFlags 0 0 1 1 (frame zeroOob (setFlags 0 1 0 0 lyingXSample)) ∧
    frame zeroOob (setFlags 1 0 0 0 init) =
      setFlags 0 0 0 0 (frame zeroOob (setFlags 1 0 0 0 init)) ∧
    frame zeroOob (setFlags 0 0 1 1 init) =
      setFlags 0 0 0 1 (frame zeroOob (setFlags 0 0 1 0 init)) ∧
    frame zeroOob (setFlags 0 0 0 1 init) =
      setFlags 0 0 0 0 (frame zeroOob (setFlags 0 0 0 1 init)) ∧
    frame zeroOob init = setFlags 0 0 0 0 (check zeroOob init) :=
  ⟨(C21_one_key_per_frame zeroOob (setFlags 0 1 1 1 lyingXSample) (by decide)).2.1
      (by decide) (by decide),
   (C21_one_key_per_frame zeroOob (setFlags 1 0 0 0 init) (by decide)).1 (by decide),
   (C21_one_key_per_frame zeroOob (setFlags 0 0 1 1 init) (by decide)).2.2.1
      (by decide) (by decide) (by decide),
   (C21_one_key_per_frame zeroOob (setFlags 0 0 0 1 init) (by decide)).2.2.2.1
      (by decide) (by decide) (by decide) (by decide),
   (C21_one_key_per_frame zeroOob init (by decide)).2.2.2.2 (by decide)⟩


/-! ## The kinds of cell in the tables -/

/-- C22, as stated, fails.  On level 2 the cells `(8, 6)` and `(8, 7)` are
marked both in `frag_normal2` and in `bridge_normal2`. -/
theorem C22_two_kinds_counterexample :
    entry frag_normal2 8 6 = 1 ∧ entry bridge_normal2 8 6 = 1 ∧
    entry frag_normal2 8 7 = 1 ∧ entry bridge_normal2 8 7 = 1 ∧
    kindMarks 2 8 6 = 2 ∧ kindMarks 2 8 7 = 2 := by
  decide

/-- C22, amended.  On level 1 no cell carries more than one of the four
markings (fragile, bridge, goal, trigger).  On level 2 no cell does either,
except `(8, 6)` and `(8, 7)`, which are marked fragile and bridge and nothing
else. -/
theorem C22_single_kind :
    (∀ i j : Fin 10, kindMarks 1 i j ≤ 1) ∧
    (∀ i j : Fin 10, kindMarks 2 i j ≤ 1 ∨
      (i = 8 ∧ (j = 6 ∨ j = 7) ∧ kindMarks 2 i j = 2 ∧
        entry frag_normal2 i j = 1 ∧ entry bridge_normal2 i j = 1)) := by
  decide

/-- C28. The tables fit the order of the tests in the check.  On both levels:
every cell marked fragile, bridge or trigger has a floor table entry other
than `0`; the goal cell has floor table entry `0`; and the spawn cell `(0, 0)`
has floor table entry `1` and is marked neither fragile, nor bridge, nor
goal. -/
theorem C28_tables_fit_check :
    (∀ i j : Fin 10,
      (entry frag_normal i j = 1 ∨ entry bridge_normal i j = 1 ∨ entry normal_pos i j = 2 →
        entry normal_pos i j ≠ 0) ∧
      (entry goal_normal i j = 1 → entry normal_pos i j = 0) ∧
      (entry frag_normal2 i j = 1 ∨ entry bridge_normal2 i j = 1 ∨ entry normal_pos2 i j = 2 →
        entry normal_pos2 i j ≠ 0) ∧
      (entry goal_normal2 i j = 1 → entry normal_pos2 i j = 0)) ∧
    entry goal_normal 3 9 = 1 ∧ entry goal_normal2 8 8 = 1 ∧
    (entry normal_pos 0 0 = 1 ∧ entry frag_normal 0 0 = 0 ∧ entry bridge_normal 0 0 = 0 ∧
      entry goal_normal 0 0 = 0) ∧
    (entry normal_pos2 0 0 = 1 ∧ entry frag_normal2 0 0 = 0 ∧ entry bridge_normal2 0 0 = 0 ∧
      entry goal_normal2 0 0 = 0) ∧
    (∀ oob : Oob, check oob (spawnReset init) = spawnReset init ∧
      check oob (spawnReset level2Sample) = spawnReset level2Sample) := by
  refine ⟨by decide, by decide, by decide, by decide, by decide, fun oob => ⟨?_, ?_⟩⟩
  · exact check_at_spawn oob _ (by decide) (by decide) (by decide)
  · exact check_at_spawn oob _ (by decide) (by decide) (by decide)


/-! ## The trigger under an upright block -/

set_option maxRecDepth 100000 in
/-- C23 fails for a roll from lying along x.  On level 2, after the keys of
`besideTriggerKeys`, the block lies along x on `(4, 6)`, `(5, 6)` with the
bridge open.  The key `a` stands it upright on the trigger cell `(3, 6)`
without a fail, and the switch is not flipped: the `longx` + `a` handler reads
`normal_pos2[3][7]`, the cell beside.  The sibling handler `longz` + `s` does
flip it on the same cell: after `beforeTriggerKeys` the block lies along z on
`(3, 4)`, `(3, 5)`, and `s` stands it on `(3, 6)` with the switch going from
`0` to `1`. -/
theorem C23_lyingX_roll_misses_trigger :
    (play zeroOob besideTriggerKeys init).level = 2 ∧
    LyingX (play zeroOob besideTriggerKeys init) ∧
    footprint (play zeroOob besideTriggerKeys init) = [(4, 6), (5, 6)] ∧
    (play zeroOob besideTriggerKeys init).bridge_stat = 1 ∧
    Upright (frame zeroOob (keyboardChar 'a' (play zeroOob besideTriggerKeys init))) ∧
    footprint (frame zeroOob (keyboardChar 'a' (play zeroOob besideTriggerKeys init))) =
      [(3, 6)] ∧
    entry normal_pos2 3 6 = 2 ∧
    frame zeroOob (keyboardChar 'a' (play zeroOob besideTriggerKeys init)) =
      keyStep zeroOob (keyboardChar 'a' (play zeroOob besideTriggerKeys init)) ∧
    (frame zeroOob (keyboardChar 'a' (play zeroOob besideTriggerKeys init))).bridge_stat = 1 ∧
    keyStepRead (keyboardChar 'a' (play zeroOob besideTriggerKeys init)) = some (3, 7) ∧
    LyingZ (play zeroOob beforeTriggerKeys init) ∧
    (play zeroOob beforeTriggerKeys init).bridge_stat = 0 ∧
    footprint (frame zeroOob (keyboardChar 's' (play zeroOob beforeTriggerKeys init))) =
      [(3, 6)] ∧
    (frame zeroOob (keyboardChar 's' (play zeroOob beforeTriggerKeys init))).bridge_stat = 1 ∧
    keyStepRead (keyboardChar 's' (play zeroOob beforeTriggerKeys init)) = some (3, 6) := by
  decide

/-! ## A winning run -/

/-- The trace of a run starts with the state the run starts from. -/
theorem playTrace_cons (oob : Oob) (k : Char) (ks : List Char) (g : Game) :
    playTrace oob (k :: ks) g = g :: playTrace oob ks (frame oob (keyboardChar k g)) := by
  simp [playTrace, List.scanl]

/-- The trace of a run is never empty. -/
theorem playTrace_ne_nil (oob : Oob) (ks : List Char) (g : Game) : playTrace oob ks g ≠ [] := by
  cases ks with
  | nil => simp [playTrace, List.scanl]
  | cons k ks => simp [playTrace_cons]

/-- The loop of `main` with one key typed per poll is the run with one key per
frame, one frame late: the frame of an iteration handles the key of the poll
before it.  Here `h` is the state on entry to the loop body, and no state but
the last one has `win = 2`, so that the loop is not left before. -/
theorem run_one_key_per_poll (oob : Oob) : ∀ (keys : List Char) (h : Game), h.win < 2 →
    (∀ s ∈ (playTrace oob keys (frame oob h)).dropLast, s.win < 2) →
    run oob (keys.map (fun k => [k]) ++ [[]]) h = play oob keys (frame oob h) := by
  intro keys
  induction keys with
  | nil =>
    intro h hw _
    simp [run, mainIter, hw, pollEvents, play]
  | cons k ks ih =>
    intro h hw ht
    rw [playTrace_cons, List.dropLast_cons_of_ne_nil (playTrace_ne_nil _ _ _)] at ht
    have hf : (frame oob h).win < 2 := ht _ (List.mem_cons_self _ _)
    have hk : (keyboardChar k (frame oob h)).win < 2 := by
      rw [(keyboardChar_fields k (frame oob h)).2.2.2.2.2.2.1]
      exact hf
    have e : run oob ((k :: ks).map (fun k => [k]) ++ [[]]) h =
        run oob (ks.map (fun k => [k]) ++ [[]]) (keyboardChar k (frame oob h)) := by
      simp [run, mainIter, hw, pollEvents]
    rw [e, ih _ hk (fun s hs => ht s (List.mem_cons_of_mem _ hs))]
    simp [play]

/-- C24. The game can be won.  From the initial state the keys `d,d,s,s,s,s,s,s`,
one per frame, clear level 1: the block is back at spawn on level 2 with
`win = 1`, `score = 8` and the switch off.  The keys
`d,d,s,s,s,s,d,d,s,d,d,s,a,w,d` that follow clear level 2: the block stands on
the goal cell `(8, 8)` with `win = 2`, `score = 8`, `score2 = 23`.  The states
passed, as `(level, win, score, score2)`, show the counter of the level played
rising by one on every frame, so that no frame failed the block.  After the
last frame the loop of `main` is left, and the loop of `main` itself, with
these keys typed one per poll, ends in the same state.  All this for every
value of the out-of-range reads, none being made. -/
theorem C24_game_can_be_won (oob : Oob) :
    play oob winKeys1 init = { init with level := 2, win := 1, score := 8, score2 := 8 } ∧
    play oob (winKeys1 ++ winKeys2) init =
      { init with rect_posx := 3, rect_posz := 3, level := 2, win := 2, bridge_stat := 1,
                  score := 8, score2 := 23 } ∧
    (playTrace oob (winKeys1 ++ winKeys2) init).map
        (fun g => (g.level, g.win, g.score, g.score2)) =
      [(1, 0, 0, 0), (1, 0, 1, 0), (1, 0, 2, 0), (1, 0, 3, 0), (1, 0, 4, 0), (1, 0, 5, 0),
       (1, 0, 6, 0), (1, 0, 7, 0), (2, 1, 8, 8), (2, 1, 8, 9), (2, 1, 8, 10), (2, 1, 8, 11),
       (2, 1, 8, 12), (2, 1, 8, 13), (2, 1, 8, 14), (2, 1, 8, 15), (2, 1, 8, 16), (2, 1, 8, 17),
       (2, 1, 8, 18), (2, 1, 8, 19), (2, 1, 8, 20), (2, 1, 8, 21), (2, 1, 8, 22), (2, 2, 8, 23)] ∧
    (∀ keys : List Char, mainIter oob keys (play oob (winKeys1 ++ winKeys2) init) = none) ∧
    run oob ((winKeys1 ++ winKeys2).map (fun k => [k]) ++ [[]]) init =
      play oob (winKeys1 ++ winKeys2) init := by
  have e0 : frame oob (keyboardChar 'd'
      { rect_posx := -5, rect_posz := -5, longy := 1, longz := 0, longx := 0,
        w_pressed := 0, s_pressed := 0, a_pressed := 0, d_pressed := 0, level := 1, win := 0,
        bridge_stat := 0, score := 0, score2 := 0 }) =
      { rect_posx := -4, rect_posz := -5, longy := 0, longz := 0, longx := 1,
        w_pressed := 0, s_pressed := 0, a_pressed := 0, d_pressed := 0, level := 1, win := 0,
        bridge_stat := 0, score := 1, score2 := 0 } := by
    rw [keyboardChar_d]
    simp +decide [frame, keyStep, rollScore, rollScore1, rollScore2, rollScoreElse, slideScore,
      slideScoreElseIf, rd, check, checkY1, checkY2, checkZ1, checkZ2, checkX1, checkX2, fail1,
      fail2]
  have e1 : frame oob (keyboardChar 'd'
      { rect_posx := -4, rect_posz := -5, longy := 0, longz := 0, longx := 1,
        w_pressed := 0, s_pressed := 0, a_pressed := 0, d_pressed := 0, level := 1, win := 0,
        bridge_stat := 0, score := 1, score2 := 0 }) =
      { rect_posx := -2, rect_posz := -5, longy := 1, longz := 0, longx := 0,
        w_pressed := 0, s_pressed := 0, a_pressed := 0, d_pressed := 0, level := 1, win := 0,
        bridge_stat := 0, score := 2, score2 := 0 } := by
    rw [keyboardChar_d]
    simp +decide [frame, keyStep, rollScore, rollScore1, rollScore2, rollScoreElse, slideScore,
      slideScoreElseIf, rd, check, checkY1, checkY2, checkZ1, checkZ2, checkX1, checkX2, fail1,
      fail2]
  have e2 : frame oob (keyboardChar 's'
      { rect_posx := -2, rect_posz := -5, longy := 1, longz := 0, longx := 0,
        w_pressed := 0, s_pressed := 0, a_pressed := 0, d_pressed := 0, level := 1, win := 0,
        bridge_stat := 0, score := 2, score2 := 0 }) =
      { rect_posx := -2, rect_posz := -4, longy := 0, longz := 1, longx := 0,
        w_pressed := 0, s_pressed := 0, a_pressed := 0, d_pressed := 0, level := 1, win := 0,
        bridge_stat := 0, score := 3, score2 := 0 } := by
    rw [keyboardChar_s]
    simp +decide [frame, keyStep, rollScore, rollScore1, rollScore2, rollScoreElse, slideScore,
      slideScoreElseIf, rd, check, checkY1, checkY2, checkZ1, checkZ2, checkX1, checkX2, fail1,
      fail2]
  have e3 : frame oob (keyboardChar 's'
      { rect_posx := -2, rect_posz := -4, longy := 0, longz := 1, longx := 0,
        w_pressed := 0, s_pressed := 0, a_pressed := 0, d_pressed := 0, level := 1, win := 0,
        bridge_stat := 0, score := 3, score2 := 0 }) =
      { rect_posx := -2, rect_posz := -2, longy := 1, longz := 0, longx := 0,
        w_pressed := 0, s_pressed := 0, a_pressed := 0, d_pressed := 0, level := 1, win := 0,
        bridge_stat := 1, score := 4, score2 := 0 } := by
    rw [keyboardChar_s]
    simp +decide [frame, keyStep, rollScore, rollScore1, rollScore2, rollScoreElse, slideScore,
      slideScoreElseIf, rd, check, checkY1, checkY2, checkZ1, checkZ2, checkX1, checkX2, fail1,
      fail2]
  have e4 : frame oob (keyboardChar 's'
      { rect_posx := -2, rect_posz := -2, longy := 1, longz := 0, longx := 0,
        w_pressed := 0, s_pressed := 0, a_pressed := 0, d_pressed := 0, level := 1, win := 0,
        bridge_stat := 1, score := 4, score2 := 0 }) =
      { rect_posx := -2, rect_posz := -1, longy := 0, longz := 1, longx := 0,
        w_pressed := 0, s_pressed := 0, a_pressed := 0, d_pressed := 0, level := 1, win := 0,
        bridge_stat := 1, score := 5, score2 := 0 } := by
    rw [keyboardChar_s]
    simp +decide [frame, keyStep, rollScore, rollScore1, rollScore2, rollScoreElse, slideScore,
      slideScoreElseIf, rd, check, checkY1, checkY2, checkZ1, checkZ2, checkX1, checkX2, fail1,
      fail2]
  have e5 : frame oob (keyboardChar 's'
      { rect_posx := -2, rect_posz := -1, longy := 0, longz := 1, longx := 0,
        w_pressed := 0, s_pressed := 0, a_pressed := 0, d_pressed := 0, level := 1, win := 0,
        bridge_stat := 1, score := 5, score2 := 0 }) =
      { rect_posx := -2, rect_posz := 1, longy := 1, longz := 0, longx := 0,
        w_pressed := 0, s_pressed := 0, a_pressed := 0, d_pressed := 0, level := 1, win := 0,
        bridge_stat := 1, score := 6, score2 := 0 } := by
    rw [keyboardChar_s]
    simp +decide [frame, keyStep, rollScore, rollScore1, rollScore2, rollScoreElse, slideScore,
      slideScoreElseIf, rd, check, checkY1, checkY2, checkZ1, checkZ2, checkX1, checkX2, fail1,
      fail2]
  have e6 : frame oob (keyboardChar 's'
      { rect_posx := -2, rect_posz := 1, longy := 1, longz := 0, longx := 0,
        w_pressed := 0, s_pressed := 0, a_pressed := 0, d_pressed := 0, level := 1, win := 0,
        bridge_stat := 1, score := 6, score2 := 0 }) =
      { rect_posx := -2, rect_posz := 2, longy := 0, longz := 1, longx := 0,
        w_pressed := 0, s_pressed := 0, a_pressed := 0, d_pressed := 0, level := 1, win := 0,
        bridge_stat := 1, score := 7, score2 := 0 } := by
    rw [keyboardChar_s]
    simp +decide [frame, keyStep, rollScore, rollScore1, rollScore2, rollScoreElse, slideScore,
      slideScoreElseIf, rd, check, checkY1, checkY2, checkZ1, checkZ2, checkX1, checkX2, fail1,
      fail2]
  have e7 : frame oob (keyboardChar 's'
      { rect_posx := -2, rect_posz := 2, longy := 0, longz := 1, longx := 0,
        w_pressed := 0, s_pressed := 0, a_pressed := 0, d_pressed := 0, level := 1, win := 0,
        bridge_stat := 1, score := 7, score2 := 0 }) =
      { rect_posx := -5, rect_posz := -5, longy := 1, longz := 0, longx := 0,
        w_pressed := 0, s_pressed := 0, a_pressed := 0, d_pressed := 0, level := 2, win := 1,
        bridge_stat := 0, score := 8, score2 := 8 } := by
    rw [keyboardChar_s]
    simp +decide [frame, keyStep, rollScore, rollScore1, rollScore2, rollScoreElse, slideScore,
      slideScoreElseIf, rd, check, checkY1, checkY2, checkZ1, checkZ2, checkX1, checkX2, fail1,
      fail2]
  have e8 : frame oob (keyboardChar 'd'
      { rect_posx := -5, rect_posz := -5, longy := 1, longz := 0, longx := 0,
        w_pressed := 0, s_pressed := 0, a_pressed := 0, d_pressed := 0, level := 2, win := 1,
        bridge_stat := 0, score := 8, score2 := 8 }) =
      { rect_posx := -4, rect_posz := -5, longy := 0, longz := 0, longx := 1,
        w_pressed := 0, s_pressed := 0, a_pressed := 0, d_pressed := 0, level := 2, win := 1,
        bridge_stat := 0, score := 8, score2 := 9 } := by
    rw [keyboardChar_d]
    simp +decide [frame, keyStep, rollScore, rollScore1, rollScore2, rollScoreElse, slideScore,
      slideScoreElseIf, rd, check, checkY1, checkY2, checkZ1, checkZ2, checkX1, checkX2, fail1,
      fail2]
  have e9 : frame oob (keyboardChar 'd'
      { rect_posx := -4, rect_posz := -5, longy := 0, longz := 0, longx := 1,
        w_pressed := 0, s_pressed := 0, a_pressed := 0, d_pressed := 0, level := 2, win := 1,
        bridge_stat := 0, score := 8, score2 := 9 }) =
      { rect_posx := -2, rect_posz := -5, longy := 1, longz := 0, longx := 0,
        w_pressed := 0, s_pressed := 0, a_pressed := 0, d_pressed := 0, level := 2, win := 1,
        bridge_stat := 0, score := 8, score2 := 10 } := by
    rw [keyboardChar_d]
    simp +decide [frame, keyStep, rollScore, rollScore1, rollScore2, rollScoreElse, slideScore,
      slideScoreElseIf, rd, check, checkY1, checkY2, checkZ1, checkZ2, checkX1, checkX2, fail1,
      fail2]
  have e10 : frame oob (keyboardChar 's'
      { rect_posx := -2, rect_posz := -5, longy := 1, longz := 0, longx := 0,
        w_pressed := 0, s_pressed := 0, a_pressed := 0, d_pressed := 0, level := 2, win := 1,
        bridge_stat := 0, score := 8, score2 := 10 }) =
      { rect_posx := -2, rect_posz := -4, longy := 0, longz := 1, longx := 0,
        w_pressed := 0, s_pressed := 0, a_pressed := 0, d_pressed := 0, level := 2, win := 1,
        bridge_stat := 0, score := 8, score2 := 11 } := by
    rw [keyboardChar_s]
    simp +decide [frame, keyStep, rollScore, rollScore1, rollScore2, rollScoreElse, slideScore,
      slideScoreElseIf, rd, check, checkY1, checkY2, checkZ1, checkZ2, checkX1, checkX2, fail1,
      fail2]
  have e11 : frame oob (keyboardChar 's'
      { rect_posx := -2, rect_posz := -4, longy := 0, longz := 1, longx := 0,
        w_pressed := 0, s_pressed := 0, a_pressed := 0, d_pressed := 0, level := 2, win := 1,
        bridge_stat := 0, score := 8, score2 := 11 }) =
      { rect_posx := -2, rect_posz := -2, longy := 1, longz := 0, longx := 0,
        w_pressed := 0, s_pressed := 0, a_pressed := 0, d_pressed := 0, level := 2, win := 1,
        bridge_stat := 0, score := 8, score2 := 12 } := by
    rw [keyboardChar_s]
    simp +decide [frame, keyStep, rollScore, rollScore1, rollScore2, rollScoreElse, slideScore,
      slideScoreElseIf, rd, check, checkY1, checkY2, checkZ1, checkZ2, checkX1, checkX2, fail1,
      fail2]
  have e12 : frame oob (keyboardChar 's'
      { rect_posx := -2, rect_posz := -2, longy := 1, longz := 0, longx := 0,
        w_pressed := 0, s_pressed := 0, a_pressed := 0, d_pressed := 0, level := 2, win := 1,
        bridge_stat := 0, score := 8, score2 := 12 }) =
      { rect_posx := -2, rect_posz := -1, longy := 0, longz := 1, longx := 0,
        w_pressed := 0, s_pressed := 0, a_pressed := 0, d_pressed := 0, level := 2, win := 1,
        bridge_stat := 0, score := 8, score2 := 13 } := by
    rw [keyboardChar_s]
    simp +decide [frame, keyStep, rollScore, rollScore1, rollScore2, rollScoreElse, slideScore,
      slideScoreElseIf, rd, check, checkY1, checkY2, checkZ1, checkZ2, checkX1, checkX2, fail1,
      fail2]
  have e13 : frame oob (keyboardChar 's'
      { rect_posx := -2, rect_posz := -1, longy := 0, longz := 1, longx := 0,
        w_pressed := 0, s_pressed := 0, a_pressed := 0, d_pressed := 0, level := 2, win := 1,
        bridge_stat := 0, score := 8, score2 := 13 }) =
      { rect_posx := -2, rect_posz := 1, longy := 1, longz := 0, longx := 0,
        w_pressed := 0, s_pressed := 0, a_pressed := 0, d_pressed := 0, level := 2, win := 1,
        bridge_stat := 1, score := 8, score2 := 14 } := by
    rw [keyboardChar_s]
    simp +decide [frame, keyStep, rollScore, rollScore1, rollScore2, rollScoreElse, slideScore,
      slideScoreElseIf, rd, check, checkY1, checkY2, checkZ1, checkZ2, checkX1, checkX2, fail1,
      fail2]
  have e14 : frame oob (keyboardChar 'd'
      { rect_posx := -2, rect_posz := 1, longy := 1, longz := 0, longx := 0,
        w_pressed := 0, s_pressed := 0, a_pressed := 0, d_pressed := 0, level := 2, win := 1,
        bridge_stat := 1, score := 8, score2 := 14 }) =
      { rect_posx := -1, rect_posz := 1, longy := 0, longz := 0, longx := 1,
        w_pressed := 0, s_pressed := 0, a_pressed := 0, d_pressed := 0, level := 2, win := 1,
        bridge_stat := 1, score := 8, score2 := 15 } := by
    rw [keyboardChar_d]
    simp +decide [frame, keyStep, rollScore, rollScore1, rollScore2, rollScoreElse, slideScore,
      slideScoreElseIf, rd, check, checkY1, checkY2, checkZ1, checkZ2, checkX1, checkX2, fail1,
      fail2]
  have e15 : frame oob (keyboardChar 'd'
      { rect_posx := -1, rect_posz := 1, longy := 0, longz := 0, longx := 1,
        w_pressed := 0, s_pressed := 0, a_pressed := 0, d_pressed := 0, level := 2, win := 1,
        bridge_stat := 1, score := 8, score2 := 15 }) =
      { rect_posx := 1, rect_posz := 1, longy := 1, longz := 0, longx := 0,
        w_pressed := 0, s_pressed := 0, a_pressed := 0, d_pressed := 0, level := 2, win := 1,
        bridge_stat := 1, score := 8, score2 := 16 } := by
    rw [keyboardChar_d]
    simp +decide [frame, keyStep, rollScore, rollScore1, rollScore2, rollScoreElse, slideScore,
      slideScoreElseIf, rd, check, checkY1, checkY2, checkZ1, checkZ2, checkX1, checkX2, fail1,
      fail2]
  have e16 : frame oob (keyboardChar 's'
      { rect_posx := 1, rect_posz := 1, longy := 1, longz := 0, longx := 0,
        w_pressed := 0, s_pressed := 0, a_pressed := 0, d_pressed := 0, level := 2, win := 1,
        bridge_stat := 1, score := 8, score2 := 16 }) =
      { rect_posx := 1, rect_posz := 2, longy := 0, longz := 1, longx := 0,
        w_pressed := 0, s_pressed := 0, a_pressed := 0, d_pressed := 0, level := 2, win := 1,
        bridge_stat := 1, score := 8, score2 := 17 } := by
    rw [keyboardChar_s]
    simp +decide [frame, keyStep, rollScore, rollScore1, rollScore2, rollScoreElse, slideScore,
      slideScoreElseIf, rd, check, checkY1, checkY2, checkZ1, checkZ2, checkX1, checkX2, fail1,
      fail2]
  have e17 : frame oob (keyboardChar 'd'
      { rect_posx := 1, rect_posz := 2, longy := 0, longz := 1, longx := 0,
        w_pressed := 0, s_pressed := 0, a_pressed := 0, d_pressed := 0, level := 2, win := 1,
        bridge_stat := 1, score := 8, score2 := 17 }) =
      { rect_posx := 2, rect_posz := 2, longy := 0, longz := 1, longx := 0,
        w_pressed := 0, s_pressed := 0, a_pressed := 0, d_pressed := 0, level := 2, win := 1,
        bridge_stat := 1, score := 8, score2 := 18 } := by
    rw [keyboardChar_d]
    simp +decide [frame, keyStep, rollScore, rollScore1, rollScore2, rollScoreElse, slideScore,
      slideScoreElseIf, rd, check, checkY1, checkY2, checkZ1, checkZ2, checkX1, checkX2, fail1,
      fail2]
  have e18 : frame oob (keyboardChar 'd'
      { rect_posx := 2, rect_posz := 2, longy := 0, longz := 1, longx := 0,
        w_pressed := 0, s_pressed := 0, a_pressed := 0, d_pressed := 0, level := 2, win := 1,
        bridge_stat := 1, score := 8, score2 := 18 }) =
      { rect_posx := 3, rect_posz := 2, longy := 0, longz := 1, longx := 0,
        w_pressed := 0, s_pressed := 0, a_pressed := 0, d_pressed := 0, level := 2, win := 1,
        bridge_stat := 1, score := 8, score2 := 19 } := by
    rw [keyboardChar_d]
    simp +decide [frame, keyStep, rollScore, rollScore1, rollScore2, rollScoreElse, slideScore,
      slideScoreElseIf, rd, check, checkY1, checkY2, checkZ1, checkZ2, checkX1, checkX2, fail1,
      fail2]
  have e19 : frame oob (keyboardChar 's'
      { rect_posx := 3, rect_posz := 2, longy := 0, longz := 1, longx := 0,
        w_pressed := 0, s_pressed := 0, a_pressed := 0, d_pressed := 0, level := 2, win := 1,
        bridge_stat := 1, score := 8, score2 := 19 }) =
      { rect_posx := 3, rect_posz := 4, longy := 1, longz := 0, longx := 0,
        w_pressed := 0, s_pressed := 0, a_pressed := 0, d_pressed := 0, level := 2, win := 1,
        bridge_stat := 1, score := 8, score2 := 20 } := by
    rw [keyboardChar_s]
    simp +decide [frame, keyStep, rollScore, rollScore1, rollScore2, rollScoreElse, slideScore,
      slideScoreElseIf, rd, check, checkY1, checkY2, checkZ1, checkZ2, checkX1, checkX2, fail1,
      fail2]
  have e20 : frame oob (keyboardChar 'a'
      { rect_posx := 3, rect_posz := 4, longy := 1, longz := 0, longx := 0,
        w_pressed := 0, s_pressed := 0, a_pressed := 0, d_pressed := 0, level := 2, win := 1,
        bridge_stat := 1, score := 8, score2 := 20 }) =
      { rect_posx := 1, rect_posz := 4, longy := 0, longz := 0, longx := 1,
        w_pressed := 0, s_pressed := 0, a_pressed := 0, d_pressed := 0, level := 2, win := 1,
        bridge_stat := 1, score := 8, score2 := 21 } := by
    rw [keyboardChar_a]
    simp +decide [frame, keyStep, rollScore, rollScore1, rollScore2, rollScoreElse, slideScore,
      slideScoreElseIf, rd, check, checkY1, checkY2, checkZ1, checkZ2, checkX1, checkX2, fail1,
      fail2]
  have e21 : frame oob (keyboardChar 'w'
      { rect_posx := 1, rect_posz := 4, longy := 0, longz := 0, longx := 1,
        w_pressed := 0, s_pressed := 0, a_pressed := 0, d_pressed := 0, level := 2, win := 1,
        bridge_stat := 1, score := 8, score2 := 21 }) =
      { rect_posx := 1, rect_posz := 3, longy := 0, longz := 0, longx := 1,
        w_pressed := 0, s_pressed := 0, a_pressed := 0, d_pressed := 0, level := 2, win := 1,
        bridge_stat := 1, score := 8, score2 := 22 } := by
    rw [keyboardChar_w]
    simp +decide [frame, keyStep, rollScore, rollScore1, rollScore2, rollScoreElse, slideScore,
      slideScoreElseIf, rd, check, checkY1, checkY2, checkZ1, checkZ2, checkX1, checkX2, fail1,
      fail2]
  have e22 : frame oob (keyboardChar 'd'
      { rect_posx := 1, rect_posz := 3, longy := 0, longz := 0, longx := 1,
        w_pressed := 0, s_pressed := 0, a_pressed := 0, d_pressed := 0, level := 2, win := 1,
        bridge_stat := 1, score := 8, score2 := 22 }) =
      { rect_posx := 3, rect_posz := 3, longy := 1, longz := 0, longx := 0,
        w_pressed := 0, s_pressed := 0, a_pressed := 0, d_pressed := 0, level := 2, win := 2,
        bridge_stat := 1, score := 8, score2 := 23 } := by
    rw [keyboardChar_d]
    simp +decide [frame, keyStep, rollScore, rollScore1, rollScore2, rollScoreElse, slideScore,
      slideScoreElseIf, rd, check, checkY1, checkY2, checkZ1, checkZ2, checkX1, checkX2, fail1,
      fail2]
  have p1 : play oob winKeys1 init =
      { init with level := 2, win := 1, score := 8, score2 := 8 } := by
    simp only [play, winKeys1, List.foldl]
    rw [show init =
      { rect_posx := -5, rect_posz := -5, longy := 1, longz := 0, longx := 0,
        w_pressed := 0, s_pressed := 0, a_pressed := 0, d_pressed := 0, level := 1, win := 0,
        bridge_stat := 0, score := 0, score2 := 0 } from rfl]
    rw [e0, e1, e2, e3, e4, e5, e6, e7]
  have p2 : play oob (winKeys1 ++ winKeys2) init =
      { init with rect_posx := 3, rect_posz := 3, level := 2, win := 2, bridge_stat := 1,
                  score := 8, score2 := 23 } := by
    simp only [play, winKeys1, winKeys2, List.cons_append, List.nil_append, List.foldl]
    rw [show init =
      { rect_posx := -5, rect_posz := -5, longy := 1, longz := 0, longx := 0,
        w_pressed := 0, s_pressed := 0, a_pressed := 0, d_pressed := 0, level := 1, win := 0,
        bridge_stat := 0, score := 0, score2 := 0 } from rfl]
    rw [e0, e1, e2, e3, e4, e5, e6, e7, e8, e9, e10, e11, e12, e13, e14, e15, e16, e17, e18, e19,
      e20, e21, e22]
  have tr : (playTrace oob (winKeys1 ++ winKeys2) init).map
        (fun g => (g.level, g.win, g.score, g.score2)) =
      [(1, 0, 0, 0), (1, 0, 1, 0), (1, 0, 2, 0), (1, 0, 3, 0), (1, 0, 4, 0), (1, 0, 5, 0),
       (1, 0, 6, 0), (1, 0, 7, 0), (2, 1, 8, 8), (2, 1, 8, 9), (2, 1, 8, 10), (2, 1, 8, 11),
       (2, 1, 8, 12), (2, 1, 8, 13), (2, 1, 8, 14), (2, 1, 8, 15), (2, 1, 8, 16), (2, 1, 8, 17),
       (2, 1, 8, 18), (2, 1, 8, 19), (2, 1, 8, 20), (2, 1, 8, 21), (2, 1, 8, 22),
       (2, 2, 8, 23)] := by
    simp only [playTrace, winKeys1, winKeys2, List.cons_append, List.nil_append, List.scanl]
    rw [show init =
      { rect_posx := -5, rect_posz := -5, longy := 1, longz := 0, longx := 0,
        w_pressed := 0, s_pressed := 0, a_pressed := 0, d_pressed := 0, level := 1, win := 0,
        bridge_stat := 0, score := 0, score2 := 0 } from rfl]
    rw [e0, e1, e2, e3, e4, e5, e6, e7, e8, e9, e10, e11, e12, e13, e14, e15, e16, e17, e18, e19,
      e20, e21, e22]
    rfl
  have f0 : frame oob init = init := by
    rw [frame, keyStep_idle oob init (by decide)]
    exact check_at_spawn oob init rfl rfl rfl
  have hw : ∀ s ∈ (playTrace oob (winKeys1 ++ winKeys2) init).dropLast, s.win < 2 := by
    intro s hs
    have hm := List.mem_map_of_mem (fun g : Game => (g.level, g.win, g.score, g.score2)) hs
    rw [List.map_dropLast, tr] at hm
    have key : ∀ t ∈ (
      [(1, 0, 0, 0), (1, 0, 1, 0), (1, 0, 2, 0), (1, 0, 3, 0), (1, 0, 4, 0), (1, 0, 5, 0),
       (1, 0, 6, 0), (1, 0, 7, 0), (2, 1, 8, 8), (2, 1, 8, 9), (2, 1, 8, 10), (2, 1, 8, 11),
       (2, 1, 8, 12), (2, 1, 8, 13), (2, 1, 8, 14), (2, 1, 8, 15), (2, 1, 8, 16), (2, 1, 8, 17),
       (2, 1, 8, 18), (2, 1, 8, 19), (2, 1, 8, 20), (2, 1, 8, 21), (2, 1, 8, 22), (2, 2, 8, 23)] :
        List (Int × Int × Int × Int)).dropLast, t.2.1 < 2 := by
      decide
    exact key _ hm
  refine ⟨p1, p2, tr, ?_, ?_⟩
  · intro keys
    rw [p2]
    rfl
  · rw [run_one_key_per_poll oob _ init (by decide) (by rw [f0]; exact hw), f0]

/-! ## Sideways rolls and the switch -/

/-- The check of a lying block either leaves the state or resets the block to
spawn, on every level: it never wins. -/
theorem check_lying_cases (oob : Oob) (m : Game) (hy : m.longy ≠ 1) (hor : Oriented m) :
    check oob m = m ∨ check oob m = spawnReset m := by
  by_cases hl : m.level = 1 ∨ m.level = 2
  · have hwl := check_lying_win_level oob m hy
    rcases check_cases oob m hl hor with h | h | h | h
    · exact Or.inl h
    · exact Or.inr h
    · exact absurd hwl.2 h
    · exact absurd hwl.1 h
  · have h1 : m.level ≠ 1 := fun h => hl (Or.inl h)
    have h2 : m.level ≠ 2 := fun h => hl (Or.inr h)
    left
    unfold check
    rw [if_neg hy]
    split_ifs
    · rw [checkZ1_of_ne oob m h1, checkZ2_of_ne oob m h2]
    · rw [checkX1_of_ne oob m h1, checkX2_of_ne oob m h2]
    · rfl

/-- The reset to spawn turns the switch off. -/
theorem spawnReset_bridge_stat (m : Game) : (spawnReset m).bridge_stat = 0 := by
  unfold spawnReset
  split_ifs <;> rfl

/-- C27. A sideways roll never operates the switch.  For a block lying along z
and key `a` or `d`, or lying along x and key `w` or `s`, no other key pending,
on any level and any cells: (1) the key handler leaves `bridge_stat` as it
was; (2) the check that follows either changes nothing or resets the block to
spawn; (3) so after the frame `bridge_stat` is what it was, or the frame
failed the block and `bridge_stat` is `0`. -/
theorem C27_sideways_roll_keeps_switch (oob : Oob) (g : Game) (key : Char) (hi : idle g)
    (hk : (LyingZ g ∧ (key = 'a' ∨ key = 'd')) ∨ (LyingX g ∧ (key = 'w' ∨ key = 's'))) :
    (keyStep oob (keyboardChar key g)).bridge_stat = g.bridge_stat ∧
    (frame oob (keyboardChar key g) = keyStep oob (keyboardChar key g) ∨
      frame oob (keyboardChar key g) = spawnReset (keyStep oob (keyboardChar key g))) ∧
    ((frame oob (keyboardChar key g)).bridge_stat = g.bridge_stat ∨
      ((frame oob (keyboardChar key g)).bridge_stat = 0 ∧
        frame oob (keyboardChar key g) = spawnReset (keyStep oob (keyboardChar key g)))) := by
  obtain ⟨hw, hs, ha, hd⟩ := hi
  have step : (keyStep oob (keyboardChar key g)).bridge_stat = g.bridge_stat ∧
      (keyStep oob (keyboardChar key g)).longy ≠ 1 ∧
      Oriented (keyStep oob (keyboardChar key g)) := by
    rcases hk with ⟨⟨hy, hz, hx⟩, rfl | rfl⟩ | ⟨⟨hy, hz, hx⟩, rfl | rfl⟩
    · have hy1 : g.longy ≠ 1 := by omega
      rw [keyboardChar_a, keyStep_lyingZ_a oob { g with a_pressed := 1 } hy1 hz hw hs rfl]
      refine ⟨by simp, by simpa using hy1, Or.inr (Or.inl ?_)⟩
      simp [LyingZ, hy, hx]
    · have hy1 : g.longy ≠ 1 := by omega
      rw [keyboardChar_d, keyStep_lyingZ_d oob { g with d_pressed := 1 } hy1 hz hw hs ha rfl]
      refine ⟨by simp, by simpa using hy1, Or.inr (Or.inl ?_)⟩
      simp [LyingZ, hy, hx]
    · have hy1 : g.longy ≠ 1 := by omega
      have hz1 : g.longz ≠ 1 := by omega
      rw [keyboardChar_w, keyStep_lyingX_w oob { g with w_pressed := 1 } hy1 hz1 hx rfl]
      refine ⟨by simp, by simpa using hy1, Or.inr (Or.inr ?_)⟩
      simp [LyingX, hy, hz]
    · have hy1 : g.longy ≠ 1 := by omega
      have hz1 : g.longz ≠ 1 := by omega
      rw [keyboardChar_s, keyStep_lyingX_s oob { g with s_pressed := 1 } hy1 hz1 hx hw rfl]
      refine ⟨by simp, by simpa using hy1, Or.inr (Or.inr ?_)⟩
      simp [LyingX, hy, hz]
  obtain ⟨hb, hy, hor⟩ := step
  have hc := check_lying_cases oob (keyStep oob (keyboardChar key g)) hy hor
  refine ⟨hb, hc, ?_⟩
  rcases hc with h | h
  · left
    rw [frame, h, hb]
  · right
    refine ⟨?_, h⟩
    rw [frame, h, spawnReset_bridge_stat]

/-- C27 at the trigger cell of level 2: the block lying along z on `(4, 6)`,
`(4, 7)` with the bridge open rolls sideways with key `a` onto `(3, 6)`,
`(3, 7)`; `(3, 6)` is the trigger cell, and the switch stays as it was. -/
theorem C27_sideways_roll_keeps_switch_witness :
    idle sidewaysSample ∧ LyingZ sidewaysSample ∧
    footprint (frame zeroOob (keyboardChar 'a' sidewaysSample)) = [(3, 6), (3, 7)] ∧
    entry normal_pos2 3 6 = 2 ∧
    (keyStep zeroOob (keyboardChar 'a' sidewaysSample)).bridge_stat = sidewaysSample.bridge_stat ∧
    (frame zeroOob (keyboardChar 'a' sidewaysSample)).bridge_stat = 1 :=
  ⟨by decide, by decide, by decide, by decide,
   (C27_sideways_roll_keeps_switch zeroOob sidewaysSample 'a' (by decide)
      (Or.inl ⟨by decide, Or.inl rfl⟩)).1, by decide⟩

/-! ## The goal index of the lying-z check -/

/-- On level 1 no cell with column below `9` is the goal, and no diagonal
cell is: the two goal reads of the anchor agree on "not the goal". -/
theorem goal_slip_level1 : ∀ i < 10, ∀ j < 9,
    (entry goal_normal j j ≠ 1 ↔ entry goal_normal i j ≠ 1) := by
  decide

/-- On level 2 the two goal reads of the anchor differ only for a void anchor
in column `8` off the goal, and there the far cell, in column `9`, is void as
well: the fail condition is the same. -/
theorem goal_slip_level2 : ∀ i < 10, ∀ j < 9,
    (((entry normal_pos2 i (j + 1) = 0 ∧ entry goal_normal2 i (j + 1) ≠ 1) ∨
        (entry normal_pos2 i j = 0 ∧ entry goal_normal2 j j ≠ 1)) ↔
      ((entry normal_pos2 i (j + 1) = 0 ∧ entry goal_normal2 i (j + 1) ≠ 1) ∨
        (entry normal_pos2 i j = 0 ∧ entry goal_normal2 i j ≠ 1))) := by
  decide

theorem checkZ1Intended_of_ne (oob : Oob) (h : Game) (hl : h.level ≠ 1) :
    checkZ1Intended oob h = h := by
  simp [checkZ1Intended, hl]

theorem checkZ2Intended_of_ne (oob : Oob) (h : Game) (hl : h.level ≠ 2) :
    checkZ2Intended oob h = h := by
  simp [checkZ2Intended, hl]

theorem checkZ1Intended_level (oob : Oob) (h : Game) :
    (checkZ1Intended oob h).level = h.level := by
  unfold checkZ1Intended fail1; split_ifs <;> rfl

/-- With both cells of the lying block in the grid, the level-1 block of the
check is the intended one. -/
theorem checkZ1_eq_intended (oob : Oob) (h : Game) (i j : Nat) (hi : i < 10) (hj : j < 9)
    (ex : h.rect_posx + 5 = (i : Int)) (ez : h.rect_posz + 5 = (j : Int)) :
    checkZ1 oob h = checkZ1Intended oob h := by
  have ez1 : h.rect_posz + 6 = ((j + 1 : Nat) : Int) := by push_cast; omega
  have hj0 : j < 10 := by omega
  have hj1 : j + 1 < 10 := by omega
  unfold checkZ1 checkZ1Intended
  by_cases hl : h.level = 1
  · rw [if_pos hl, if_pos hl]
    refine if_congr ?_ rfl rfl
    rw [ex, ez, ez1, rd_nat oob _ i (j + 1) hi hj1, rd_nat oob _ i (j + 1) hi hj1,
      rd_nat oob _ i j hi hj0, rd_nat oob _ j j hj0 hj0, rd_nat oob _ i j hi hj0,
      goal_slip_level1 i hi j hj]
  · rw [if_neg hl, if_neg hl]

/-- With both cells of the lying block in the grid, the level-2 block of the
check is the intended one. -/
theorem checkZ2_eq_intended (oob : Oob) (h : Game) (i j : Nat) (hi : i < 10) (hj : j < 9)
    (ex : h.rect_posx + 5 = (i : Int)) (ez : h.rect_posz + 5 = (j : Int)) :
    checkZ2 oob h = checkZ2Intended oob h := by
  have ez1 : h.rect_posz + 6 = ((j + 1 : Nat) : Int) := by push_cast; omega
  have hj0 : j < 10 := by omega
  have hj1 : j + 1 < 10 := by omega
  unfold checkZ2 checkZ2Intended
  by_cases hl : h.level = 2
  · rw [if_pos hl, if_pos hl]
    refine if_congr ?_ rfl rfl
    rw [ex, ez, ez1, rd_nat oob _ i (j + 1) hi hj1, rd_nat oob _ i (j + 1) hi hj1,
      rd_nat oob _ i j hi hj0, rd_nat oob _ j j hj0 hj0, rd_nat oob _ i j hi hj0,
      ← or_assoc, ← or_assoc, goal_slip_level2 i hi j hj]
  · rw [if_neg hl, if_neg hl]

/-- C25. The index slip of the lying-z check is harmless on the two levels.
For a block lying along z on level 1 or 2 with both footprint cells in the
grid, the level-1 and level-2 blocks of the check, which read the goal table
at `[rect_posz+5][rect_posz+5]` for the anchor cell, are equal to the blocks
reading it at the anchor cell `[rect_posx+5][rect_posz+5]`, and so is the
whole check: the code fails the block exactly when the intended check
does, and leaves the same state. -/
theorem C25_goal_index_slip_harmless (oob : Oob) (h : Game)
    (hl : h.level = 1 ∨ h.level = 2) (hz : LyingZ h) (hin : ∀ p ∈ footprint h, inGrid p) :
    checkZ1 oob h = checkZ1Intended oob h ∧
    checkZ2 oob h = checkZ2Intended oob h ∧
    check oob h = checkIntended oob h ∧
    (check oob h = spawnReset h ↔ checkIntended oob h = spawnReset h) := by
  rw [footprint_lyingZ h hz] at hin
  obtain ⟨a1, a2, a3, _⟩ := hin _ (List.mem_cons_self _ _)
  obtain ⟨_, _, _, b4⟩ := hin _ (List.mem_cons_of_mem _ (List.mem_cons_self _ _))
  simp only at a1 a2 a3 b4
  obtain ⟨i, ex⟩ := Int.eq_ofNat_of_zero_le a1
  obtain ⟨j, ez⟩ := Int.eq_ofNat_of_zero_le a3
  have hi : i < 10 := by omega
  have hj : j < 9 := by omega
  have e1 := checkZ1_eq_intended oob h i j hi hj ex ez
  have e2 := checkZ2_eq_intended oob h i j hi hj ex ez
  obtain ⟨hy, hz1, _⟩ := hz
  have hy1 : h.longy ≠ 1 := by omega
  have e3 : check oob h = checkIntended oob h := by
    unfold check checkIntended
    rw [if_neg hy1, if_pos hz1, if_neg hy1, if_pos hz1, ← e1]
    rcases hl with hl | hl
    · have hne : (checkZ1 oob h).level ≠ 2 := by
        rw [checkZ1_level, hl]
        decide
      rw [checkZ2_of_ne oob _ hne, checkZ2Intended_of_ne oob _ hne]
    · have hne : h.level ≠ 1 := by
        rw [hl]
        decide
      rw [checkZ1_of_ne oob h hne, e2]
  exact ⟨e1, e2, e3, by rw [e3]⟩

/-- C25 at the cell where the two reads differ: the block lies on the void
cells `(5, 8)`, `(5, 9)` of level 2; for the anchor the check reads
`goal_normal2[8][8] = 1`, the intended check `goal_normal2[5][8] = 0`, and
both fail the block, on account of the far cell. -/
theorem C25_goal_index_slip_harmless_witness :
    (slipSample.level = 1 ∨ slipSample.level = 2) ∧ LyingZ slipSample ∧
    (∀ p ∈ footprint slipSample, inGrid p) ∧
    footprint slipSample = [(5, 8), (5, 9)] ∧
    rd zeroOob goal_normal2 (slipSample.rect_posz + 5) (slipSample.rect_posz + 5) = 1 ∧
    rd zeroOob goal_normal2 (slipSample.rect_posx + 5) (slipSample.rect_posz + 5) = 0 ∧
    check zeroOob slipSample = spawnReset slipSample ∧
    check zeroOob slipSample = checkIntended zeroOob slipSample :=
  ⟨by decide, by decide, by decide, by decide, by decide, by decide, by decide,
   (C25_goal_index_slip_harmless zeroOob slipSample (by decide) (by decide) (by decide)).2.2.1⟩

/-! ## The bitwise or of `lightitup` -/

/-- The bitwise or of two comparisons is non-zero when one of them holds. -/
theorem lor_cBool_ne_zero (p q : Prop) [Decidable p] [Decidable q] :
    Int.lor (cBool p) (cBool q) ≠ 0 ↔ p ∨ q := by
  by_cases hp : p <;> by_cases hq : q <;> simp +decide [cBool, hp, hq]

/-- C26. The bitwise or of `lightitup` does not change the display.  For
every `sc`, every `bit` and every scoreboard, `lightitup` leaves the same
statuses as the same code with `sc==5||sc==6`; and for both digits the
bottom-right segment is lit for `sc` in `0, 1, 3, 4, 5, 6, 7, 8, 9` and dark
for every other `sc`. -/
theorem C26_bitwise_or_same_display (sc bit : Int) (b : Board) :
    lightitup sc bit b = lightitupLogical sc bit b ∧
    ((lightitup sc 0 b).br1 = 1 ↔
      sc = 0 ∨ sc = 1 ∨ sc = 3 ∨ sc = 4 ∨ sc = 5 ∨ sc = 6 ∨ sc = 7 ∨ sc = 8 ∨ sc = 9) ∧
    ((lightitup sc 1 b).br2 = 1 ↔
      sc = 0 ∨ sc = 1 ∨ sc = 3 ∨ sc = 4 ∨ sc = 5 ∨ sc = 6 ∨ sc = 7 ∨ sc = 8 ∨ sc = 9) ∧
    ((lightitup sc 0 b).br1 = 1 ∨ (lightitup sc 0 b).br1 = 0) ∧
    ((lightitup sc 1 b).br2 = 1 ∨ (lightitup sc 1 b).br2 = 0) := by
  have e : lightitup sc bit b = lightitupLogical sc bit b := by
    simp only [lightitup, lightitupLogical, lor_cBool_ne_zero, or_assoc]
  have h1 : (lightitup sc 0 b).br1 =
      if sc = 1 ∨ sc = 3 ∨ sc = 4 ∨ sc = 5 ∨ sc = 6 ∨ sc = 7 ∨ sc = 8 ∨ sc = 9 ∨ sc = 0
      then 1 else 0 := by
    simp only [lightitup, if_true, ↓apply_ite Board.br1, ite_self, lor_cBool_ne_zero, or_assoc]
  have h2 : (lightitup sc 1 b).br2 =
      if sc = 1 ∨ sc = 3 ∨ sc = 4 ∨ sc = 5 ∨ sc = 6 ∨ sc = 7 ∨ sc = 8 ∨ sc = 9 ∨ sc = 0
      then 1 else 0 := by
    simp +decide only [lightitup, if_true, if_false, ↓apply_ite Board.br2, ite_self,
      lor_cBool_ne_zero, or_assoc]
  refine ⟨e, ?_, ?_, ?_, ?_⟩
  · rw [h1]
    split_ifs with h
    · simp only [true_iff]
      omega
    · simp only [show ((0 : Int) = 1) = False from by decide, false_iff]
      omega
  · rw [h2]
    split_ifs with h
    · simp only [true_iff]
      omega
    · simp only [show ((0 : Int) = 1) = False from by decide, false_iff]
      omega
  · rw [h1]
    split_ifs
    · exact Or.inl rfl
    · exact Or.inr rfl
  · rw [h2]
    split_ifs
    · exact Or.inl rfl
    · exact Or.inr rfl

end Bloxorz
